import Mathlib

/-!
# DevConnect backend: error taxonomy, response envelopes and request validation

A shallow embedding of `src/utils/errors.js` and `src/middleware/swaggerValidator.js`.

JavaScript values are the inductive `JsVal`.  An object is its list of own fields in insertion
order; the list is read like an object literal, so a later entry for a key overrides an earlier
one.  Numbers carried inside values are integers (`num`) or `NaN` (`nan`): the values that the
modelled code stores are status codes, counts and the results of `parseInt`.  The arithmetic of
`createPaginatedResponse` is done on `JsNum`, rationals extended by the infinities and `NaN`
(rounding to doubles and the sign of zero are outside the model).  `new Date().toISOString()` is
the parameter `now`.  A thrown exception is the `Except.error` side of the result.
-/

set_option autoImplicit false

namespace DevConnect

/-! ## Values -/

/-- JavaScript values. -/
inductive JsVal where
  | undefined
  | null
  | bool (b : Bool)
  | num (n : Int)
  | nan
  | str (s : String)
  | arr (items : List JsVal)
  | obj (fields : List (String × JsVal))

/-- Exceptions thrown by the modelled code. -/
inductive JsThrow where
  | typeError
  | error (message : String)
deriving DecidableEq

namespace JsVal

/-- ToBoolean. -/
def truthy : JsVal → Bool
  | undefined => false
  | null => false
  | bool b => b
  | num n => n != 0
  | nan => false
  | str s => s != ""
  | arr _ => true
  | obj _ => true

/-- The test `v === undefined`. -/
def isUndefined : JsVal → Bool
  | undefined => true
  | _ => false

/-- The test `v === s` for a string literal `s`. -/
def strictEqStr : JsVal → String → Bool
  | str t, s => t == s
  | _, _ => false

/-- The test `v === n` for an integer literal `n`. -/
def strictEqNum : JsVal → Int → Bool
  | num m, n => m == n
  | _, _ => false

/-- The operator `a || b`. -/
def orElse (a b : JsVal) : JsVal :=
  if a.truthy then a else b

/-- A default parameter value: used when the argument is `undefined`. -/
def withDefault (v d : JsVal) : JsVal :=
  if v.isUndefined then d else v

mutual
/-- ToString, with `Array.prototype.join` for arrays (objects have no `toString` of their own). -/
def toStr : JsVal → String
  | undefined => "undefined"
  | null => "null"
  | bool b => if b then "true" else "false"
  | num n => toString n
  | nan => "NaN"
  | str s => s
  | arr items => joinItems "," items
  | obj _ => "[object Object]"
/-- The body of `Array.prototype.join(sep)`: `null` and `undefined` elements give the empty string. -/
def joinItems (sep : String) : List JsVal → String
  | [] => ""
  | x :: rest =>
    (match x with
      | undefined => ""
      | null => ""
      | v => toStr v) ++
    (match rest with
      | [] => ""
      | _ => sep ++ joinItems sep rest)
end

end JsVal

/-! ## Objects as field lists -/

/-- Reads key `k` of a field list; a later entry overrides an earlier one. -/
def lookupField : List (String × JsVal) → String → Option JsVal
  | [], _ => none
  | (k', v) :: rest, k =>
    match lookupField rest k with
    | some w => some w
    | none => if k' = k then some v else none

/-- The test `k in o` on a field list. -/
def hasField (fields : List (String × JsVal)) (k : String) : Bool :=
  (lookupField fields k).isSome

/-- The assignment `o[k] = v`: the value of an existing key is replaced in place, a new key
is appended. -/
def setField (fields : List (String × JsVal)) (k : String) (v : JsVal) :
    List (String × JsVal) :=
  if hasField fields k then fields.map (fun p => if p.1 = k then (p.1, v) else p)
  else fields ++ [(k, v)]

/-- Object.assign onto a field list: also the meaning of `{ ...base, ...src }`. -/
def assignFields (base src : List (String × JsVal)) : List (String × JsVal) :=
  src.foldl (fun acc p => setField acc p.1 p.2) base

/-- Pairs each element with its index, as the index-keyed fields of an array or string. -/
def indexFields : Nat → List JsVal → List (String × JsVal)
  | _, [] => []
  | i, x :: rest => (toString i, x) :: indexFields (i + 1) rest

namespace JsVal

/-- The own enumerable fields of a value: what object spread and `Object.assign` copy. -/
def ownFields : JsVal → List (String × JsVal)
  | obj fields => fields
  | arr items => indexFields 0 items
  | str s => indexFields 0 (s.data.map fun c => str (String.singleton c))
  | _ => []

/-- Property read `v[k]`: a TypeError on `null` and `undefined`, `undefined` for a missing key. -/
def getProp (v : JsVal) (k : String) : Except JsThrow JsVal :=
  match v with
  | undefined => .error .typeError
  | null => .error .typeError
  | arr items =>
    if k = "length" then .ok (num items.length)
    else .ok ((lookupField (indexFields 0 items) k).getD undefined)
  | str s =>
    if k = "length" then .ok (num s.length)
    else .ok ((lookupField v.ownFields k).getD undefined)
  | obj fields => .ok ((lookupField fields k).getD undefined)
  | _ => .ok undefined

/-- Property read `v[k]` on a value already known not to be `null` or `undefined`. -/
def read (v : JsVal) (k : String) : JsVal :=
  (v.getProp k).toOption.getD undefined

/-- The operator `k in v` for an object value (used only behind an `instanceof` test). -/
def hasProp (v : JsVal) (k : String) : Bool :=
  hasField v.ownFields k

end JsVal

/-! ## Numbers of the pagination arithmetic -/

/-- JavaScript numbers as exact rationals with the two infinities and NaN. -/
inductive JsNum where
  | fin (q : ℚ)
  | posInf
  | negInf
  | nan
deriving DecidableEq

namespace JsNum

/-- The operator `a / b` on finite operands. -/
def div (a b : ℚ) : JsNum :=
  if b = 0 then
    (if a = 0 then nan else if 0 < a then posInf else negInf)
  else fin (a / b)

/-- Math.ceil. -/
def ceil : JsNum → JsNum
  | fin q => fin ⌈q⌉
  | x => x

/-- The operator `a < b` with a finite left operand. -/
def ltFin (a : ℚ) : JsNum → Bool
  | fin q => decide (a < q)
  | posInf => true
  | negInf => false
  | nan => false

end JsNum

/-! ## `createPaginatedResponse` -/

/-- The `pagination` block of a paginated envelope. -/
structure Pagination where
  page : ℚ
  limit : ℚ
  total : ℚ
  total_pages : JsNum
  has_next : Bool
  has_prev : Bool

/-- The envelope returned by `createPaginatedResponse`. -/
structure PaginatedResponse where
  success : Bool
  data : JsVal
  pagination : Pagination
  timestamp : String

/-- Embedding of `createPaginatedResponse(data, page, limit, total)` (errors.js 188-206). -/
def createPaginatedResponse (data : JsVal) (page limit total : ℚ) (now : String) :
    PaginatedResponse :=
  let totalPages := JsNum.ceil (JsNum.div total limit)
  let hasNext := JsNum.ltFin page totalPages
  let hasPrev := decide (1 < page)
  { success := true
    data := data
    pagination :=
      { page := page
        limit := limit
        total := total
        total_pages := totalPages
        has_next := hasNext
        has_prev := hasPrev }
    timestamp := now }

/-! ## The error taxonomy (errors.js 4-91) -/

/-- An instance of `ApiError` or of one of its subclasses. -/
structure ApiError where
  name : String
  message : String
  statusCode : JsVal
  code : JsVal
  details : JsVal
  timestamp : String
  isOperational : Bool

/-- The `message` of an `Error` built by `super(message)`: the argument converted to a string,
and the prototype's empty string when the argument is `undefined`. -/
def errorMessage (message : JsVal) : String :=
  if message.isUndefined then "" else message.toStr

/-- Embedding of the `ApiError` constructor, with its default parameter values. -/
def ApiError.new (now : String) (message statusCode code details : JsVal) : ApiError :=
  { name := "ApiError"
    message := errorMessage message
    statusCode := statusCode.withDefault (.num 500)
    code := code.withDefault (.str "INTERNAL_ERROR")
    details := details.withDefault (.obj [])
    timestamp := now
    isOperational := true }

/-- Embedding of `ApiError.prototype.toJSON` (errors.js 17-27). -/
def ApiError.toJSON (e : ApiError) : JsVal :=
  .obj [("success", .bool false),
        ("error", .str e.message),
        ("details", .obj (assignFields [("code", e.code)] e.details.ownFields)),
        ("timestamp", .str e.timestamp)]

/-- Embedding of `new ValidationError(message, validationErrors)`. -/
def ValidationError (now : String) (message validationErrors : JsVal) : ApiError :=
  { ApiError.new now message (.num 400) (.str "VALIDATION_ERROR")
      (.obj [("validation_errors", validationErrors.withDefault (.obj []))]) with
    name := "ValidationError" }

/-- Embedding of `new AuthenticationError(message)`. -/
def AuthenticationError (now : String) (message : JsVal) : ApiError :=
  { ApiError.new now (message.withDefault (.str "Token de autenticación requerido"))
      (.num 401) (.str "AUTHENTICATION_ERROR") .undefined with
    name := "AuthenticationError" }

/-- Embedding of `new AuthorizationError(message)`. -/
def AuthorizationError (now : String) (message : JsVal) : ApiError :=
  { ApiError.new now
      (message.withDefault (.str "No tienes permisos para realizar esta acción"))
      (.num 403) (.str "AUTHORIZATION_ERROR") .undefined with
    name := "AuthorizationError" }

/-- Embedding of `new NotFoundError(resource)`. -/
def NotFoundError (now : String) (resource : JsVal) : ApiError :=
  { ApiError.new now
      (.str ((resource.withDefault (.str "Recurso")).toStr ++ " no encontrado"))
      (.num 404) (.str "NOT_FOUND_ERROR") .undefined with
    name := "NotFoundError" }

/-- Embedding of `new ConflictError(message)`. -/
def ConflictError (now : String) (message : JsVal) : ApiError :=
  { ApiError.new now (message.withDefault (.str "El recurso ya existe"))
      (.num 409) (.str "CONFLICT_ERROR") .undefined with
    name := "ConflictError" }

/-- Embedding of `new RateLimitError(message, retryAfter)`. -/
def RateLimitError (now : String) (message retryAfter : JsVal) : ApiError :=
  { ApiError.new now (message.withDefault (.str "Demasiadas solicitudes"))
      (.num 429) (.str "RATE_LIMIT_ERROR")
      (.obj [("retry_after", retryAfter.withDefault (.num 300))]) with
    name := "RateLimitError" }

/-- Embedding of `new RequestError(message)`. -/
def RequestError (now : String) (message : JsVal) : ApiError :=
  { ApiError.new now (message.withDefault (.str "Error en la solicitud"))
      (.num 400) (.str "REQUEST_ERROR") .undefined with
    name := "RequestError" }

/-- Embedding of `new DatabaseError(message, details)`. -/
def DatabaseError (now : String) (message details : JsVal) : ApiError :=
  { ApiError.new now (message.withDefault (.str "Error en la base de datos"))
      (.num 500) (.str "DATABASE_ERROR") (details.withDefault (.obj [])) with
    name := "DatabaseError" }

/-- Embedding of `new ExternalServiceError(service, message, details)`. -/
def ExternalServiceError (now : String) (service message details : JsVal) : ApiError :=
  { ApiError.new now
      (.str (service.toStr ++ ": " ++
        (message.withDefault (.str "Error en servicio externo")).toStr))
      (.num 502) (.str "EXTERNAL_SERVICE_ERROR")
      (.obj (assignFields [("service", service)]
        (details.withDefault (.obj [])).ownFields)) with
    name := "ExternalServiceError" }

/-! ## `errorHandler` (errors.js 94-157) -/

/-- The value caught as `err`: an instance of `ApiError`, or any other value, for which
`syntaxError` records the outcome of `err instanceof SyntaxError`. -/
inductive Fault where
  | apiError (e : ApiError)
  | value (v : JsVal) (syntaxError : Bool)

/-- The request fields that the modelled code reads and writes. -/
structure Request where
  url : JsVal
  method : JsVal
  ip : JsVal
  userAgent : JsVal
  body : JsVal
  query : JsVal
  params : JsVal
  validatedBody : Option JsVal
  validatedQuery : Option JsVal
  validatedParams : Option JsVal

/-- A request used to evaluate the handlers on concrete inputs: `GET /api/projects`. -/
def sampleRequest : Request :=
  { url := .str "/api/projects"
    method := .str "GET"
    ip := .str "127.0.0.1"
    userAgent := .undefined
    body := .undefined
    query := .obj []
    params := .obj []
    validatedBody := none
    validatedQuery := none
    validatedParams := none }

/-- The object written by `console.error` (the stack trace is not modelled). -/
structure LogEntry where
  name : String
  message : String
  statusCode : JsVal
  code : JsVal
  url : JsVal
  method : JsVal
  ip : JsVal
  userAgent : JsVal
  timestamp : String

/-- What `errorHandler` does when it returns: one log entry, one response. -/
structure HandlerResult where
  log : LogEntry
  status : JsVal
  body : JsVal

/-- The loop `err.details.forEach(detail => validationErrors[detail.path.join('.')] =
detail.message)` over the elements of `err.details`. -/
def joiValidationErrors :
    List JsVal → List (String × JsVal) → Except JsThrow (List (String × JsVal))
  | [], acc => .ok acc
  | detail :: rest, acc =>
    match detail.getProp "path" with
    | .error t => .error t
    | .ok (.arr segments) =>
      match detail.getProp "message" with
      | .error t => .error t
      | .ok message =>
        joiValidationErrors rest (setField acc (JsVal.joinItems "." segments) message)
    | .ok _ => .error .typeError

/-- The conversion of a fault that is not an `ApiError` (errors.js 98-139). -/
def convertFault (now : String) (err : JsVal) (syntaxError : Bool) : Except JsThrow ApiError :=
  match err.getProp "isJoi" with
  | .error t => .error t
  | .ok isJoi =>
    if isJoi.truthy then
      match err.read "details" with
      | .arr details =>
        match joiValidationErrors details [] with
        | .error t => .error t
        | .ok validationErrors =>
          .ok (ValidationError now (.str "Datos de entrada inválidos") (.obj validationErrors))
      | _ => .error .typeError
    else if (err.read "code").strictEqStr "23505" then
      .ok (ConflictError now (.str "El recurso ya existe"))
    else if (err.read "code").strictEqStr "23503" then
      .ok (ValidationError now (.str "Referencia inválida") .undefined)
    else if (err.read "code").strictEqStr "23502" then
      .ok (ValidationError now (.str "Campo requerido faltante") .undefined)
    else if syntaxError && (err.read "status").strictEqNum 400 && err.hasProp "body" then
      .ok (RequestError now (.str "JSON inválido en el cuerpo de la solicitud"))
    else if (err.read "name").strictEqStr "JsonWebTokenError" then
      .ok (AuthenticationError now (.str "Token inválido"))
    else if (err.read "name").strictEqStr "TokenExpiredError" then
      .ok (AuthenticationError now (.str "Token expirado"))
    else if (err.read "name").strictEqStr "NotBeforeError" then
      .ok (AuthenticationError now (.str "Token no válido aún"))
    else
      .ok (ApiError.new now ((err.read "message").orElse (.str "Error interno del servidor"))
        (.num 500) (.str "INTERNAL_SERVER_ERROR") .undefined)

/-- Embedding of `errorHandler(err, req, res, next)`. -/
def errorHandler (err : Fault) (req : Request) (now : String) : Except JsThrow HandlerResult :=
  let converted : Except JsThrow ApiError :=
    match err with
    | .apiError e => .ok e
    | .value v syntaxError => convertFault now v syntaxError
  match converted with
  | .error t => .error t
  | .ok error =>
    .ok { log :=
            { name := error.name
              message := error.message
              statusCode := error.statusCode
              code := error.code
              url := req.url
              method := req.method
              ip := req.ip
              userAgent := req.userAgent
              timestamp := error.timestamp }
          status := error.statusCode
          body := error.toJSON }

/-! ## `createSuccessResponse` (errors.js 166-185) -/

/-- The pair returned by `createSuccessResponse`. -/
structure SuccessResult where
  response : List (String × JsVal)
  statusCode : JsVal

/-- Embedding of `createSuccessResponse(data, message, statusCode)`. -/
def createSuccessResponse (data message statusCode : JsVal) (now : String) : SuccessResult :=
  let message := message.withDefault (.str "Operación exitosa")
  let statusCode := statusCode.withDefault (.num 200)
  let response : List (String × JsVal) :=
    [("success", .bool true), ("message", message), ("timestamp", .str now)]
  let response :=
    if data.truthy then
      match data with
      | .arr items => setField (setField response "data" data) "total" (.num items.length)
      | .obj fields => assignFields response fields
      | _ => setField response "data" data
    else response
  { response := response, statusCode := statusCode }

/-! ## Numeric strings: `isNaN` and `parseInt` -/

/-- The characters of StrWhiteSpaceChar (white space and line terminators). -/
def isStrWhiteSpace (c : Char) : Bool :=
  let n := c.toNat
  n == 0x09 || n == 0x0A || n == 0x0B || n == 0x0C || n == 0x0D || n == 0x20 || n == 0xA0
    || n == 0x1680 || (0x2000 ≤ n && n ≤ 0x200A) || n == 0x2028 || n == 0x2029 || n == 0x202F
    || n == 0x205F || n == 0x3000 || n == 0xFEFF

/-- The value of a digit in radix `radix`, if the character is one. -/
def digitValue (radix : Nat) (c : Char) : Option Nat :=
  let n := c.toNat
  let d :=
    if 48 ≤ n && n ≤ 57 then some (n - 48)
    else if 97 ≤ n && n ≤ 122 then some (n - 97 + 10)
    else if 65 ≤ n && n ≤ 90 then some (n - 65 + 10)
    else none
  match d with
  | some x => if x < radix then some x else none
  | none => none

/-- The test that a character is a digit of radix `radix`. -/
def isDigitOf (radix : Nat) (c : Char) : Bool :=
  (digitValue radix c).isSome

/-- The string with leading and trailing StrWhiteSpaceChar removed. -/
def trimWhiteSpace (cs : List Char) : List Char :=
  ((cs.dropWhile isStrWhiteSpace).reverse.dropWhile isStrWhiteSpace).reverse

/-- Removes one leading sign character, if present. -/
def dropSign : List Char → List Char
  | '+' :: rest => rest
  | '-' :: rest => rest
  | cs => cs

/-- The grammar ExponentPart? at the end of a decimal literal: nothing, or `e`/`E`, an optional
sign and at least one digit. -/
def isExponentTail : List Char → Bool
  | [] => true
  | c :: rest =>
    (c == 'e' || c == 'E') && (dropSign rest) != [] && (dropSign rest).all (isDigitOf 10)

/-- The grammar StrUnsignedDecimalLiteral: `Infinity`, or digits with an optional fraction and
exponent, or a fraction with an optional exponent. -/
def isUnsignedDecimal (cs : List Char) : Bool :=
  if cs == "Infinity".data then true
  else
    let intPart := cs.takeWhile (isDigitOf 10)
    let rest := cs.dropWhile (isDigitOf 10)
    match rest with
    | '.' :: afterDot =>
      let fracPart := afterDot.takeWhile (isDigitOf 10)
      let tail := afterDot.dropWhile (isDigitOf 10)
      (intPart != [] || fracPart != []) && isExponentTail tail
    | _ => intPart != [] && isExponentTail rest

/-- The grammar StringNumericLiteral, after trimming: the strings on which `Number(s)` is not
NaN. -/
def isNumericLiteral (cs : List Char) : Bool :=
  match trimWhiteSpace cs with
  | [] => true
  | '0' :: 'x' :: ds => ds != [] && ds.all (isDigitOf 16)
  | '0' :: 'X' :: ds => ds != [] && ds.all (isDigitOf 16)
  | '0' :: 'o' :: ds => ds != [] && ds.all (isDigitOf 8)
  | '0' :: 'O' :: ds => ds != [] && ds.all (isDigitOf 8)
  | '0' :: 'b' :: ds => ds != [] && ds.all (isDigitOf 2)
  | '0' :: 'B' :: ds => ds != [] && ds.all (isDigitOf 2)
  | t => isUnsignedDecimal (dropSign t)

/-- Embedding of the global `isNaN(v)`: `Number(v)` is NaN. -/
def isNaN : JsVal → Bool
  | .undefined => true
  | .null => false
  | .bool _ => false
  | .num _ => false
  | .nan => true
  | .str s => !isNumericLiteral s.data
  | .arr items => !isNumericLiteral (JsVal.arr items).toStr.data
  | .obj _ => true

/-- The number written by a list of digits in radix `radix`. -/
def digitsValue (radix : Nat) (ds : List Char) : Nat :=
  ds.foldl (fun acc c => acc * radix + (digitValue radix c).getD 0) 0

/-- The steps of `parseInt` after the sign: an optional `0x` prefix selects radix 16, then the
longest prefix of digits is read; no digit gives NaN. -/
def parseUnsigned (negative : Bool) (cs : List Char) : JsVal :=
  let radix : Nat :=
    match cs with
    | '0' :: 'x' :: _ => 16
    | '0' :: 'X' :: _ => 16
    | _ => 10
  let body : List Char :=
    match cs with
    | '0' :: 'x' :: rest => rest
    | '0' :: 'X' :: rest => rest
    | _ => cs
  let ds := body.takeWhile (isDigitOf radix)
  if ds == [] then .nan
  else if negative then .num (-(digitsValue radix ds : Int))
  else .num (digitsValue radix ds)

/-- Embedding of the global `parseInt(v)` with no radix argument. -/
def parseInt (v : JsVal) : JsVal :=
  match v.toStr.data.dropWhile isStrWhiteSpace with
  | '-' :: rest => parseUnsigned true rest
  | '+' :: rest => parseUnsigned false rest
  | cs => parseUnsigned false cs

/-! ## `SwaggerValidator` (swaggerValidator.js 8-182) -/

/-- One entry of `validate.errors`: an Ajv error object. -/
structure AjvError where
  instancePath : String
  schemaPath : String
  keyword : String
  params : JsVal
  message : JsVal

/-- One call of a compiled Ajv validating function: the boolean it returns and the value it
leaves in `validate.errors` (`none` for `null`). -/
structure AjvOutcome where
  valid : Bool
  errors : Option (List AjvError)

/-- The state of a `SwaggerValidator`.  `compile` stands for Ajv, which is not part of the
repository: the validating function that Ajv builds from a schema.  `schemas` is the Map
`this.schemas`, `ajvSchemas` the schemas added to `this.ajv` under their key (Ajv's own checks
in `addSchema` are outside the model). -/
structure SwaggerValidator where
  compile : JsVal → JsVal → AjvOutcome
  schemas : List (String × JsVal)
  ajvSchemas : List (String × JsVal)

/-- The object returned by `validate`. -/
structure ValidationResult where
  isValid : Bool
  errors : List AjvError
  data : JsVal

/-- A response written by a middleware. -/
structure Response where
  status : Int
  body : JsVal

/-- What a middleware did: the request as it leaves it, the response it wrote (if any), and
whether it called `next`. -/
structure MiddlewareResult where
  req : Request
  response : Option Response
  nextCalled : Bool

namespace SwaggerValidator

/-- Embedding of the constructor: no schema registered. -/
def new (compile : JsVal → JsVal → AjvOutcome) : SwaggerValidator :=
  { compile := compile, schemas := [], ajvSchemas := [] }

/-- Embedding of `registerSchema(name, schema)`. -/
def registerSchema (sv : SwaggerValidator) (name : String) (schema : JsVal) :
    SwaggerValidator :=
  { sv with
    schemas := setField sv.schemas name schema
    ajvSchemas := setField sv.ajvSchemas name schema }

/-- Embedding of `validate(schemaName, data)` (lines 31-45). -/
def validate (sv : SwaggerValidator) (schemaName : String) (data : JsVal) :
    Except JsThrow ValidationResult :=
  let schema := (lookupField sv.schemas schemaName).getD .undefined
  if !schema.truthy then
    .error (.error ("Schema '" ++ schemaName ++ "' not found"))
  else
    match lookupField sv.ajvSchemas schemaName with
    | none => .error .typeError
    | some compiled =>
      let outcome := sv.compile compiled data
      .ok { isValid := outcome.valid
            errors := outcome.errors.getD []
            data := if outcome.valid then data else .null }

/-- The string `s.replace('/', '')`: the first slash removed. -/
def removeFirstSlash : List Char → List Char
  | [] => []
  | c :: rest => if c = '/' then rest else c :: removeFirstSlash rest

/-- The string `s.split('/').pop()`: what follows the last slash. -/
def lastSegment (cs : List Char) : List Char :=
  (cs.reverse.takeWhile (fun c => c != '/')).reverse

/-- The key `error.instancePath.replace('/', '') || error.schemaPath.split('/').pop()`. -/
def errorField (error : AjvError) : String :=
  let path := String.mk (removeFirstSlash error.instancePath.data)
  if path != "" then path else String.mk (lastSegment error.schemaPath.data)

/-- The loop `result.errors.forEach(error => validationErrors[field] = error.message)`. -/
def collectValidationErrors (errors : List AjvError) : List (String × JsVal) :=
  errors.foldl (fun acc error => setField acc (errorField error) error.message) []

/-- The body of the 500 response written by the `catch` block of each middleware. -/
def internalErrorBody (now : String) : JsVal :=
  .obj [("success", .bool false),
        ("error", .str "Error interno de validación"),
        ("details", .obj [("code", .str "VALIDATION_INTERNAL_ERROR")]),
        ("timestamp", .str now)]

/-- Embedding of the middleware returned by `validateBody(schemaName)` (lines 52-88). -/
def validateBody (sv : SwaggerValidator) (schemaName : String) (req : Request)
    (now : String) : MiddlewareResult :=
  match sv.validate schemaName req.body with
  | .error _ =>
    { req := req, response := some { status := 500, body := internalErrorBody now },
      nextCalled := false }
  | .ok result =>
    if !result.isValid then
      let validationErrors := collectValidationErrors result.errors
      { req := req
        response := some
          { status := 400
            body := .obj [("success", .bool false),
                          ("error", .str "Datos de entrada inválidos"),
                          ("details", .obj [("code", .str "VALIDATION_ERROR"),
                                            ("validation_errors", .obj validationErrors)]),
                          ("timestamp", .str now)] }
        nextCalled := false }
    else
      { req := { req with validatedBody := some result.data }, response := none,
        nextCalled := true }

/-- The copy `{ ...req.query }` with every value `v` such that `!isNaN(v) && v !== ''`
replaced by `parseInt(v)` (lines 99-104). -/
def coerceQuery (query : JsVal) : List (String × JsVal) :=
  (assignFields [] query.ownFields).map fun p =>
    if !isNaN p.2 && !p.2.strictEqStr "" then (p.1, parseInt p.2) else p

/-- Embedding of the middleware returned by `validateQuery(schemaName)` (lines 95-139). -/
def validateQuery (sv : SwaggerValidator) (schemaName : String) (req : Request)
    (now : String) : MiddlewareResult :=
  let queryData := coerceQuery req.query
  match sv.validate schemaName (.obj queryData) with
  | .error _ =>
    { req := req, response := some { status := 500, body := internalErrorBody now },
      nextCalled := false }
  | .ok result =>
    if !result.isValid then
      let validationErrors := collectValidationErrors result.errors
      { req := req
        response := some
          { status := 400
            body := .obj [("success", .bool false),
                          ("error", .str "Parámetros de consulta inválidos"),
                          ("details", .obj [("code", .str "QUERY_VALIDATION_ERROR"),
                                            ("validation_errors", .obj validationErrors)]),
                          ("timestamp", .str now)] }
        nextCalled := false }
    else
      { req := { req with validatedQuery := some result.data }, response := none,
        nextCalled := true }

/-- Embedding of the middleware returned by `validateParams(schemaName)` (lines 146-182). -/
def validateParams (sv : SwaggerValidator) (schemaName : String) (req : Request)
    (now : String) : MiddlewareResult :=
  match sv.validate schemaName req.params with
  | .error _ =>
    { req := req, response := some { status := 500, body := internalErrorBody now },
      nextCalled := false }
  | .ok result =>
    if !result.isValid then
      let validationErrors := collectValidationErrors result.errors
      { req := req
        response := some
          { status := 400
            body := .obj [("success", .bool false),
                          ("error", .str "Parámetros de ruta inválidos"),
                          ("details", .obj [("code", .str "PARAMS_VALIDATION_ERROR"),
                                            ("validation_errors", .obj validationErrors)]),
                          ("timestamp", .str now)] }
        nextCalled := false }
    else
      { req := { req with validatedParams := some result.data }, response := none,
        nextCalled := true }

end SwaggerValidator

/-- Embedding of the module's instance (lines 430-435): a new validator on which every entry
of `predefinedSchemas` is registered in order. -/
def swaggerValidator (compile : JsVal → JsVal → AjvOutcome)
    (predefinedSchemas : List (String × JsVal)) : SwaggerValidator :=
  predefinedSchemas.foldl (fun sv p => sv.registerSchema p.1 p.2) (SwaggerValidator.new compile)

/-- A stand-in for Ajv used to evaluate the middleware on concrete inputs: it enforces only
`minimum: 1` on an integer `page`, reporting the error object Ajv reports for it. -/
def sampleCompile (_schema : JsVal) (data : JsVal) : AjvOutcome :=
  match data.read "page" with
  | .num n =>
    if n < 1 then
      { valid := false
        errors := some [{ instancePath := "/page"
                          schemaPath := "#/properties/page/minimum"
                          keyword := "minimum"
                          params := .obj [("comparison", .str ">="), ("limit", .num 1)]
                          message := .str "must be >= 1" }] }
    else { valid := true, errors := none }
  | _ => { valid := true, errors := none }

/-- The module's instance with the `PaginationQuery` schema (lines 341-364, descriptions
omitted) and the stand-in for Ajv. -/
def sampleValidator : SwaggerValidator :=
  swaggerValidator sampleCompile
    [("PaginationQuery",
      .obj [("type", .str "object"),
            ("properties",
              .obj [("page", .obj [("type", .str "integer"), ("minimum", .num 1),
                                   ("default", .num 1)]),
                    ("limit", .obj [("type", .str "integer"), ("minimum", .num 1),
                                    ("maximum", .num 100), ("default", .num 10)]),
                    ("search", .obj [("type", .str "string"), ("minLength", .num 2),
                                     ("maxLength", .num 100)])])])]

/-! ## Reading a response body -/

/-- The value of `body.details.code`, when present. -/
def detailsCode (body : JsVal) : Option JsVal :=
  match lookupField body.ownFields "details" with
  | some details => lookupField details.ownFields "code"
  | none => none

/-- The value of `body.error`, when present. -/
def bodyError (body : JsVal) : Option JsVal :=
  lookupField body.ownFields "error"

/-- The test that the handler answered with HTTP status `status` and a body whose
`details.code` is `code`. -/
def HandlerResult.answers (r : HandlerResult) (status : Int) (code : String) : Bool :=
  r.status.strictEqNum status &&
    (match detailsCode r.body with
      | some c => c.strictEqStr code
      | none => false)

/-! ## Arithmetic on values -/

namespace JsNum

/-- The operator `a + b` on numbers. -/
def add : JsNum → JsNum → JsNum
  | fin a, fin b => fin (a + b)
  | nan, _ => nan
  | _, nan => nan
  | posInf, negInf => nan
  | negInf, posInf => nan
  | posInf, _ => posInf
  | _, posInf => posInf
  | negInf, _ => negInf
  | _, negInf => negInf

/-- The operator `-a` on numbers. -/
def neg : JsNum → JsNum
  | fin a => fin (-a)
  | posInf => negInf
  | negInf => posInf
  | nan => nan

/-- The operator `a - b` on numbers. -/
def sub (a b : JsNum) : JsNum :=
  add a (neg b)

/-- The sign of a number that is not NaN: -1, 0 or 1. -/
def sign : JsNum → Int
  | fin a => if a < 0 then -1 else if a = 0 then 0 else 1
  | posInf => 1
  | negInf => -1
  | nan => 0

/-- The operator `a * b` on numbers. -/
def mul : JsNum → JsNum → JsNum
  | fin a, fin b => fin (a * b)
  | nan, _ => nan
  | _, nan => nan
  | a, b =>
    if sign a * sign b = 0 then nan
    else if sign a * sign b = 1 then posInf
    else negInf

/-- The operator `a / b` on numbers. -/
def quot : JsNum → JsNum → JsNum
  | fin a, fin b => div a b
  | nan, _ => nan
  | _, nan => nan
  | fin _, _ => fin 0
  | a, fin b => if sign a * (if b < 0 then -1 else 1) = 1 then posInf else negInf
  | _, _ => nan

/-- Math.floor. -/
def floor : JsNum → JsNum
  | fin q => fin ⌊q⌋
  | x => x

/-- The operator `a < b` on numbers: false when either is NaN. -/
def lt : JsNum → JsNum → Bool
  | fin a, fin b => decide (a < b)
  | nan, _ => false
  | _, nan => false
  | negInf, negInf => false
  | negInf, _ => true
  | _, negInf => false
  | posInf, _ => false
  | _, posInf => true

/-- The text of a number in string concatenation.  The decimal text of a number that is not an
integer is outside the model: such a number is written as its fraction. -/
def toText : JsNum → String
  | fin q => if q.den = 1 then toString q.num else toString q.num ++ "/" ++ toString q.den
  | posInf => "Infinity"
  | negInf => "-Infinity"
  | nan => "NaN"

end JsNum

/-- The value of an unsigned decimal literal accepted by `isUnsignedDecimal` (other than
`Infinity`): the digits of the integer and fraction parts scaled by the exponent. -/
def decimalValue (cs : List Char) : ℚ :=
  let intPart := cs.takeWhile (isDigitOf 10)
  let rest := cs.dropWhile (isDigitOf 10)
  let fracPart : List Char :=
    match rest with
    | '.' :: afterDot => afterDot.takeWhile (isDigitOf 10)
    | _ => []
  let tail : List Char :=
    match rest with
    | '.' :: afterDot => afterDot.dropWhile (isDigitOf 10)
    | _ => rest
  let exponent : Int :=
    match tail with
    | [] => 0
    | _ :: '-' :: ds => -(digitsValue 10 ds : Int)
    | _ :: ds => (digitsValue 10 (dropSign ds) : Int)
  let mantissa : ℚ := (digitsValue 10 (intPart ++ fracPart) : ℚ)
  let scale : Int := exponent - (fracPart.length : Int)
  if 0 ≤ scale then mantissa * (10 : ℚ) ^ scale.toNat
  else mantissa / (10 : ℚ) ^ (-scale).toNat

/-- The number denoted by a string: `Number(s)`. -/
def stringToNumber (cs : List Char) : JsNum :=
  if isNumericLiteral cs then
    match trimWhiteSpace cs with
    | [] => .fin 0
    | '0' :: 'x' :: ds => .fin (digitsValue 16 ds)
    | '0' :: 'X' :: ds => .fin (digitsValue 16 ds)
    | '0' :: 'o' :: ds => .fin (digitsValue 8 ds)
    | '0' :: 'O' :: ds => .fin (digitsValue 8 ds)
    | '0' :: 'b' :: ds => .fin (digitsValue 2 ds)
    | '0' :: 'B' :: ds => .fin (digitsValue 2 ds)
    | '-' :: t => if t == "Infinity".data then .negInf else .fin (-(decimalValue t))
    | t => if dropSign t == "Infinity".data then .posInf else .fin (decimalValue (dropSign t))
  else .nan

/-- Embedding of ToNumber: `Number(v)`. -/
def toNumber : JsVal → JsNum
  | .undefined => .nan
  | .null => .fin 0
  | .bool b => .fin (if b then 1 else 0)
  | .num n => .fin n
  | .nan => .nan
  | .str s => stringToNumber s.data
  | .arr items => stringToNumber (JsVal.arr items).toStr.data
  | .obj _ => .nan

/-- An operand of an arithmetic operator: a number computed by an earlier operator, or one of
the modelled values. -/
inductive Operand where
  | num (x : JsNum)
  | val (v : JsVal)

namespace Operand

/-- ToPrimitive: arrays and objects are replaced by their text. -/
def prim : Operand → Operand
  | val (.arr items) => val (.str (JsVal.arr items).toStr)
  | val (.obj fields) => val (.str (JsVal.obj fields).toStr)
  | x => x

/-- The test that a primitive operand is a string. -/
def isText : Operand → Bool
  | val (.str _) => true
  | _ => false

/-- ToString of a primitive operand. -/
def text : Operand → String
  | num x => x.toText
  | val v => v.toStr

/-- ToNumber of an operand. -/
def toNum : Operand → JsNum
  | num x => x
  | val v => toNumber v

/-- The operator `a + b`: concatenation when either primitive is a string, else addition. -/
def plus (a b : Operand) : Operand :=
  if a.prim.isText || b.prim.isText then val (.str (a.prim.text ++ b.prim.text))
  else num (JsNum.add a.prim.toNum b.prim.toNum)

/-- The operator `a - b`. -/
def minus (a b : Operand) : JsNum :=
  JsNum.sub a.toNum b.toNum

/-- The operator `a * b`. -/
def times (a b : Operand) : JsNum :=
  JsNum.mul a.toNum b.toNum

/-- The order of two strings in `a < b`: lexicographic on their characters. -/
def textLt : List Char → List Char → Bool
  | _, [] => false
  | [], _ :: _ => true
  | a :: as, b :: bs => if a.toNat < b.toNat then true else if b.toNat < a.toNat then false
      else textLt as bs

/-- The operator `a < b`: strings are compared as text, anything else as numbers. -/
def lessThan (a b : Operand) : Bool :=
  if a.prim.isText && b.prim.isText then textLt a.prim.text.data b.prim.text.data
  else JsNum.lt a.prim.toNum b.prim.toNum

end Operand

namespace JsVal

/-- The test `typeof v === 'string'`. -/
def isString : JsVal → Bool
  | str _ => true
  | _ => false

/-- The test that a value is `null` or `undefined`. -/
def isNullish : JsVal → Bool
  | undefined => true
  | null => true
  | _ => false

/-- The operator `a === b`.  Two arrays or objects are equal only when they are the same
reference, which two separately obtained values never are. -/
def strictEq : JsVal → JsVal → Bool
  | undefined, undefined => true
  | null, null => true
  | bool a, bool b => a == b
  | num a, num b => a == b
  | str a, str b => a == b
  | _, _ => false

/-- Optional chaining `v?.k`. -/
def optProp (v : JsVal) (k : String) : JsVal :=
  if v.isNullish then undefined else v.read k

end JsVal

/-! ## The store and asynchronous operations -/

/-- One call in a chain of the store's query builder. -/
inductive QueryStep where
  | select (columns : String) (options : JsVal)
  | insert (values : JsVal)
  | update (values : JsVal)
  | delete
  | eq (column : String) (value : JsVal)
  | isIn (column : String) (values : JsVal)
  | gte (column : String) (value : JsVal)
  | orFilter (filters : String)
  | order (column : JsVal) (options : JsVal)
  | range (first last : Operand)
  | limit (count : JsVal)
  | single

/-- A query as the code builds it: the client (`none` for the anonymous client `supabase`,
`some token` for `createAuthenticatedClient(token)`), the table given to `from`, and the calls
chained on it, in order.  Column lists are written on one line. -/
structure Query where
  client : Option JsVal
  table : String
  steps : List QueryStep

/-- The object to which an awaited query resolves. -/
structure StoreResponse where
  data : JsVal
  error : JsVal
  count : JsVal

/-- What awaiting a query does: resolve to a response, or reject with a reason. -/
inductive StoreOutcome where
  | resolves (response : StoreResponse)
  | rejects (reason : JsVal)

/-- The store is not part of the repository: it is any machine that answers queries, with a
state of its own. -/
structure Store (σ : Type) where
  run : Query → σ → StoreOutcome × σ

/-- An asynchronous computation against a store with states `σ`: from a state, it returns a
value or throws (a rejected promise), and leaves a state. -/
def M (σ α : Type) : Type :=
  σ → Except JsVal α × σ

namespace M

/-- The statement `return a`. -/
def ret {σ α : Type} (a : α) : M σ α :=
  fun s => (.ok a, s)

/-- Sequencing: run `m`, then `f` on its value; a throw ends the computation. -/
def andThen {σ α β : Type} (m : M σ α) (f : α → M σ β) : M σ β :=
  fun s =>
    match m s with
    | (.ok a, s') => f a s'
    | (.error e, s') => (.error e, s')

/-- The statement `throw e`. -/
def throw {σ α : Type} (e : JsVal) : M σ α :=
  fun s => (.error e, s)

/-- The statement `try { m } catch (error) { handler error }`. -/
def tryCatch {σ α : Type} (m : M σ α) (handler : JsVal → M σ α) : M σ α :=
  fun s =>
    match m s with
    | (.ok a, s') => (.ok a, s')
    | (.error e, s') => handler e s'

end M

instance (σ : Type) : Monad (M σ) where
  pure := M.ret
  bind := M.andThen

/-- The object built by `new Error(message)`. -/
def jsError (message : String) : JsVal :=
  .obj [("name", .str "Error"), ("message", .str message)]

/-- The TypeError object thrown by the engine; the text of its message is the engine's and is
not modelled. -/
def typeErrorValue : JsVal :=
  .obj [("name", .str "TypeError"), ("message", .str "TypeError")]

/-- The value thrown for an exception of the synchronous code. -/
def JsThrow.toValue : JsThrow → JsVal
  | .typeError => typeErrorValue
  | .error message => jsError message

/-- Runs a synchronous step inside an asynchronous computation. -/
def M.ofExcept {σ α : Type} (x : Except JsThrow α) : M σ α :=
  match x with
  | .ok a => M.ret a
  | .error t => M.throw t.toValue

/-- The expression `await <query>`. -/
def await {σ : Type} (S : Store σ) (q : Query) : M σ StoreResponse :=
  fun s =>
    match S.run q s with
    | (.resolves r, s') => (.ok r, s')
    | (.rejects e, s') => (.error e, s')

/-! ## Helpers of the services -/

/-- The rest of a destructuring `const { k, ...rest } = v`. -/
def restWithout (v : JsVal) (k : String) : Except JsThrow (List (String × JsVal)) :=
  if v.isNullish then .error .typeError
  else .ok ((assignFields [] v.ownFields).filter fun p => p.1 != k)

/-- The call `v.map(f)`: `v` has to be an array. -/
def mapArray (v : JsVal) (f : JsVal → Except JsThrow JsVal) : Except JsThrow JsVal :=
  match v with
  | .arr items => (items.mapM f).map JsVal.arr
  | _ => .error .typeError

/-- The test that `needle` occurs in `hay`. -/
def containsChars (needle : List Char) : List Char → Bool
  | [] => needle.isEmpty
  | c :: rest => needle.isPrefixOf (c :: rest) || containsChars needle rest

/-- The call `v.includes(needle)` with a string argument: substring test on a string, element
test on an array, a TypeError on anything else. -/
def jsIncludes (v : JsVal) (needle : String) : Except JsThrow Bool :=
  match v with
  | .str s => .ok (containsChars needle.data s.data)
  | .arr items => .ok (items.any fun x => x.strictEqStr needle)
  | _ => .error .typeError

/-- The expression `v.split(' ')[0]`: the part of a string before its first space. -/
def splitFirst (v : JsVal) : Except JsThrow JsVal :=
  match v with
  | .str s => .ok (.str (String.mk (s.data.takeWhile fun c => c != ' ')))
  | _ => .error .typeError

/-- The call `v.trim()`: a string without its leading and trailing white space. -/
def jsTrim (v : JsVal) : Except JsThrow String :=
  match v with
  | .str s => .ok (String.mk (trimWhiteSpace s.data))
  | _ => .error .typeError

/-- The `length` of a string: its number of UTF-16 code units. -/
def utf16Length (s : String) : Nat :=
  s.data.foldl (fun n c => n + if 0x10000 ≤ c.toNat then 2 else 1) 0

/-- Modelled from the spec: the value `supabaseClient.raw(expression)` placed in an update,
an expression that the store evaluates on the row (the relative update of a counter).  The
client library is not part of the repository. -/
def rawSql (expression : String) : JsVal :=
  .obj [("raw", .str expression)]

/-! ## `CommentService` (commentService.js) -/

namespace CommentService

/-- Embedding of `generateUsername(profiles)` (lines 5-11). -/
def generateUsername (profiles : JsVal) : Except JsThrow JsVal :=
  if (profiles.optProp "username").truthy then .ok (profiles.read "username")
  else if (profiles.optProp "full_name").truthy then
    match jsIncludes (profiles.read "full_name") "@" with
    | .error t => .error t
    | .ok true => .ok (.str "Usuario")
    | .ok false => splitFirst (profiles.read "full_name")
  else .ok (.str "Usuario")

/-- The object `author` built for a comment row (lines 72-77 and 169-174). -/
def commentAuthor (comment : JsVal) : Except JsThrow JsVal :=
  match generateUsername (comment.read "profiles") with
  | .error t => .error t
  | .ok username =>
    .ok (.obj [("id", comment.read "author_id"),
               ("username", username),
               ("avatar_url", ((comment.read "profiles").optProp "avatar_url").orElse .null),
               ("full_name", ((comment.read "profiles").optProp "full_name").orElse .null)])

/-- The table `sortConfig` (lines 27-31). -/
def sortConfig : List (String × JsVal) :=
  [("newest", .obj [("orderBy", .str "created_at"), ("ascending", .bool false)]),
   ("oldest", .obj [("orderBy", .str "created_at"), ("ascending", .bool true)]),
   ("popular", .obj [("orderBy", .str "likes_count"), ("ascending", .bool false)])]

/-- The names that every object inherits from `Object.prototype`; reading one of them from
`sortConfig` gives a truthy value without `orderBy` or `ascending`. -/
def objectPrototypeNames : List String :=
  ["constructor", "__defineGetter__", "__defineSetter__", "hasOwnProperty", "__lookupGetter__",
   "__lookupSetter__", "isPrototypeOf", "propertyIsEnumerable", "toString", "valueOf",
   "__proto__", "toLocaleString"]

/-- The expression `sortConfig[sort] || sortConfig.newest`. -/
def sortEntry (sort : JsVal) : JsVal :=
  match lookupField sortConfig sort.toStr with
  | some entry => entry
  | none =>
    if objectPrototypeNames.contains sort.toStr then .obj []
    else .obj [("orderBy", .str "created_at"), ("ascending", .bool false)]

/-- The mapping of one comment row to its processed form (lines 66-80). -/
def processComment (comment : JsVal) : Except JsThrow JsVal :=
  match restWithout comment "profiles" with
  | .error t => .error t
  | .ok commentData =>
    match commentAuthor comment with
    | .error t => .error t
    | .ok author =>
      .ok (.obj (setField (setField commentData "author" author) "is_liked" (.bool false)))

/-- Embedding of `getProjectComments(projectId, page = 1, limit = 10, sort = 'newest')`
(lines 13-94). -/
def getProjectComments {σ : Type} (S : Store σ) (projectId page limit sort : JsVal) :
    M σ JsVal :=
  let page := page.withDefault (.num 1)
  let limit := limit.withDefault (.num 10)
  let sort := sort.withDefault (.str "newest")
  M.tryCatch
    (do
      if !projectId.truthy || !projectId.isString then
        M.throw (jsError "Project ID es requerido y debe ser un string válido")
      if Operand.lessThan (.val page) (.val (.num 1))
          || Operand.lessThan (.val limit) (.val (.num 1))
          || Operand.lessThan (.val (.num 100)) (.val limit) then
        M.throw (jsError "Parámetros de paginación inválidos")
      let offset : JsNum :=
        Operand.times (.num (Operand.minus (.val page) (.val (.num 1)))) (.val limit)
      let entry := sortEntry sort
      let r ← await S
        { client := none
          table := "comments"
          steps :=
            [.select ("id, content, created_at, updated_at, likes_count, replies_count, "
                ++ "author_id, profiles!comments_author_id_fkey(username, avatar_url, full_name)")
                .undefined,
             .eq "project_id" projectId,
             .order (entry.read "orderBy") (.obj [("ascending", entry.read "ascending")]),
             .range (.num offset)
               (.num (Operand.minus (Operand.plus (.num offset) (.val limit))
                 (.val (.num 1))))] }
      let c ← await S
        { client := none
          table := "comments"
          steps :=
            [.select "id" (.obj [("count", .str "exact"), ("head", .bool true)]),
             .eq "project_id" projectId] }
      if r.error.truthy then M.throw r.error
      if c.error.truthy then M.throw c.error
      let processedData ← M.ofExcept (mapArray (r.data.orElse (.arr [])) processComment)
      return .obj [("success", .bool true),
                   ("data", processedData),
                   ("total", c.count.orElse (.num 0)),
                   ("hasMore", .bool (Operand.lessThan
                     (Operand.plus (.num offset) (.val limit))
                     (.val (c.count.orElse (.num 0)))))])
    (fun error => do
      let message ← M.ofExcept (error.getProp "message")
      return .obj [("success", .bool false),
                   ("error", message.orElse (.str "Error interno del servidor"))])

/-- The handler `catch (error) { return { success: false, error: error.message } }`, shared by
most operations of the services. -/
def failWithMessage {σ : Type} (error : JsVal) : M σ JsVal := do
  let message ← M.ofExcept (error.getProp "message")
  return .obj [("success", .bool false), ("error", message)]

/-- The column list selected after inserting a comment (lines 146-159). -/
def insertedCommentColumns : String :=
  "id, content, created_at, updated_at, likes_count, replies_count, author_id, "
    ++ "profiles!inner(username, avatar_url, full_name)"

/-- Embedding of `createComment({ projectId, userId, content, userToken })` (lines 97-187);
`argument` is the single argument, destructured before the `try` block is entered. -/
def createComment {σ : Type} (S : Store σ) (argument : JsVal) (now : String) : M σ JsVal := do
  let projectId ← M.ofExcept (argument.getProp "projectId")
  let userId := argument.read "userId"
  let content := argument.read "content"
  let userToken := argument.read "userToken"
  M.tryCatch
    (do
      if !projectId.truthy || !projectId.isString then
        M.throw (jsError "Project ID es requerido y debe ser un string válido")
      if !userId.truthy || !userId.isString then
        M.throw (jsError "User ID es requerido y debe ser un string válido")
      if !content.truthy || !content.isString
          || utf16Length (String.mk (trimWhiteSpace content.toStr.data)) == 0 then
        M.throw (jsError "Contenido del comentario es requerido")
      if utf16Length (String.mk (trimWhiteSpace content.toStr.data)) > 2000 then
        M.throw (jsError "El comentario no puede exceder 2000 caracteres")
      if !userToken.truthy || !userToken.isString then
        M.throw (jsError "Token de usuario es requerido")
      let p ← await S
        { client := some userToken
          table := "projects"
          steps := [.select "id" .undefined, .eq "id" projectId, .single] }
      if p.error.truthy || !p.data.truthy then
        return .obj [("success", .bool false), ("error", .str "Proyecto no encontrado")]
      else
        let r ← await S
          { client := some userToken
            table := "comments"
            steps :=
              [.insert (.obj [("project_id", projectId),
                              ("author_id", userId),
                              ("content", .str (String.mk (trimWhiteSpace content.toStr.data))),
                              ("created_at", .str now)]),
               .select insertedCommentColumns .undefined,
               .single] }
        if r.error.truthy then M.throw r.error
        let commentData ← M.ofExcept (restWithout r.data "profiles")
        let author ← M.ofExcept (commentAuthor r.data)
        return .obj [("success", .bool true),
                     ("data", .obj (setField commentData "author" author))])
    failWithMessage

/-- Embedding of `toggleLike(commentId, userId, userToken)` (lines 190-276). -/
def toggleLike {σ : Type} (S : Store σ) (commentId userId userToken : JsVal) : M σ JsVal :=
  M.tryCatch
    (do
      let check ← await S
        { client := some userToken
          table := "comment_likes"
          steps := [.select "id" .undefined, .eq "comment_id" commentId, .eq "user_id" userId,
                    .single] }
      if check.error.truthy && !(check.error.read "code").strictEqStr "PGRST116" then
        M.throw check.error
      let isLiked ←
        if check.data.truthy then do
          let del ← await S
            { client := some userToken
              table := "comment_likes"
              steps := [.delete, .eq "comment_id" commentId, .eq "user_id" userId] }
          if del.error.truthy then M.throw del.error
          let dec ← await S
            { client := some userToken
              table := "comments"
              steps := [.update (.obj [("likes_count", rawSql "likes_count - 1")]),
                        .eq "id" commentId] }
          if dec.error.truthy then M.throw dec.error
          pure false
        else do
          let ins ← await S
            { client := some userToken
              table := "comment_likes"
              steps := [.insert (.obj [("comment_id", commentId), ("user_id", userId)])] }
          if ins.error.truthy then M.throw ins.error
          let inc ← await S
            { client := some userToken
              table := "comments"
              steps := [.update (.obj [("likes_count", rawSql "likes_count + 1")]),
                        .eq "id" commentId] }
          if inc.error.truthy then M.throw inc.error
          pure true
      let fetched ← await S
        { client := some userToken
          table := "comments"
          steps := [.select "likes_count" .undefined, .eq "id" commentId, .single] }
      if fetched.error.truthy then M.throw fetched.error
      let likesCount ← M.ofExcept (fetched.data.getProp "likes_count")
      return .obj [("success", .bool true),
                   ("likesCount", likesCount),
                   ("isLiked", .bool isLiked)])
    failWithMessage

/-- The mapping of one reply row to its processed form (lines 302-310). -/
def processReply (reply : JsVal) : Except JsThrow JsVal :=
  match reply.getProp "author_id" with
  | .error t => .error t
  | .ok authorId =>
    .ok (.obj (setField
      (setField (assignFields [] reply.ownFields) "author"
        (.obj [("id", authorId), ("username", .str "Usuario"), ("avatar_url", .null)]))
      "is_liked" (.bool false)))

/-- Embedding of `getCommentReplies(commentId, page = 1, limit = 5, userToken = null)`
(lines 279-323). -/
def getCommentReplies {σ : Type} (S : Store σ) (commentId page limit userToken : JsVal) :
    M σ JsVal :=
  let page := page.withDefault (.num 1)
  let limit := limit.withDefault (.num 5)
  let userToken := userToken.withDefault .null
  M.tryCatch
    (do
      let offset : JsNum :=
        Operand.times (.num (Operand.minus (.val page) (.val (.num 1)))) (.val limit)
      let r ← await S
        { client := if userToken.truthy then some userToken else none
          table := "comments"
          steps :=
            [.select "id, content, created_at, likes_count, author_id" .undefined,
             .eq "parent_id" commentId,
             .order (.str "created_at") (.obj [("ascending", .bool true)]),
             .range (.num offset)
               (.num (Operand.minus (Operand.plus (.num offset) (.val limit))
                 (.val (.num 1))))] }
      if r.error.truthy then M.throw r.error
      let processedData ← M.ofExcept (mapArray (r.data.orElse (.arr [])) processReply)
      return .obj [("success", .bool true), ("data", processedData)])
    failWithMessage

/-- Embedding of `createReply({ commentId, userId, content, userToken })` (lines 326-385);
`argument` is the single argument, destructured before the `try` block is entered. -/
def createReply {σ : Type} (S : Store σ) (argument : JsVal) (now : String) : M σ JsVal := do
  let commentId ← M.ofExcept (argument.getProp "commentId")
  let userId := argument.read "userId"
  let content := argument.read "content"
  let userToken := argument.read "userToken"
  M.tryCatch
    (do
      let parent ← await S
        { client := some userToken
          table := "comments"
          steps := [.select "project_id" .undefined, .eq "id" commentId, .single] }
      if parent.error.truthy || !parent.data.truthy then
        return .obj [("success", .bool false), ("error", .str "Comentario padre no encontrado")]
      else
        let trimmed ← M.ofExcept (jsTrim content)
        let r ← await S
          { client := some userToken
            table := "comments"
            steps :=
              [.insert (.obj [("project_id", parent.data.read "project_id"),
                              ("parent_id", commentId),
                              ("author_id", userId),
                              ("content", .str trimmed),
                              ("created_at", .str now)]),
               .select "id, content, created_at, likes_count, author_id" .undefined,
               .single] }
        if r.error.truthy then M.throw r.error
        let _ ← await S
          { client := some userToken
            table := "comments"
            steps := [.update (.obj [("replies_count", rawSql "replies_count + 1")]),
                      .eq "id" commentId] }
        return .obj [("success", .bool true), ("data", r.data)])
    failWithMessage

end CommentService

/-! ## `ProjectService` (projectService.js) -/

/-- The constant `mockProjects` of `mockData.js`. -/
def mockProjects : JsVal :=
  .arr
    [.obj [("id", .str "1"),
           ("title", .str "E-commerce Platform"),
           ("description",
             .str "Plataforma de comercio electrónico desarrollada con React y Node.js"),
           ("demo_url", .str "https://demo-ecommerce.com"),
           ("github_url", .str "https://github.com/usuario/ecommerce"),
           ("tech_stack", .arr [.str "React", .str "Node.js", .str "MongoDB", .str "Stripe"]),
           ("image_url", .str "https://via.placeholder.com/400x300"),
           ("created_at", .str "2024-01-15T10:30:00Z"),
           ("updated_at", .str "2024-01-20T14:45:00Z"),
           ("profiles", .obj [("id", .str "user-1"), ("full_name", .str "Daniel M"),
                              ("username", .str "danielm"),
                              ("avatar_url", .str "https://via.placeholder.com/50x50")])],
     .obj [("id", .str "2"),
           ("title", .str "Task Manager App"),
           ("description", .str "Aplicación para gestión de tareas con Vue.js y Express"),
           ("demo_url", .str "https://taskmanager-demo.com"),
           ("github_url", .str "https://github.com/usuario/taskmanager"),
           ("tech_stack", .arr [.str "Vue.js", .str "Express", .str "SQLite", .str "JWT"]),
           ("image_url", .str "https://via.placeholder.com/400x300"),
           ("created_at", .str "2024-01-10T09:15:00Z"),
           ("updated_at", .str "2024-01-18T16:20:00Z"),
           ("profiles", .obj [("id", .str "user-2"), ("full_name", .str "María García"),
                              ("username", .str "mariag"),
                              ("avatar_url", .str "https://via.placeholder.com/50x50")])],
     .obj [("id", .str "3"),
           ("title", .str "Weather Dashboard"),
           ("description",
             .str "Dashboard del clima con datos en tiempo real usando APIs externas"),
           ("demo_url", .str "https://weather-dashboard.com"),
           ("github_url", .str "https://github.com/usuario/weather-dashboard"),
           ("tech_stack",
             .arr [.str "React", .str "TypeScript", .str "Chart.js", .str "OpenWeather API"]),
           ("image_url", .str "https://via.placeholder.com/400x300"),
           ("created_at", .str "2024-01-05T11:00:00Z"),
           ("updated_at", .str "2024-01-12T13:30:00Z"),
           ("profiles", .obj [("id", .str "user-3"), ("full_name", .str "Carlos López"),
                              ("username", .str "carlosl"),
                              ("avatar_url", .str "https://via.placeholder.com/50x50")])]]

namespace ProjectService

open CommentService (failWithMessage)

/-- The object `author` built for a project row from its profile (lines 53-58, 119-124 and
381-386). -/
def projectAuthor (project profile : JsVal) : JsVal :=
  .obj [("id", project.read "user_id"),
        ("username", (profile.optProp "username").orElse (.str "Usuario")),
        ("avatar_url", (profile.optProp "avatar_url").orElse .null),
        ("full_name", (profile.optProp "full_name").orElse .null)]

/-- The mapping of a project row that carries its profile under `profiles` (lines 49-60 and
116-125). -/
def processProject (project : JsVal) : Except JsThrow JsVal :=
  match restWithout project "profiles" with
  | .error t => .error t
  | .ok projectData =>
    .ok (.obj (setField projectData "author"
      (projectAuthor project (project.read "profiles"))))

/-- The column list of a project with its profile. -/
def projectWithProfileColumns : String :=
  "id, title, description, demo_url, github_url, tech_stack, image_url, created_at, "
    ++ "updated_at, user_id, profiles!projects_user_id_fkey(username, avatar_url, full_name)"

/-- The column list of a project. -/
def projectColumns : String :=
  "id, title, description, demo_url, github_url, tech_stack, image_url, created_at, updated_at"

/-- The column list of a project with its owner. -/
def projectOwnerColumns : String :=
  "id, title, description, demo_url, github_url, tech_stack, image_url, created_at, "
    ++ "updated_at, user_id"

/-- Embedding of `getAllProjects(page = 1, limit = 10, search = '')` (lines 6-79). -/
def getAllProjects {σ : Type} (S : Store σ) (page limit search : JsVal) : M σ JsVal :=
  let page := page.withDefault (.num 1)
  let limit := limit.withDefault (.num 10)
  let search := search.withDefault (.str "")
  M.tryCatch
    (do
      if Operand.lessThan (.val page) (.val (.num 1))
          || Operand.lessThan (.val limit) (.val (.num 1))
          || Operand.lessThan (.val (.num 100)) (.val limit) then
        M.throw (jsError "Parámetros de paginación inválidos")
      let offset : JsNum :=
        Operand.times (.num (Operand.minus (.val page) (.val (.num 1)))) (.val limit)
      let filtered ←
        if search.truthy then do
          let trimmed ← M.ofExcept (jsTrim search)
          pure (trimmed != "")
        else pure false
      let r ← await S
        { client := none
          table := "projects"
          steps :=
            [.select projectWithProfileColumns (.obj [("count", .str "exact")])]
            ++ (if filtered then
                  [.orFilter ("title.ilike.%" ++ search.toStr ++ "%,description.ilike.%"
                    ++ search.toStr ++ "%,tech_stack.ilike.%" ++ search.toStr ++ "%")]
                else [])
            ++ [.order (.str "created_at") (.obj [("ascending", .bool false)]),
                .range (.num offset)
                  (.num (Operand.minus (Operand.plus (.num offset) (.val limit))
                    (.val (.num 1))))] }
      if r.error.truthy then M.throw r.error
      let processedData ← M.ofExcept (mapArray (r.data.orElse (.arr [])) processProject)
      return .obj [("success", .bool true),
                   ("data", processedData),
                   ("total", r.count.orElse (.num 0)),
                   ("page", page),
                   ("limit", limit),
                   ("hasMore", .bool (Operand.lessThan
                     (Operand.plus (.num offset) (.val limit))
                     (.val (r.count.orElse (.num 0)))))])
    (fun _ =>
      return .obj [("success", .bool true),
                   ("data", mockProjects),
                   ("total", mockProjects.read "length"),
                   ("mock", .bool true)])

/-- Embedding of `getProjectById(projectId)` (lines 81-138). -/
def getProjectById {σ : Type} (S : Store σ) (projectId : JsVal) : M σ JsVal :=
  M.tryCatch
    (do
      let r ← await S
        { client := none
          table := "projects"
          steps := [.select projectWithProfileColumns .undefined, .eq "id" projectId, .single] }
      if r.error.truthy then
        if (r.error.read "code").strictEqStr "PGRST116" then
          return .obj [("success", .bool false), ("error", .str "Proyecto no encontrado")]
        else M.throw r.error
      else
        let processedData ← M.ofExcept (processProject r.data)
        return .obj [("success", .bool true), ("data", processedData)])
    failWithMessage

/-- Embedding of `createProject(projectData, userToken)` (lines 140-174). -/
def createProject {σ : Type} (S : Store σ) (projectData userToken : JsVal) : M σ JsVal :=
  M.tryCatch
    (do
      let r ← await S
        { client := some userToken
          table := "projects"
          steps := [.insert (.arr [projectData]), .select projectColumns .undefined, .single] }
      if r.error.truthy then M.throw r.error
      return .obj [("success", .bool true), ("data", r.data)])
    failWithMessage

/-- Embedding of `updateProject(projectId, updateData, userToken)` (lines 176-211). -/
def updateProject {σ : Type} (S : Store σ) (projectId updateData userToken : JsVal) :
    M σ JsVal :=
  M.tryCatch
    (do
      let r ← await S
        { client := some userToken
          table := "projects"
          steps := [.update updateData, .eq "id" projectId, .select projectColumns .undefined,
                    .single] }
      if r.error.truthy then M.throw r.error
      return .obj [("success", .bool true), ("data", r.data)])
    failWithMessage

/-- Embedding of `deleteProject(projectId, userToken)` (lines 213-236). -/
def deleteProject {σ : Type} (S : Store σ) (projectId userToken : JsVal) : M σ JsVal :=
  M.tryCatch
    (do
      let r ← await S
        { client := some userToken
          table := "projects"
          steps := [.delete, .eq "id" projectId] }
      if r.error.truthy then M.throw r.error
      return .obj [("success", .bool true),
                   ("message", .str "Proyecto eliminado correctamente")])
    failWithMessage

/-- Embedding of `getProjectsByUser(userId)` (lines 239-273). -/
def getProjectsByUser {σ : Type} (S : Store σ) (userId : JsVal) : M σ JsVal :=
  M.tryCatch
    (do
      let r ← await S
        { client := none
          table := "projects"
          steps := [.select projectColumns .undefined, .eq "user_id" userId,
                    .order (.str "created_at") (.obj [("ascending", .bool false)])] }
      if r.error.truthy then M.throw r.error
      let total ← M.ofExcept (r.data.getProp "length")
      return .obj [("success", .bool true), ("data", r.data), ("total", total)])
    failWithMessage

/-- Embedding of `searchProjects(query, limit = 10, offset = 0)` (lines 276-312). -/
def searchProjects {σ : Type} (S : Store σ) (query limit offset : JsVal) : M σ JsVal :=
  let limit := limit.withDefault (.num 10)
  let offset := offset.withDefault (.num 0)
  M.tryCatch
    (do
      let r ← await S
        { client := none
          table := "projects"
          steps :=
            [.select projectOwnerColumns .undefined,
             .orFilter ("title.ilike.%" ++ query.toStr ++ "%,description.ilike.%"
               ++ query.toStr ++ "%"),
             .order (.str "created_at") (.obj [("ascending", .bool false)]),
             .range (.val offset)
               (.num (Operand.minus (Operand.plus (.val offset) (.val limit))
                 (.val (.num 1))))] }
      if r.error.truthy then M.throw r.error
      let total ← M.ofExcept (r.data.getProp "length")
      return .obj [("success", .bool true), ("data", r.data), ("total", total)])
    failWithMessage

/-- The loop `(profiles || []).forEach(profile => { profilesMap[profile.id] = profile })`
(lines 371-374). -/
def buildProfilesMap :
    List JsVal → List (String × JsVal) → Except JsThrow (List (String × JsVal))
  | [], acc => .ok acc
  | profile :: rest, acc =>
    match profile.getProp "id" with
    | .error t => .error t
    | .ok id => buildProfilesMap rest (setField acc id.toStr profile)

/-- The mapping of a project row with the profile found for it (lines 377-388). -/
def attachAuthor (profilesMap : List (String × JsVal)) (project : JsVal) :
    Except JsThrow JsVal :=
  match project.getProp "user_id" with
  | .error t => .error t
  | .ok userId =>
    .ok (.obj (setField (assignFields [] project.ownFields) "author"
      (projectAuthor project ((lookupField profilesMap userId.toStr).getD .undefined))))

/-- Embedding of `getProjectsPaginated(limit = 10, offset = 0, search = null)`
(lines 315-407). -/
def getProjectsPaginated {σ : Type} (S : Store σ) (limit offset search : JsVal) : M σ JsVal :=
  let limit := limit.withDefault (.num 10)
  let offset := offset.withDefault (.num 0)
  let search := search.withDefault .null
  M.tryCatch
    (do
      let r ← await S
        { client := none
          table := "projects"
          steps :=
            [.select projectOwnerColumns (.obj [("count", .str "exact")]),
             .order (.str "created_at") (.obj [("ascending", .bool false)]),
             .range (.val offset)
               (.num (Operand.minus (Operand.plus (.val offset) (.val limit))
                 (.val (.num 1))))]
            ++ (if search.truthy then
                  [.orFilter ("title.ilike.%" ++ search.toStr ++ "%,description.ilike.%"
                    ++ search.toStr ++ "%")]
                else []) }
      if r.error.truthy then M.throw r.error
      if !r.data.truthy || (r.data.read "length").strictEq (.num 0) then
        return .obj [("success", .bool true),
                     ("data", .arr []),
                     ("total", .num 0),
                     ("pagination", .obj [("limit", limit), ("offset", offset),
                                          ("hasMore", .bool false)])]
      else
        let userIds ← M.ofExcept (mapArray r.data fun p => p.getProp "user_id")
        let pr ← await S
          { client := none
            table := "profiles"
            steps := [.select "id, username, avatar_url, full_name" .undefined,
                      .isIn "id" userIds] }
        if pr.error.truthy then M.throw pr.error
        let profilesMap ← M.ofExcept
          (match pr.data.orElse (.arr []) with
            | .arr profiles => buildProfilesMap profiles []
            | _ => .error .typeError)
        let processedData ← M.ofExcept (mapArray r.data (attachAuthor profilesMap))
        return .obj [("success", .bool true),
                     ("data", processedData),
                     ("total", r.count.orElse (.num 0)),
                     ("pagination",
                       .obj [("limit", limit), ("offset", offset),
                             ("hasMore", .bool (Operand.lessThan
                               (Operand.plus (.val offset) (.val limit))
                               (.val (r.count.orElse (.num 0)))))])])
    failWithMessage

/-- Embedding of `checkProjectOwnership(projectId, userId)` (lines 410-441). -/
def checkProjectOwnership {σ : Type} (S : Store σ) (projectId userId : JsVal) : M σ JsVal :=
  M.tryCatch
    (do
      let r ← await S
        { client := none
          table := "projects"
          steps := [.select "user_id" .undefined, .eq "id" projectId, .single] }
      if r.error.truthy then
        if (r.error.read "code").strictEqStr "PGRST116" then
          return .obj [("success", .bool false), ("error", .str "Proyecto no encontrado")]
        else M.throw r.error
      else
        let ownerId ← M.ofExcept (r.data.getProp "user_id")
        return .obj [("success", .bool true),
                     ("isOwner", .bool (ownerId.strictEq userId)),
                     ("ownerId", ownerId)])
    failWithMessage

/-- Embedding of `getUserProjects(userId, limit = 10, offset = 0)` (lines 444-491). -/
def getUserProjects {σ : Type} (S : Store σ) (userId limit offset : JsVal) : M σ JsVal :=
  let limit := limit.withDefault (.num 10)
  let offset := offset.withDefault (.num 0)
  M.tryCatch
    (do
      let r ← await S
        { client := none
          table := "projects"
          steps :=
            [.select projectOwnerColumns .undefined,
             .eq "user_id" userId,
             .order (.str "created_at") (.obj [("ascending", .bool false)]),
             .range (.val offset)
               (.num (Operand.minus (Operand.plus (.val offset) (.val limit))
                 (.val (.num 1))))] }
      if r.error.truthy then M.throw r.error
      let c ← await S
        { client := none
          table := "projects"
          steps := [.select "*" (.obj [("count", .str "exact"), ("head", .bool true)]),
                    .eq "user_id" userId] }
      if c.error.truthy then M.throw c.error
      let length ← M.ofExcept (r.data.getProp "length")
      return .obj [("success", .bool true),
                   ("data", r.data),
                   ("total", c.count.orElse (.num 0)),
                   ("pagination",
                     .obj [("limit", limit), ("offset", offset),
                           ("hasMore", .bool (length.strictEq limit))])])
    failWithMessage

end ProjectService

/-! ## `ProfileService` (profileService.js) -/

namespace ProfileService

open CommentService (failWithMessage)

/-- The column list of a profile. -/
def profileColumns : String :=
  "id, full_name, username, avatar_url, website, bio, github_url, linkedin_url, role, "
    ++ "created_at, updated_at"

/-- Embedding of `getAllProfiles(params = {})` (lines 4-53). -/
def getAllProfiles {σ : Type} (S : Store σ) (params : JsVal) : M σ JsVal :=
  let params := params.withDefault (.obj [])
  M.tryCatch
    (do
      let search ← M.ofExcept (params.getProp "search")
      let r ← await S
        { client := none
          table := "profiles"
          steps :=
            [.select ("id, full_name, username, avatar_url, website, bio, linkedin_url, "
                ++ "github_url, role, created_at, updated_at")
                (.obj [("count", .str "exact")])]
            ++ (if search.truthy then
                  [.orFilter ("full_name.ilike.%" ++ search.toStr ++ "%,username.ilike.%"
                    ++ search.toStr ++ "%")]
                else [])
            ++ [.order (.str "created_at") (.obj [("ascending", .bool false)])]
            ++ (if (params.read "limit").truthy then [.limit (params.read "limit")] else [])
            ++ (if !(params.read "offset").isUndefined then
                  [.range (.val (params.read "offset"))
                    (.num (Operand.minus
                      (Operand.plus (.val (params.read "offset"))
                        (.val ((params.read "limit").orElse (.num 10))))
                      (.val (.num 1))))]
                else []) }
      if r.error.truthy then M.throw r.error
      return .obj [("success", .bool true),
                   ("data", r.data.orElse (.arr [])),
                   ("total", r.count.orElse (.num 0))])
    failWithMessage

/-- Embedding of `getProfileById(profileId)` (lines 55-95). -/
def getProfileById {σ : Type} (S : Store σ) (profileId : JsVal) : M σ JsVal :=
  M.tryCatch
    (do
      let r ← await S
        { client := none
          table := "profiles"
          steps := [.select profileColumns .undefined, .eq "id" profileId, .single] }
      if r.error.truthy then
        if (r.error.read "code").strictEqStr "PGRST116" then
          return .obj [("success", .bool false), ("error", .str "Perfil no encontrado")]
        else M.throw r.error
      else
        return .obj [("success", .bool true), ("data", r.data)])
    failWithMessage

/-- Embedding of `searchProfiles(query)` (lines 97-130). -/
def searchProfiles {σ : Type} (S : Store σ) (query : JsVal) : M σ JsVal :=
  M.tryCatch
    (do
      let r ← await S
        { client := none
          table := "profiles"
          steps :=
            [.select profileColumns (.obj [("count", .str "exact")]),
             .orFilter ("full_name.ilike.%" ++ query.toStr ++ "%,username.ilike.%"
               ++ query.toStr ++ "%"),
             .order (.str "created_at") (.obj [("ascending", .bool false)])] }
      if r.error.truthy then M.throw r.error
      return .obj [("success", .bool true),
                   ("data", r.data.orElse (.arr [])),
                   ("total", r.count.orElse (.num 0))])
    failWithMessage

/-- Embedding of `getProfileStats()` (lines 132-178); `thirtyDaysAgo` and `startOfMonth` are
the two instants computed from the clock, as ISO strings. -/
def getProfileStats {σ : Type} (S : Store σ) (thirtyDaysAgo startOfMonth : String) :
    M σ JsVal :=
  M.tryCatch
    (do
      let total ← await S
        { client := none
          table := "profiles"
          steps := [.select "*" (.obj [("count", .str "exact"), ("head", .bool true)])] }
      if total.error.truthy then M.throw total.error
      let active ← await S
        { client := none
          table := "profiles"
          steps := [.select "*" (.obj [("count", .str "exact"), ("head", .bool true)]),
                    .gte "updated_at" (.str thirtyDaysAgo)] }
      if active.error.truthy then M.throw active.error
      let recent ← await S
        { client := none
          table := "profiles"
          steps := [.select "*" (.obj [("count", .str "exact"), ("head", .bool true)]),
                    .gte "created_at" (.str startOfMonth)] }
      if recent.error.truthy then M.throw recent.error
      return .obj [("success", .bool true),
                   ("data", .obj [("total_profiles", total.count.orElse (.num 0)),
                                  ("active_profiles", active.count.orElse (.num 0)),
                                  ("new_profiles_this_month", recent.count.orElse (.num 0))])])
    failWithMessage

/-- The statements `if (profileData.k !== undefined) updateData.k = profileData.k` for the
seven profile fields, in order (lines 198-204). -/
def copyDefined (profileData : JsVal) (updateData : List (String × JsVal)) :
    List (String × JsVal) :=
  ["full_name", "username", "bio", "avatar_url", "website", "github_url",
    "linkedin_url"].foldl
    (fun acc k =>
      if !(profileData.read k).isUndefined then setField acc k (profileData.read k) else acc)
    updateData

/-- Embedding of `updateProfile(userId, profileData, userToken)` (lines 180-234). -/
def updateProfile {σ : Type} (S : Store σ) (userId profileData userToken : JsVal)
    (now : String) : M σ JsVal :=
  M.tryCatch
    (do
      if !userId.truthy || !userId.isString then
        return .obj [("success", .bool false), ("error", .str "ID de usuario inválido")]
      else
        let _ ← M.ofExcept (profileData.getProp "full_name")
        let updateData := copyDefined profileData [("updated_at", .str now)]
        let r ← await S
          { client := if userToken.truthy then some userToken else none
            table := "profiles"
            steps := [.update (.obj updateData), .eq "id" userId,
                      .select profileColumns .undefined] }
        if r.error.truthy then M.throw r.error
        if !r.data.truthy || (r.data.read "length").strictEq (.num 0) then
          return .obj [("success", .bool false),
                       ("error", .str "Perfil no encontrado o no se pudo actualizar")]
        else
          return .obj [("success", .bool true), ("data", r.data.read "0")])
    (fun error => do
      let message ← M.ofExcept (error.getProp "message")
      return .obj [("success", .bool false),
                   ("error", message.orElse (.str "Error al actualizar perfil"))])

end ProfileService

/-! ## Properties of asynchronous computations -/

/-- Every run of `m` either returns a value satisfying `Q` or throws a value satisfying `P`. -/
structure M.Sat {σ α : Type} (m : M σ α) (Q : α → Prop) (P : JsVal → Prop) : Prop where
  run : ∀ s, match (m s).1 with
    | .ok a => Q a
    | .error e => P e

/-- The store never rejects with `null` or `undefined`. -/
def Store.RejectsWithValue {σ : Type} (S : Store σ) : Prop :=
  ∀ q s e s', S.run q s = (.rejects e, s') → e.isNullish = false

/-- The test that a value is a service result: an object with a boolean `success` that, when
`success` is false, has an `error` field. -/
def isServiceResult (v : JsVal) : Bool :=
  match v with
  | .obj fields =>
    (match lookupField fields "success" with
      | some (.bool true) => true
      | some (.bool false) => hasField fields "error"
      | _ => false)
  | _ => false

/-- From every state, `m` resolves (it does not reject) and its value is a service result. -/
def M.ResolvesToResult {σ : Type} (m : M σ JsVal) : Prop :=
  ∀ s, ∃ v s', m s = (.ok v, s') ∧ isServiceResult v = true

/-! ## `ProjectController` (projectController.js) -/

/-- The request fields that the controllers read. -/
structure HttpRequest where
  params : JsVal
  query : JsVal
  body : JsVal
  user : JsVal
  headers : JsVal

/-- The pieces of a string between occurrences of `sep`: `s.split(sep)`. -/
def splitOnChar (sep : Char) : List Char → List (List Char)
  | [] => [[]]
  | c :: rest =>
    if c = sep then [] :: splitOnChar sep rest
    else
      match splitOnChar sep rest with
      | [] => [[c]]
      | piece :: pieces => (c :: piece) :: pieces

/-- The expression `req.headers.authorization?.split(' ')[1]`. -/
def bearerToken (req : HttpRequest) : Except JsThrow JsVal :=
  match req.headers.getProp "authorization" with
  | .error t => .error t
  | .ok authorization =>
    if authorization.isNullish then .ok .undefined
    else
      match authorization with
      | .str s =>
        match splitOnChar ' ' s.data with
        | _ :: second :: _ => .ok (.str (String.mk second))
        | _ => .ok .undefined
      | _ => .error .typeError

/-- Arithmetic on results of `parseInt`, which are integers or NaN: `a - b`. -/
def intSub : JsVal → JsVal → JsVal
  | .num a, .num b => .num (a - b)
  | _, _ => .nan

/-- Arithmetic on results of `parseInt`, which are integers or NaN: `a * b`. -/
def intMul : JsVal → JsVal → JsVal
  | .num a, .num b => .num (a * b)
  | _, _ => .nan

/-- Arithmetic on results of `parseInt`: `Math.floor(a / b) + 1` for a divisor that is NaN
or at least 1. -/
def intFloorDivSucc : JsVal → JsVal → JsVal
  | .num a, .num b => .num (a / b + 1)
  | _, _ => .nan

/-- The comparison `a < b` of two results of `parseInt`. -/
def intLt : JsVal → JsVal → Bool
  | .num a, .num b => decide (a < b)
  | _, _ => false

namespace ProjectController

/-- The statements that compute `calculatedLimit` from the query's `limit` (lines 37-42):
the default 10 for a missing limit, `parseInt`, then the two adjustments. -/
def calculatedLimit (limit : JsVal) : JsVal :=
  let parsed := parseInt (limit.withDefault (.num 10))
  let raised := if intLt parsed (.num 1) then .num 10 else parsed
  if intLt (.num 100) raised then .num 100 else raised

/-- The statement that computes `calculatedOffset` (line 45). -/
def calculatedOffset (query : JsVal) : JsVal :=
  if (query.read "offset").truthy then parseInt (query.read "offset")
  else
    intMul (intSub (parseInt ((query.read "page").withDefault (.num 1))) (.num 1))
      (calculatedLimit (query.read "limit"))

/-- The `pagination` block of the listing (lines 61-69). -/
structure ProjectsPagination where
  page : JsVal
  limit : JsVal
  offset : JsVal
  total : JsVal
  totalPages : JsNum
  hasNext : Bool
  hasPrev : Bool

/-- The response of `getAllProjects`: the listing sent with `res.json`, or the failure sent
with status 500. -/
inductive ProjectsListing where
  | listing (total projects : JsVal) (pagination : ProjectsPagination)
  | failure (error : JsVal)

/-- The response that `getAllProjects` builds from the result of the service (lines 53-76). -/
def listingResponse (page calculatedLimit calculatedOffset result : JsVal) : ProjectsListing :=
  if (result.read "success").truthy then
    let currentPage :=
      if page.truthy then parseInt page else intFloorDivSucc calculatedOffset calculatedLimit
    let totalPages :=
      JsNum.ceil (JsNum.quot (toNumber (result.read "total")) (toNumber calculatedLimit))
    .listing (result.read "total") (result.read "data")
      { page := currentPage
        limit := calculatedLimit
        offset := calculatedOffset
        total := result.read "total"
        totalPages := totalPages
        hasNext := JsNum.lt (toNumber currentPage) totalPages
        hasPrev := JsNum.lt (.fin 1) (toNumber currentPage) }
  else
    .failure (result.read "error")

/-- Embedding of `ProjectController.getAllProjects(req, res)` (lines 36-77). -/
def getAllProjects {σ : Type} (S : Store σ) (req : HttpRequest) : M σ ProjectsListing := do
  let limit ← M.ofExcept (req.query.getProp "limit")
  let page := (req.query.read "page").withDefault (.num 1)
  let search := req.query.read "search"
  let result ← ProjectService.getProjectsPaginated S (calculatedLimit limit)
    (calculatedOffset req.query) search
  return listingResponse page (calculatedLimit limit) (calculatedOffset req.query) result

/-- The response to a request without an authenticated user (lines 303-308). -/
def notAuthenticated : Response :=
  { status := 401
    body := .obj [("success", .bool false), ("error", .str "Usuario no autenticado")] }

/-- The response to a request without a bearer token (lines 310-315). -/
def tokenRequired : Response :=
  { status := 401
    body := .obj [("success", .bool false),
                  ("error", .str "Token de autenticación requerido")] }

/-- Embedding of `ProjectController.updateProject(req, res)` (lines 298-334). -/
def updateProject {σ : Type} (S : Store σ) (req : HttpRequest) : M σ Response := do
  let id ← M.ofExcept (req.params.getProp "id")
  let userId := req.user.optProp "id"
  let userToken ← M.ofExcept (bearerToken req)
  if !userId.truthy then return notAuthenticated
  else if !userToken.truthy then return tokenRequired
  else
    let result ← ProjectService.updateProject S id req.body userToken
    if (result.read "success").truthy then
      return { status := 200
               body := .obj [("success", .bool true),
                             ("message", .str "Proyecto actualizado exitosamente"),
                             ("project", result.read "data")] }
    else
      let notFound ← M.ofExcept (jsIncludes (result.read "error") "no encontrado")
      let statusCode : Int ←
        if notFound then pure 404
        else do
          let notAuthorized ← M.ofExcept (jsIncludes (result.read "error") "no autorizado")
          if notAuthorized then pure 403
          else do
            let required ← M.ofExcept (jsIncludes (result.read "error") "requeridos")
            pure (if required then 400 else 500)
      return { status := statusCode
               body := .obj [("success", .bool false), ("error", result.read "error")] }

/-- Embedding of `ProjectController.deleteProject(req, res)` (lines 363-397). -/
def deleteProject {σ : Type} (S : Store σ) (req : HttpRequest) : M σ Response := do
  let id ← M.ofExcept (req.params.getProp "id")
  let userId := req.user.optProp "id"
  let userToken ← M.ofExcept (bearerToken req)
  if !userId.truthy then return notAuthenticated
  else if !userToken.truthy then return tokenRequired
  else
    let result ← ProjectService.deleteProject S id userToken
    if (result.read "success").truthy then
      return { status := 200
               body := .obj [("success", .bool true),
                             ("message", .str "Proyecto eliminado exitosamente")] }
    else
      let notFound ← M.ofExcept (jsIncludes (result.read "error") "no encontrado")
      let statusCode : Int ←
        if notFound then pure 404
        else do
          let notAuthorized ← M.ofExcept (jsIncludes (result.read "error") "no autorizado")
          pure (if notAuthorized then 403 else 500)
      return { status := statusCode
               body := .obj [("success", .bool false), ("error", result.read "error")] }

end ProjectController

/-! ## The ownership check of the project routes -/

/-- Modelled from the spec: the middleware `requireOwnership('project')` that
`routes/projects.js` places before `updateProject` and `deleteProject`; its file,
`middleware/auth.js`, is not among the sources.  Before the mutation is allowed, the owner of
the target project (read with `ProjectService.checkProjectOwnership`) must equal the caller's
authenticated identity `req.user.id`; a mismatch is answered with the AuthorizationError (403)
and the chain stops.  `none` stands for the call of `next`.  A project that cannot be read is
answered with the NotFoundError (404). -/
def requireOwnership {σ : Type} (S : Store σ) (req : HttpRequest) (now : String) :
    M σ (Option Response) := do
  let id ← M.ofExcept (req.params.getProp "id")
  let result ← ProjectService.checkProjectOwnership S id (req.user.optProp "id")
  if (result.read "success").truthy then
    if (result.read "isOwner").truthy then return none
    else return some { status := 403, body := (AuthorizationError now .undefined).toJSON }
  else return some { status := 404, body := (NotFoundError now (.str "Proyecto")).toJSON }

/-- The route `PUT /api/projects/:id` after authentication (routes/projects.js line 11). -/
def updateProjectRoute {σ : Type} (S : Store σ) (req : HttpRequest) (now : String) :
    M σ Response := do
  let verdict ← requireOwnership S req now
  match verdict with
  | some response => return response
  | none => ProjectController.updateProject S req

/-- The route `DELETE /api/projects/:id` after authentication (routes/projects.js line 12). -/
def deleteProjectRoute {σ : Type} (S : Store σ) (req : HttpRequest) (now : String) :
    M σ Response := do
  let verdict ← requireOwnership S req now
  match verdict with
  | some response => return response
  | none => ProjectController.deleteProject S req

/-! ## Stores used to run the operations -/

/-- A store that records the queries it receives, in order, next to the state of `S`. -/
def Store.traced {σ : Type} (S : Store σ) : Store (σ × List Query) where
  run q st := ((S.run q st.1).1, ((S.run q st.1).2, st.2 ++ [q]))

/-- The test that a query changes the store: it has an `insert`, `update` or `delete` call. -/
def Query.isMutation (q : Query) : Bool :=
  q.steps.any fun step =>
    match step with
    | .insert _ => true
    | .update _ => true
    | .delete => true
    | _ => false

/-- A store that plays a script: each query takes the next outcome of the list, and resolves
to empty fields once the list is exhausted. -/
def scriptedStore : Store (List StoreOutcome) where
  run _ script :=
    match script with
    | [] => (.resolves { data := .null, error := .null, count := .null }, [])
    | outcome :: rest => (outcome, rest)

/-- Modelled from the spec: the state of the store's tables `comments` and `comment_likes`, as
far as the like toggle uses them.  `likesCount` gives the denormalized counter of each existing
comment; `likes` holds the membership rows (comment_id, user_id), unique together. -/
structure LikesDb where
  likesCount : String → Option Int
  likes : List (String × String)

/-- The error with which `.single()` answers when it does not find exactly one row. -/
def noSingleRow : JsVal :=
  .obj [("code", .str "PGRST116"),
        ("message", .str "JSON object requested, multiple (or no) rows returned")]

/-- The error of a violated unique constraint. -/
def uniqueViolation : JsVal :=
  .obj [("code", .str "23505"),
        ("message", .str "duplicate key value violates unique constraint")]

/-- The error given to a query that the model of the tables does not cover. -/
def unsupportedQuery : JsVal :=
  .obj [("code", .str "PGRST100"), ("message", .str "query outside the model")]

namespace LikesDb

/-- The membership rows of one comment. -/
def rowsOf (db : LikesDb) (commentId : String) : List (String × String) :=
  db.likes.filter fun row => row.1 == commentId

/-- The answer to `select('id').eq('comment_id', c).eq('user_id', u).single()`. -/
def selectLike (db : LikesDb) (c u : String) : StoreResponse :=
  if (db.likes.filter fun row => row == (c, u)).length = 1 then
    { data := .obj [("id", .str (c ++ "/" ++ u))], error := .null, count := .null }
  else { data := .null, error := noSingleRow, count := .null }

/-- The effect of `delete().eq('comment_id', c).eq('user_id', u)`. -/
def deleteLike (db : LikesDb) (c u : String) : LikesDb :=
  { db with likes := db.likes.filter fun row => row != (c, u) }

/-- The effect of `insert({ comment_id: c, user_id: u })`, refused when the pair exists. -/
def insertLike (db : LikesDb) (c u : String) : StoreResponse × LikesDb :=
  if db.likes.contains (c, u) then
    ({ data := .null, error := uniqueViolation, count := .null }, db)
  else
    ({ data := .null, error := .null, count := .null }, { db with likes := db.likes ++ [(c, u)] })

/-- The effect of the relative update of `likes_count` by `delta` on the comment `c`. -/
def addToCounter (db : LikesDb) (c : String) (delta : Int) : LikesDb :=
  { db with
    likesCount := fun id => if id = c then (db.likesCount id).map (· + delta)
      else db.likesCount id }

/-- The answer to `select('likes_count').eq('id', c).single()`. -/
def selectCounter (db : LikesDb) (c : String) : StoreResponse :=
  match db.likesCount c with
  | some n => { data := .obj [("likes_count", .num n)], error := .null, count := .null }
  | none => { data := .null, error := noSingleRow, count := .null }

/-- Modelled from the spec: the store's answers to the queries of the like toggle.  The
existence check reads the membership of the pair; `delete` and `insert` remove and add the
membership row; the update evaluates the relative expression on the counter of the comment,
atomically; the last query reads the counter.  No query of this model rejects. -/
def run (q : Query) (db : LikesDb) : StoreOutcome × LikesDb :=
  match q.table, q.steps with
  | "comment_likes", [.select _ _, .eq "comment_id" (.str c), .eq "user_id" (.str u), .single] =>
    (.resolves (db.selectLike c u), db)
  | "comment_likes", [.delete, .eq "comment_id" (.str c), .eq "user_id" (.str u)] =>
    (.resolves { data := .null, error := .null, count := .null }, db.deleteLike c u)
  | "comment_likes", [.insert (.obj [("comment_id", .str c), ("user_id", .str u)])] =>
    (.resolves (db.insertLike c u).1, (db.insertLike c u).2)
  | "comments",
      [.update (.obj [("likes_count", .obj [("raw", .str "likes_count + 1")])]),
       .eq "id" (.str c)] =>
    (.resolves { data := .null, error := .null, count := .null }, db.addToCounter c 1)
  | "comments",
      [.update (.obj [("likes_count", .obj [("raw", .str "likes_count - 1")])]),
       .eq "id" (.str c)] =>
    (.resolves { data := .null, error := .null, count := .null }, db.addToCounter c (-1))
  | "comments", [.select "likes_count" _, .eq "id" (.str c), .single] =>
    (.resolves (db.selectCounter c), db)
  | _, _ => (.resolves { data := .null, error := unsupportedQuery, count := .null }, db)

end LikesDb

/-- Modelled from the spec: the store of the like toggle, as a `Store`. -/
def likesStore : Store LikesDb where
  run := LikesDb.run

/-- A sequence of like toggles on one comment, one per user of the list, in strict sequence;
the results are collected in order. -/
def toggleSequence {σ : Type} (S : Store σ) (commentId : String) (userToken : JsVal) :
    List String → M σ (List JsVal)
  | [] => pure []
  | userId :: rest => do
    let result ← CommentService.toggleLike S (.str commentId) (.str userId) userToken
    let results ← toggleSequence S commentId userToken rest
    pure (result :: results)

/-- A state of the like tables used to run the toggle: one comment, `comment-1`, with counter 0
and no membership row. -/
def sampleLikesDb : LikesDb :=
  { likesCount := fun id => if id = "comment-1" then some 0 else none
    likes := [] }

/-! ## Inputs of the evaluations -/

/-- The query with which `checkProjectOwnership` reads the owner of a project. -/
def ownershipQuery (id : JsVal) : Query :=
  { client := none
    table := "projects"
    steps := [.select "user_id" .undefined, .eq "id" id, .single] }

/-- A request to change the project `project-1` made by the authenticated user `intruder`. -/
def intruderRequest : HttpRequest :=
  { params := .obj [("id", .str "project-1")]
    query := .obj []
    body := .obj [("title", .str "Tomado")]
    user := .obj [("id", .str "intruder")]
    headers := .obj [("authorization", .str "Bearer token-1")] }

/-- Ten project rows of the user `user-1`, as the store returns them. -/
def tenProjectRows : JsVal :=
  .arr ((List.range 10).map fun i =>
    .obj [("id", .num i), ("title", .str "Proyecto"), ("user_id", .str "user-1")])

/-! ## `validation` (validation.js) -/

namespace validation

/-- The test of `emailRegex`, `^[^\s@]+@[^\s@]+\.[^\s@]+$`, on the characters of a string.  The
three classes exclude white space and `@` only, so the pattern matches exactly the strings
without white space that have one `@`, a non-empty part before it, and after it a part with a
dot that is neither its first nor its last character. -/
def matchesEmail (cs : List Char) : Bool :=
  cs.all (fun c => !isStrWhiteSpace c) &&
    (match splitOnChar '@' cs with
      | [name, domain] => !name.isEmpty && (domain.drop 1).dropLast.contains '.'
      | _ => false)

/-- Embedding of `validation.email(email)` (lines 2-5): `test` converts its argument to a
string. -/
def email (email : JsVal) : Bool :=
  matchesEmail email.toStr.data

/-- The comparison `v >= n` of a value with an integer literal. -/
def atLeast (v : JsVal) (n : Int) : Bool :=
  match toNumber v with
  | .nan => false
  | x => !JsNum.lt x (.fin n)

/-- Embedding of `validation.password(password)` (lines 7-9): the value of
`password && password.length >= 6`. -/
def password (password : JsVal) : JsVal :=
  if !password.truthy then password
  else
    match password with
    | .str s => .bool (decide (6 ≤ utf16Length s))
    | v => .bool (atLeast (v.read "length") 6)

/-- Embedding of `validation.required(value, fieldName)` (lines 11-16). -/
def required (value : JsVal) (fieldName : String) : Except JsThrow Bool :=
  if !value.truthy || (value.isString && (trimWhiteSpace value.toStr.data).isEmpty) then
    .error (.error (fieldName ++ " es requerido"))
  else .ok true

end validation

/-! ## `response` (response.js) -/

namespace response

/-- Embedding of `response.success(data, message = 'Operación exitosa')` (lines 2-6). -/
def success (data message : JsVal) : JsVal :=
  .obj [("success", .bool true),
        ("message", message.withDefault (.str "Operación exitosa")),
        ("data", data)]

/-- Embedding of `response.error(message, statusCode = 500)` (lines 8-12). -/
def error (message statusCode : JsVal) : JsVal :=
  .obj [("success", .bool false),
        ("error", message),
        ("statusCode", statusCode.withDefault (.num 500))]

/-- Embedding of `response.validation(errors)` (lines 14-18). -/
def validation (errors : JsVal) : JsVal :=
  .obj [("success", .bool false),
        ("error", .str "Datos de validación inválidos"),
        ("details", errors)]

/-- Embedding of `response.notFound(resource = 'Recurso')` (lines 20-23). -/
def notFound (resource : JsVal) : JsVal :=
  .obj [("success", .bool false),
        ("error", .str ((resource.withDefault (.str "Recurso")).toStr ++ " no encontrado"))]

/-- Embedding of `response.unauthorized(message = 'No autorizado')` (lines 25-28). -/
def unauthorized (message : JsVal) : JsVal :=
  .obj [("success", .bool false), ("error", message.withDefault (.str "No autorizado"))]

/-- Embedding of `response.forbidden(message)` with its default message (lines 30-33). -/
def forbidden (message : JsVal) : JsVal :=
  .obj [("success", .bool false),
        ("error", message.withDefault (.str "No tienes permisos para realizar esta acción"))]

end response

/-- The handler `catch (error) { res.status(400).json(response.validation([error.message])) }`
of the auth and comment controllers. -/
def answerValidation {σ : Type} (error : JsVal) : M σ Response := do
  let message ← M.ofExcept (error.getProp "message")
  return { status := 400, body := response.validation (.arr [message]) }

/-! ## `AuthController` (authController.js) -/

namespace AuthController

/-- The response of `register` to the result of `AuthService.signUp` (lines 70-76). -/
def registered (result : JsVal) : Except JsThrow Response :=
  match result.getProp "success" with
  | .error t => .error t
  | .ok success =>
    if success.truthy then
      .ok { status := 201
            body := response.success (result.read "user")
              (.str "Usuario registrado exitosamente") }
    else
      match jsIncludes (result.read "error") "ya está registrado" with
      | .error t => .error t
      | .ok true =>
        .ok { status := 409, body := response.error (result.read "error") (.num 409) }
      | .ok false =>
        match jsIncludes (result.read "error") "requeridos" with
        | .error t => .error t
        | .ok true =>
          .ok { status := 400, body := response.error (result.read "error") (.num 400) }
        | .ok false =>
          .ok { status := 500, body := response.error (result.read "error") (.num 500) }

/-- Embedding of `AuthController.register(req, res)` (lines 60-81).  `signUp` stands for
`AuthService.signUp`, whose file is not among the sources: any asynchronous function of the
request body.  The values returned by `validation.email` and `validation.password` are not
used by the code. -/
def register {σ : Type} (signUp : JsVal → M σ JsVal) (req : HttpRequest) : M σ Response :=
  M.tryCatch
    (do
      let email ← M.ofExcept (req.body.getProp "email")
      let password := req.body.read "password"
      let _ ← M.ofExcept (validation.required email "Email")
      let _ ← M.ofExcept (validation.required password "Contraseña")
      let _ := validation.email email
      let _ := validation.password password
      let result ← signUp req.body
      M.ofExcept (registered result))
    answerValidation

end AuthController

/-- A stand-in for `AuthService.signUp` that records the bodies it is called with and resolves
to `result`. -/
def recordingSignUp (result : JsVal) (body : JsVal) : M (List JsVal) JsVal :=
  fun calls => (.ok result, calls ++ [body])

/-! ## `CommentController` (commentController.js) -/

namespace CommentController

/-- The test of `uuidRegex` (line 56), which has the flag `i`, on the characters of a
string: 36 characters, hyphens at the positions 8, 13, 18 and 23, a digit from 1 to 5 at
position 14, one of `8`, `9`, `a`, `b` at position 19, and hexadecimal digits elsewhere. -/
def matchesUuid (cs : List Char) : Bool :=
  cs.length == 36 &&
    (List.range 36).all fun i =>
      let c := cs.getD i ' '
      if i = 8 ∨ i = 13 ∨ i = 18 ∨ i = 23 then c == '-'
      else if i = 14 then "12345".data.contains c
      else if i = 19 then "89abAB".data.contains c
      else isDigitOf 16 c

/-- The response to a failed result of the service (the `else` branches at lines 77-80,
153-156 and 220-223). -/
def answerFailure (result : JsVal) : Except JsThrow Response :=
  match jsIncludes (result.read "error") "no encontrado" with
  | .error t => .error t
  | .ok true => .ok { status := 404, body := response.error (result.read "error") (.num 404) }
  | .ok false => .ok { status := 500, body := response.error (result.read "error") (.num 500) }

/-- Embedding of `CommentController.getProjectComments(req, res)` (lines 46-84). -/
def getProjectComments {σ : Type} (S : Store σ) (req : HttpRequest) : M σ Response :=
  M.tryCatch
    (do
      let projectId ← M.ofExcept (req.params.getProp "projectId")
      let givenPage ← M.ofExcept (req.query.getProp "page")
      let page := givenPage.withDefault (.num 1)
      let limit := (req.query.read "limit").withDefault (.num 10)
      let sort := (req.query.read "sort").withDefault (.str "newest")
      let _ ← M.ofExcept (validation.required projectId "Project ID")
      let _ ← M.ofExcept (validation.required page "Page")
      let _ ← M.ofExcept (validation.required limit "Limit")
      if !matchesUuid projectId.toStr.data then
        return { status := 400
                 body := response.error (.str "Project ID debe ser un UUID válido") (.num 400) }
      else
        let result ← CommentService.getProjectComments S projectId (parseInt page)
          (parseInt limit) sort
        if (result.read "success").truthy then
          return { status := 200
                   body := .obj [("success", .bool true),
                                 ("comments", result.read "data"),
                                 ("total", result.read "total"),
                                 ("page", parseInt page),
                                 ("limit", parseInt limit),
                                 ("has_more", result.read "hasMore")] }
        else M.ofExcept (answerFailure result))
    answerValidation

/-- Embedding of `CommentController.createComment(req, res)` (lines 122-160). -/
def createComment {σ : Type} (S : Store σ) (req : HttpRequest) (now : String) :
    M σ Response :=
  M.tryCatch
    (do
      let projectId ← M.ofExcept (req.params.getProp "projectId")
      let content ← M.ofExcept (req.body.getProp "content")
      let userId := req.user.optProp "id"
      let userToken ← M.ofExcept (bearerToken req)
      let _ ← M.ofExcept (validation.required projectId "Project ID")
      let _ ← M.ofExcept (validation.required content "Content")
      let _ ← M.ofExcept (validation.required userId "User ID")
      let _ ← M.ofExcept (validation.required userToken "User Token")
      let result ← CommentService.createComment S
        (.obj [("projectId", projectId), ("userId", userId), ("content", content),
               ("userToken", userToken)]) now
      if (result.read "success").truthy then
        return { status := 201
                 body := .obj [("success", .bool true),
                               ("message", .str "Comentario creado exitosamente"),
                               ("comment",
                                 .obj (setField (assignFields [] (result.read "data").ownFields)
                                   "is_liked" (.bool false)))] }
      else M.ofExcept (answerFailure result))
    answerValidation

/-- Embedding of `CommentController.toggleLike(req, res)` (lines 202-227). -/
def toggleLike {σ : Type} (S : Store σ) (req : HttpRequest) : M σ Response :=
  M.tryCatch
    (do
      let commentId ← M.ofExcept (req.params.getProp "commentId")
      let userId := req.user.optProp "id"
      let userToken ← M.ofExcept (bearerToken req)
      let _ ← M.ofExcept (validation.required commentId "Comment ID")
      let _ ← M.ofExcept (validation.required userId "User ID")
      let _ ← M.ofExcept (validation.required userToken "User Token")
      let result ← CommentService.toggleLike S commentId userId userToken
      if (result.read "success").truthy then
        return { status := 200
                 body := .obj [("success", .bool true),
                               ("likes_count", result.read "likesCount"),
                               ("is_liked", result.read "isLiked")] }
      else M.ofExcept (answerFailure result))
    answerValidation

end CommentController

/-! ## `ProjectController`: reading and creating a project -/

namespace ProjectController

/-- Embedding of `ProjectController.getProjectById(req, res)` (lines 107-123). -/
def getProjectById {σ : Type} (S : Store σ) (req : HttpRequest) : M σ Response := do
  let id ← M.ofExcept (req.params.getProp "id")
  let result ← ProjectService.getProjectById S id
  if (result.read "success").truthy then
    return { status := 200
             body := .obj [("success", .bool true), ("project", result.read "data")] }
  else
    let notFound ← M.ofExcept (jsIncludes (result.read "error") "no encontrado")
    return { status := if notFound then 404 else 500
             body := .obj [("success", .bool false), ("error", result.read "error")] }

/-- The row `{ ...req.body, user_id: userId }` that `createProject` hands to the service
(lines 207-210). -/
def projectData (req : HttpRequest) : List (String × JsVal) :=
  setField (assignFields [] req.body.ownFields) "user_id" (req.user.optProp "id")

/-- The response of `createProject` to the result of the service (lines 214-227). -/
def created (result : JsVal) : Except JsThrow Response :=
  if (result.read "success").truthy then
    .ok { status := 201
          body := .obj [("success", .bool true),
                        ("message", .str "Proyecto creado exitosamente"),
                        ("project", result.read "data")] }
  else
    match jsIncludes (result.read "error") "requeridos" with
    | .error t => .error t
    | .ok required =>
      .ok { status := if required then 400 else 500
            body := .obj [("success", .bool false), ("error", result.read "error")] }

/-- Embedding of `ProjectController.createProject(req, res)` (lines 189-227). -/
def createProject {σ : Type} (S : Store σ) (req : HttpRequest) : M σ Response := do
  let userId := req.user.optProp "id"
  let userToken ← M.ofExcept (bearerToken req)
  if !userId.truthy then return notAuthenticated
  else if !userToken.truthy then return tokenRequired
  else
    let result ← ProjectService.createProject S (.obj (projectData req)) userToken
    M.ofExcept (created result)

end ProjectController

/-! ## Results of an asynchronous computation -/

/-- Every run of `m` from the state `s` that returns a value `a` and leaves the state `s'`
satisfies `Q a s'`. -/
structure M.Post {σ α : Type} (m : M σ α) (s : σ) (Q : α → σ → Prop) : Prop where
  run : ∀ a s', m s = (.ok a, s') → Q a s'

/-- The result with which `ProjectService.getAllProjects` answers in its `catch` block
(projectService.js lines 72-77). -/
def mockResult : JsVal :=
  .obj [("success", .bool true),
        ("data", mockProjects),
        ("total", mockProjects.read "length"),
        ("mock", .bool true)]

/-! ## A stand-in for Ajv on required properties -/

/-- A stand-in for Ajv used to evaluate `validateBody` on concrete inputs: it enforces only the
`required` list of the schema and, as Ajv does with `allErrors: true` (swaggerValidator.js line
10), reports one error object for each missing property, with the empty `instancePath` of the
object that lacks it. -/
def requiredCompile (schema : JsVal) (data : JsVal) : AjvOutcome :=
  let names : List String :=
    match schema.read "required" with
    | .arr items => items.map JsVal.toStr
    | _ => []
  let missing := names.filter fun name => !hasField data.ownFields name
  if missing.isEmpty then { valid := true, errors := none }
  else
    { valid := false
      errors := some (missing.map fun name =>
        { instancePath := ""
          schemaPath := "#/required"
          keyword := "required"
          params := .obj [("missingProperty", .str name)]
          message := .str ("must have required property '" ++ name ++ "'") }) }

/-- The module's instance with the `AuthLogin` schema (lines 285-303, descriptions and examples
omitted) and the stand-in for Ajv on required properties. -/
def loginValidator : SwaggerValidator :=
  swaggerValidator requiredCompile
    [("AuthLogin",
      .obj [("type", .str "object"),
            ("required", .arr [.str "email", .str "password"]),
            ("properties",
              .obj [("email", .obj [("type", .str "string"), ("format", .str "email")]),
                    ("password", .obj [("type", .str "string"), ("minLength", .num 8),
                                       ("format", .str "password")])])])]

/-! ## Theorems -/

/-! ### Field lists -/

theorem lookupField_cons (a : String) (w : JsVal) (rest : List (String × JsVal))
    (k : String) :
    lookupField ((a, w) :: rest) k
      = match lookupField rest k with
        | some u => some u
        | none => if a = k then some w else none := rfl

theorem lookupField_append_single (l : List (String × JsVal)) (k k' : String) (v : JsVal) :
    lookupField (l ++ [(k, v)]) k' = if k = k' then some v else lookupField l k' := by
  induction l with
  | nil => simp [lookupField]
  | cons p rest ih =>
    obtain ⟨a, w⟩ := p
    rw [List.cons_append, lookupField_cons, ih, lookupField_cons]
    by_cases h : k = k'
    · simp [h]
    · simp [h]

theorem lookupField_map_set (l : List (String × JsVal)) (k k' : String) (v : JsVal) :
    lookupField (l.map (fun p => if p.1 = k then (p.1, v) else p)) k'
      = if k = k' then (lookupField l k').map (fun _ => v) else lookupField l k' := by
  induction l with
  | nil => simp [lookupField]
  | cons p rest ih =>
    obtain ⟨a, w⟩ := p
    rw [List.map_cons]
    by_cases ha : a = k
    · have e : (if (a, w).1 = k then ((a, w).1, v) else (a, w)) = (a, v) := by simp [ha]
      rw [e, lookupField_cons, ih, lookupField_cons]
      by_cases h : k = k'
      · subst h
        subst ha
        cases lookupField rest a <;> simp
      · have h' : ¬ a = k' := by rw [ha]; exact h
        simp [h, h']
    · have e : (if (a, w).1 = k then ((a, w).1, v) else (a, w)) = (a, w) := by simp [ha]
      rw [e, lookupField_cons, ih, lookupField_cons]
      by_cases h : k = k'
      · subst h
        cases lookupField rest k <;> simp [ha]
      · simp [h]

theorem lookupField_setField (l : List (String × JsVal)) (k k' : String) (v : JsVal) :
    lookupField (setField l k v) k' = if k = k' then some v else lookupField l k' := by
  unfold setField
  by_cases hk : hasField l k = true
  · rw [if_pos hk, lookupField_map_set]
    by_cases h : k = k'
    · subst h
      simp only [if_true]
      unfold hasField at hk
      cases hl : lookupField l k with
      | none => simp [hl] at hk
      | some w => simp
    · simp [h]
  · rw [if_neg hk, lookupField_append_single]

theorem lookupField_assignFields (src base : List (String × JsVal)) (k : String) :
    lookupField (assignFields base src) k
      = match lookupField src k with
        | some v => some v
        | none => lookupField base k := by
  induction src generalizing base with
  | nil => simp [assignFields, lookupField]
  | cons p rest ih =>
    obtain ⟨a, w⟩ := p
    have h := ih (setField base a w)
    simp only [assignFields, List.foldl_cons] at h ⊢
    rw [h, lookupField_setField, lookupField_cons]
    cases lookupField rest k with
    | some u => rfl
    | none =>
      by_cases hak : a = k
      · simp [hak]
      · simp [hak]

theorem ownFields_withDefault_obj (v : JsVal) :
    (v.withDefault (.obj [])).ownFields = v.ownFields := by
  cases v <;> rfl

/-! ### Strict equality -/

theorem strictEqStr_iff (v : JsVal) (s : String) :
    v.strictEqStr s = true ↔ v = .str s := by
  cases v <;> simp [JsVal.strictEqStr]

theorem strictEqNum_iff (v : JsVal) (n : Int) :
    v.strictEqNum n = true ↔ v = .num n := by
  cases v <;> simp [JsVal.strictEqNum]

theorem answers_iff (r : HandlerResult) (status : Int) (code : String) :
    r.answers status code = true
      ↔ r.status = .num status ∧ detailsCode r.body = some (.str code) := by
  unfold HandlerResult.answers
  rw [Bool.and_eq_true, strictEqNum_iff]
  cases h : detailsCode r.body with
  | none => simp
  | some c => simp [strictEqStr_iff]

/-! ### The Joi loop -/

theorem joiValidationErrors_ok (ds : List JsVal)
    (hp : ∀ d ∈ ds, ∃ segments, d.getProp "path" = .ok (.arr segments))
    (acc : List (String × JsVal)) :
    ∃ ve, joiValidationErrors ds acc = .ok ve := by
  induction ds generalizing acc with
  | nil => exact ⟨acc, rfl⟩
  | cons d rest ih =>
    obtain ⟨segments, hseg⟩ := hp d (List.mem_cons_self _ _)
    have hrest : ∀ x ∈ rest, ∃ segments, x.getProp "path" = .ok (.arr segments) :=
      fun x hx => hp x (List.mem_cons_of_mem _ hx)
    cases d with
    | undefined => simp [JsVal.getProp] at hseg
    | null => simp [JsVal.getProp] at hseg
    | bool b =>
      simp only [joiValidationErrors, hseg]
      exact ih hrest _
    | num n =>
      simp only [joiValidationErrors, hseg]
      exact ih hrest _
    | nan =>
      simp only [joiValidationErrors, hseg]
      exact ih hrest _
    | str t =>
      simp only [joiValidationErrors, hseg]
      cases hm : (JsVal.str t).getProp "message" with
      | error e => simp [JsVal.getProp] at hm
      | ok m => exact ih hrest _
    | arr items =>
      simp only [joiValidationErrors, hseg]
      cases hm : (JsVal.arr items).getProp "message" with
      | error e => simp [JsVal.getProp] at hm
      | ok m => exact ih hrest _
    | obj fields =>
      simp only [joiValidationErrors, hseg]
      exact ih hrest _

/-! ### The registry -/

theorem registerSchema_foldl (regs : List (String × JsVal)) (sv : SwaggerValidator) :
    (regs.foldl (fun sv p => sv.registerSchema p.1 p.2) sv).schemas
        = assignFields sv.schemas regs
      ∧ (regs.foldl (fun sv p => sv.registerSchema p.1 p.2) sv).ajvSchemas
        = assignFields sv.ajvSchemas regs
      ∧ (regs.foldl (fun sv p => sv.registerSchema p.1 p.2) sv).compile = sv.compile := by
  induction regs generalizing sv with
  | nil => exact ⟨rfl, rfl, rfl⟩
  | cons p rest ih =>
    obtain ⟨h1, h2, h3⟩ := ih (sv.registerSchema p.1 p.2)
    simp only [List.foldl_cons, assignFields] at h1 h2 h3 ⊢
    exact ⟨h1, h2, h3⟩

theorem lookupField_swaggerValidator (compile : JsVal → JsVal → AjvOutcome)
    (regs : List (String × JsVal)) (name : String) :
    lookupField (swaggerValidator compile regs).schemas name = lookupField regs name
      ∧ lookupField (swaggerValidator compile regs).ajvSchemas name = lookupField regs name
      ∧ (swaggerValidator compile regs).compile = compile := by
  obtain ⟨h1, h2, h3⟩ := registerSchema_foldl regs (SwaggerValidator.new compile)
  unfold swaggerValidator
  rw [h1, h2, h3, lookupField_assignFields, lookupField_assignFields]
  refine ⟨?_, ?_, rfl⟩ <;> cases lookupField regs name <;> rfl

/-! ### Lookup in a field list -/

theorem lookupField_append (a b : List (String × JsVal)) (k : String) :
    lookupField (a ++ b) k
      = match lookupField b k with
        | some v => some v
        | none => lookupField a k := by
  induction a with
  | nil => simp [lookupField]; cases lookupField b k <;> rfl
  | cons p rest ih =>
    obtain ⟨c, w⟩ := p
    rw [List.cons_append, lookupField_cons, ih, lookupField_cons]
    cases lookupField b k <;> rfl

theorem lookupField_eq_none_iff (l : List (String × JsVal)) (k : String) :
    lookupField l k = none ↔ ∀ p ∈ l, p.1 ≠ k := by
  induction l with
  | nil => simp [lookupField]
  | cons p rest ih =>
    obtain ⟨c, w⟩ := p
    rw [lookupField_cons]
    cases h : lookupField rest k with
    | some u =>
      have hne : ¬ ∀ p ∈ rest, p.1 ≠ k := fun hall => by simp [ih.mpr hall] at h
      simp only [false_iff, reduceCtorEq]
      intro hall
      exact hne fun p hp => hall p (List.mem_cons_of_mem _ hp)
    | none =>
      have hall := ih.mp h
      by_cases hc : c = k
      · simp [hc]
      · simp only [hc, if_false, true_iff]
        intro p hp
        rcases List.mem_cons.mp hp with rfl | hp
        · exact hc
        · exact hall p hp

theorem lookupField_mem (l : List (String × JsVal)) (k : String) (v : JsVal)
    (h : lookupField l k = some v) : (k, v) ∈ l := by
  induction l with
  | nil => simp [lookupField] at h
  | cons p rest ih =>
    obtain ⟨c, w⟩ := p
    rw [lookupField_cons] at h
    cases hr : lookupField rest k with
    | some u =>
      rw [hr] at h
      simp only [Option.some.injEq] at h
      subst h
      exact List.mem_cons_of_mem _ (ih hr)
    | none =>
      rw [hr] at h
      by_cases hc : c = k
      · simp only [hc, if_true, Option.some.injEq] at h
        subst h
        subst hc
        exact List.mem_cons_self _ _
      · simp [hc] at h

/-! ### Asynchronous computations -/

theorem M.Sat.pure {σ α : Type} (a : α) (Q : α → Prop) (P : JsVal → Prop) (h : Q a) :
    M.Sat (Pure.pure a : M σ α) Q P :=
  ⟨fun _ => h⟩

theorem M.Sat.throw {σ α : Type} (e : JsVal) (Q : α → Prop) (P : JsVal → Prop) (h : P e) :
    M.Sat (M.throw e : M σ α) Q P :=
  ⟨fun _ => h⟩

theorem M.Sat.bind {σ α β : Type} (m : M σ α) (f : α → M σ β) (Q : β → Prop)
    (P : JsVal → Prop) (hm : M.Sat m (fun _ => True) P) (hf : ∀ a, M.Sat (f a) Q P) :
    M.Sat (m >>= f) Q P := by
  constructor
  intro s
  have h1 := hm.run s
  show match (M.andThen m f s).1 with
    | .ok a => Q a
    | .error e => P e
  unfold M.andThen
  rcases hms : m s with ⟨r, s'⟩
  rw [hms] at h1
  cases r with
  | ok a => exact (hf a).run s'
  | error e => exact h1

theorem M.Sat.tryCatch {σ α : Type} (m : M σ α) (handler : JsVal → M σ α) (Q : α → Prop)
    (P P' : JsVal → Prop) (hm : M.Sat m Q P') (hh : ∀ e, P' e → M.Sat (handler e) Q P) :
    M.Sat (M.tryCatch m handler) Q P := by
  constructor
  intro s
  have h1 := hm.run s
  unfold M.tryCatch
  rcases hms : m s with ⟨r, s'⟩
  rw [hms] at h1
  cases r with
  | ok a => exact h1
  | error e => exact (hh e h1).run s'

theorem typeError_not_nullish (t : JsThrow) : t.toValue.isNullish = false := by
  cases t <;> rfl

theorem M.Sat.ofExcept {σ α : Type} (x : Except JsThrow α) :
    M.Sat (M.ofExcept x : M σ α) (fun _ => True) (fun e => e.isNullish = false) := by
  constructor
  intro s
  cases x with
  | ok a => trivial
  | error t => exact typeError_not_nullish t

theorem M.Sat.await {σ : Type} (S : Store σ) (hS : S.RejectsWithValue) (q : Query) :
    M.Sat (await S q) (fun _ => True) (fun e => e.isNullish = false) := by
  constructor
  intro s
  unfold DevConnect.await
  rcases h : S.run q s with ⟨o, s'⟩
  cases o with
  | resolves r => trivial
  | rejects e => exact hS q s e s' h

theorem not_nullish_of_truthy (v : JsVal) (h : v.truthy = true) : v.isNullish = false := by
  cases v <;> simp_all [JsVal.truthy, JsVal.isNullish]

theorem getProp_ok (v : JsVal) (k : String) (h : v.isNullish = false) :
    v.getProp k = .ok (v.read k) := by
  have key : ∀ x : Except JsThrow JsVal, (∃ w, x = .ok w) →
      x = .ok (x.toOption.getD .undefined) := by
    rintro x ⟨w, rfl⟩
    rfl
  unfold JsVal.read
  apply key
  cases v with
  | undefined => simp [JsVal.isNullish] at h
  | null => simp [JsVal.isNullish] at h
  | bool b => exact ⟨_, rfl⟩
  | num n => exact ⟨_, rfl⟩
  | nan => exact ⟨_, rfl⟩
  | str t =>
    unfold JsVal.getProp
    by_cases hk : k = "length"
    · exact ⟨_, if_pos hk⟩
    · exact ⟨_, if_neg hk⟩
  | arr items =>
    unfold JsVal.getProp
    by_cases hk : k = "length"
    · exact ⟨_, if_pos hk⟩
    · exact ⟨_, if_neg hk⟩
  | obj fields => exact ⟨_, rfl⟩

theorem failWithMessage_sat {σ : Type} (e : JsVal) (h : e.isNullish = false) :
    M.Sat (CommentService.failWithMessage e : M σ JsVal)
      (fun v => isServiceResult v = true) (fun _ => False) := by
  unfold CommentService.failWithMessage
  rw [getProp_ok e "message" h]
  exact ⟨fun _ => rfl⟩

/-! ### The operations of the services resolve -/

theorem CommentService_getProjectComments_resolves {σ : Type} (S : Store σ)
    (hS : S.RejectsWithValue) (projectId page limit sort : JsVal) :
    M.Sat (CommentService.getProjectComments S projectId page limit sort)
      (fun v => isServiceResult v = true) (fun _ => False) := by
  unfold CommentService.getProjectComments
  try dsimp only
  apply M.Sat.tryCatch _ _ _ _ (fun e => e.isNullish = false)
  · repeat' first
      | apply M.Sat.bind
      | intro _
      | exact M.Sat.await S hS _
      | exact M.Sat.ofExcept _
      | split
      | apply M.Sat.throw
      | apply M.Sat.pure
      | trivial
      | rfl
      | (apply not_nullish_of_truthy; assumption)
  · intro e he
    rw [getProp_ok e "message" he]
    exact ⟨fun _ => rfl⟩

theorem CommentService_toggleLike_resolves {σ : Type} (S : Store σ)
    (hS : S.RejectsWithValue) (commentId userId userToken : JsVal) :
    M.Sat (CommentService.toggleLike S commentId userId userToken)
      (fun v => isServiceResult v = true) (fun _ => False) := by
  unfold CommentService.toggleLike
  try dsimp only
  apply M.Sat.tryCatch _ _ _ _ (fun e => e.isNullish = false)
  · repeat' first
      | apply M.Sat.bind
      | intro _
      | exact M.Sat.await S hS _
      | exact M.Sat.ofExcept _
      | split
      | apply M.Sat.throw
      | apply M.Sat.pure
      | trivial
      | rfl
      | (apply not_nullish_of_truthy; assumption)
      | (apply not_nullish_of_truthy; simp_all)
  · exact fun e he => failWithMessage_sat e he

theorem CommentService_getCommentReplies_resolves {σ : Type} (S : Store σ)
    (hS : S.RejectsWithValue) (commentId page limit userToken : JsVal) :
    M.Sat (CommentService.getCommentReplies S commentId page limit userToken)
      (fun v => isServiceResult v = true) (fun _ => False) := by
  unfold CommentService.getCommentReplies
  try dsimp only
  apply M.Sat.tryCatch _ _ _ _ (fun e => e.isNullish = false)
  · repeat' first
      | apply M.Sat.bind
      | intro _
      | exact M.Sat.await S hS _
      | exact M.Sat.ofExcept _
      | split
      | apply M.Sat.throw
      | apply M.Sat.pure
      | trivial
      | rfl
      | (apply not_nullish_of_truthy; assumption)
  · exact fun e he => failWithMessage_sat e he

theorem ProjectService_getAllProjects_resolves {σ : Type} (S : Store σ)
    (hS : S.RejectsWithValue) (page limit search : JsVal) :
    M.Sat (ProjectService.getAllProjects S page limit search)
      (fun v => isServiceResult v = true) (fun _ => False) := by
  unfold ProjectService.getAllProjects
  try dsimp only
  apply M.Sat.tryCatch _ _ _ _ (fun e => e.isNullish = false)
  · repeat' first
      | apply M.Sat.bind
      | intro _
      | exact M.Sat.await S hS _
      | exact M.Sat.ofExcept _
      | split
      | apply M.Sat.throw
      | apply M.Sat.pure
      | trivial
      | rfl
      | (apply not_nullish_of_truthy; assumption)
  · intro e _
    exact ⟨fun _ => rfl⟩

theorem ProjectService_getProjectById_resolves {σ : Type} (S : Store σ)
    (hS : S.RejectsWithValue) (projectId : JsVal) :
    M.Sat (ProjectService.getProjectById S projectId)
      (fun v => isServiceResult v = true) (fun _ => False) := by
  unfold ProjectService.getProjectById
  try dsimp only
  apply M.Sat.tryCatch _ _ _ _ (fun e => e.isNullish = false)
  · repeat' first
      | apply M.Sat.bind
      | intro _
      | exact M.Sat.await S hS _
      | exact M.Sat.ofExcept _
      | split
      | apply M.Sat.throw
      | apply M.Sat.pure
      | trivial
      | rfl
      | (apply not_nullish_of_truthy; assumption)
  · exact fun e he => failWithMessage_sat e he

theorem ProjectService_createProject_resolves {σ : Type} (S : Store σ)
    (hS : S.RejectsWithValue) (projectData userToken : JsVal) :
    M.Sat (ProjectService.createProject S projectData userToken)
      (fun v => isServiceResult v = true) (fun _ => False) := by
  unfold ProjectService.createProject
  try dsimp only
  apply M.Sat.tryCatch _ _ _ _ (fun e => e.isNullish = false)
  · repeat' first
      | apply M.Sat.bind
      | intro _
      | exact M.Sat.await S hS _
      | exact M.Sat.ofExcept _
      | split
      | apply M.Sat.throw
      | apply M.Sat.pure
      | trivial
      | rfl
      | (apply not_nullish_of_truthy; assumption)
  · exact fun e he => failWithMessage_sat e he

theorem ProjectService_updateProject_resolves {σ : Type} (S : Store σ)
    (hS : S.RejectsWithValue) (projectId updateData userToken : JsVal) :
    M.Sat (ProjectService.updateProject S projectId updateData userToken)
      (fun v => isServiceResult v = true) (fun _ => False) := by
  unfold ProjectService.updateProject
  try dsimp only
  apply M.Sat.tryCatch _ _ _ _ (fun e => e.isNullish = false)
  · repeat' first
      | apply M.Sat.bind
      | intro _
      | exact M.Sat.await S hS _
      | exact M.Sat.ofExcept _
      | split
      | apply M.Sat.throw
      | apply M.Sat.pure
      | trivial
      | rfl
      | (apply not_nullish_of_truthy; assumption)
  · exact fun e he => failWithMessage_sat e he

theorem ProjectService_deleteProject_resolves {σ : Type} (S : Store σ)
    (hS : S.RejectsWithValue) (projectId userToken : JsVal) :
    M.Sat (ProjectService.deleteProject S projectId userToken)
      (fun v => isServiceResult v = true) (fun _ => False) := by
  unfold ProjectService.deleteProject
  try dsimp only
  apply M.Sat.tryCatch _ _ _ _ (fun e => e.isNullish = false)
  · repeat' first
      | apply M.Sat.bind
      | intro _
      | exact M.Sat.await S hS _
      | exact M.Sat.ofExcept _
      | split
      | apply M.Sat.throw
      | apply M.Sat.pure
      | trivial
      | rfl
      | (apply not_nullish_of_truthy; assumption)
  · exact fun e he => failWithMessage_sat e he

theorem ProjectService_getProjectsByUser_resolves {σ : Type} (S : Store σ)
    (hS : S.RejectsWithValue) (userId : JsVal) :
    M.Sat (ProjectService.getProjectsByUser S userId)
      (fun v => isServiceResult v = true) (fun _ => False) := by
  unfold ProjectService.getProjectsByUser
  try dsimp only
  apply M.Sat.tryCatch _ _ _ _ (fun e => e.isNullish = false)
  · repeat' first
      | apply M.Sat.bind
      | intro _
      | exact M.Sat.await S hS _
      | exact M.Sat.ofExcept _
      | split
      | apply M.Sat.throw
      | apply M.Sat.pure
      | trivial
      | rfl
      | (apply not_nullish_of_truthy; assumption)
  · exact fun e he => failWithMessage_sat e he

theorem ProjectService_searchProjects_resolves {σ : Type} (S : Store σ)
    (hS : S.RejectsWithValue) (query limit offset : JsVal) :
    M.Sat (ProjectService.searchProjects S query limit offset)
      (fun v => isServiceResult v = true) (fun _ => False) := by
  unfold ProjectService.searchProjects
  try dsimp only
  apply M.Sat.tryCatch _ _ _ _ (fun e => e.isNullish = false)
  · repeat' first
      | apply M.Sat.bind
      | intro _
      | exact M.Sat.await S hS _
      | exact M.Sat.ofExcept _
      | split
      | apply M.Sat.throw
      | apply M.Sat.pure
      | trivial
      | rfl
      | (apply not_nullish_of_truthy; assumption)
  · exact fun e he => failWithMessage_sat e he

theorem ProjectService_getProjectsPaginated_resolves {σ : Type} (S : Store σ)
    (hS : S.RejectsWithValue) (limit offset search : JsVal) :
    M.Sat (ProjectService.getProjectsPaginated S limit offset search)
      (fun v => isServiceResult v = true) (fun _ => False) := by
  unfold ProjectService.getProjectsPaginated
  try dsimp only
  apply M.Sat.tryCatch _ _ _ _ (fun e => e.isNullish = false)
  · repeat' first
      | apply M.Sat.bind
      | intro _
      | exact M.Sat.await S hS _
      | exact M.Sat.ofExcept _
      | split
      | apply M.Sat.throw
      | apply M.Sat.pure
      | trivial
      | rfl
      | (apply not_nullish_of_truthy; assumption)
  · exact fun e he => failWithMessage_sat e he

theorem ProjectService_checkProjectOwnership_resolves {σ : Type} (S : Store σ)
    (hS : S.RejectsWithValue) (projectId userId : JsVal) :
    M.Sat (ProjectService.checkProjectOwnership S projectId userId)
      (fun v => isServiceResult v = true) (fun _ => False) := by
  unfold ProjectService.checkProjectOwnership
  try dsimp only
  apply M.Sat.tryCatch _ _ _ _ (fun e => e.isNullish = false)
  · repeat' first
      | apply M.Sat.bind
      | intro _
      | exact M.Sat.await S hS _
      | exact M.Sat.ofExcept _
      | split
      | apply M.Sat.throw
      | apply M.Sat.pure
      | trivial
      | rfl
      | (apply not_nullish_of_truthy; assumption)
  · exact fun e he => failWithMessage_sat e he

theorem ProjectService_getUserProjects_resolves {σ : Type} (S : Store σ)
    (hS : S.RejectsWithValue) (userId limit offset : JsVal) :
    M.Sat (ProjectService.getUserProjects S userId limit offset)
      (fun v => isServiceResult v = true) (fun _ => False) := by
  unfold ProjectService.getUserProjects
  try dsimp only
  apply M.Sat.tryCatch _ _ _ _ (fun e => e.isNullish = false)
  · repeat' first
      | apply M.Sat.bind
      | intro _
      | exact M.Sat.await S hS _
      | exact M.Sat.ofExcept _
      | split
      | apply M.Sat.throw
      | apply M.Sat.pure
      | trivial
      | rfl
      | (apply not_nullish_of_truthy; assumption)
  · exact fun e he => failWithMessage_sat e he

theorem ProfileService_getAllProfiles_resolves {σ : Type} (S : Store σ)
    (hS : S.RejectsWithValue) (params : JsVal) :
    M.Sat (ProfileService.getAllProfiles S params)
      (fun v => isServiceResult v = true) (fun _ => False) := by
  unfold ProfileService.getAllProfiles
  try dsimp only
  apply M.Sat.tryCatch _ _ _ _ (fun e => e.isNullish = false)
  · repeat' first
      | apply M.Sat.bind
      | intro _
      | exact M.Sat.await S hS _
      | exact M.Sat.ofExcept _
      | split
      | apply M.Sat.throw
      | apply M.Sat.pure
      | trivial
      | rfl
      | (apply not_nullish_of_truthy; assumption)
  · exact fun e he => failWithMessage_sat e he

theorem ProfileService_getProfileById_resolves {σ : Type} (S : Store σ)
    (hS : S.RejectsWithValue) (profileId : JsVal) :
    M.Sat (ProfileService.getProfileById S profileId)
      (fun v => isServiceResult v = true) (fun _ => False) := by
  unfold ProfileService.getProfileById
  try dsimp only
  apply M.Sat.tryCatch _ _ _ _ (fun e => e.isNullish = false)
  · repeat' first
      | apply M.Sat.bind
      | intro _
      | exact M.Sat.await S hS _
      | exact M.Sat.ofExcept _
      | split
      | apply M.Sat.throw
      | apply M.Sat.pure
      | trivial
      | rfl
      | (apply not_nullish_of_truthy; assumption)
  · exact fun e he => failWithMessage_sat e he

theorem ProfileService_searchProfiles_resolves {σ : Type} (S : Store σ)
    (hS : S.RejectsWithValue) (query : JsVal) :
    M.Sat (ProfileService.searchProfiles S query)
      (fun v => isServiceResult v = true) (fun _ => False) := by
  unfold ProfileService.searchProfiles
  try dsimp only
  apply M.Sat.tryCatch _ _ _ _ (fun e => e.isNullish = false)
  · repeat' first
      | apply M.Sat.bind
      | intro _
      | exact M.Sat.await S hS _
      | exact M.Sat.ofExcept _
      | split
      | apply M.Sat.throw
      | apply M.Sat.pure
      | trivial
      | rfl
      | (apply not_nullish_of_truthy; assumption)
  · exact fun e he => failWithMessage_sat e he

theorem ProfileService_getProfileStats_resolves {σ : Type} (S : Store σ)
    (hS : S.RejectsWithValue) (thirtyDaysAgo startOfMonth : String) :
    M.Sat (ProfileService.getProfileStats S thirtyDaysAgo startOfMonth)
      (fun v => isServiceResult v = true) (fun _ => False) := by
  unfold ProfileService.getProfileStats
  try dsimp only
  apply M.Sat.tryCatch _ _ _ _ (fun e => e.isNullish = false)
  · repeat' first
      | apply M.Sat.bind
      | intro _
      | exact M.Sat.await S hS _
      | exact M.Sat.ofExcept _
      | split
      | apply M.Sat.throw
      | apply M.Sat.pure
      | trivial
      | rfl
      | (apply not_nullish_of_truthy; assumption)
  · exact fun e he => failWithMessage_sat e he

theorem ProfileService_updateProfile_resolves {σ : Type} (S : Store σ)
    (hS : S.RejectsWithValue) (userId profileData userToken : JsVal) (now : String) :
    M.Sat (ProfileService.updateProfile S userId profileData userToken now)
      (fun v => isServiceResult v = true) (fun _ => False) := by
  unfold ProfileService.updateProfile
  try dsimp only
  apply M.Sat.tryCatch _ _ _ _ (fun e => e.isNullish = false)
  · repeat' first
      | apply M.Sat.bind
      | intro _
      | exact M.Sat.await S hS _
      | exact M.Sat.ofExcept _
      | split
      | apply M.Sat.throw
      | apply M.Sat.pure
      | trivial
      | rfl
      | (apply not_nullish_of_truthy; assumption)
  · intro e he
    rw [getProp_ok e "message" he]
    exact ⟨fun _ => rfl⟩

theorem CommentService_createComment_resolves {σ : Type} (S : Store σ)
    (hS : S.RejectsWithValue) (argument : JsVal) (now : String)
    (harg : argument.isNullish = false) :
    M.Sat (CommentService.createComment S argument now)
      (fun v => isServiceResult v = true) (fun _ => False) := by
  unfold CommentService.createComment
  rw [getProp_ok argument "projectId" harg]
  apply M.Sat.bind
  · exact ⟨fun _ => trivial⟩
  · intro _
    apply M.Sat.tryCatch _ _ _ _ (fun e => e.isNullish = false)
    · repeat' first
        | apply M.Sat.bind
        | intro _
        | exact M.Sat.await S hS _
        | exact M.Sat.ofExcept _
        | split
        | apply M.Sat.throw
        | apply M.Sat.pure
        | trivial
        | rfl
        | (apply not_nullish_of_truthy; assumption)
    · exact fun e he => failWithMessage_sat e he

theorem CommentService_createReply_resolves {σ : Type} (S : Store σ)
    (hS : S.RejectsWithValue) (argument : JsVal) (now : String)
    (harg : argument.isNullish = false) :
    M.Sat (CommentService.createReply S argument now)
      (fun v => isServiceResult v = true) (fun _ => False) := by
  unfold CommentService.createReply
  rw [getProp_ok argument "commentId" harg]
  apply M.Sat.bind
  · exact ⟨fun _ => trivial⟩
  · intro _
    apply M.Sat.tryCatch _ _ _ _ (fun e => e.isNullish = false)
    · repeat' first
        | apply M.Sat.bind
        | intro _
        | exact M.Sat.await S hS _
        | exact M.Sat.ofExcept _
        | split
        | apply M.Sat.throw
        | apply M.Sat.pure
        | trivial
        | rfl
        | (apply not_nullish_of_truthy; assumption)
    · exact fun e he => failWithMessage_sat e he

/-! ### The like toggle on the modelled store -/

theorem selectLike_absent (db : LikesDb) (c u : String) (hnot : (c, u) ∉ db.likes) :
    db.selectLike c u = { data := .null, error := noSingleRow, count := .null } := by
  unfold LikesDb.selectLike
  have h : (db.likes.filter fun row => row == (c, u)) = [] := by
    rw [List.filter_eq_nil_iff]
    intro p hp hpe
    have : p = (c, u) := by simpa using hpe
    exact hnot (this ▸ hp)
  simp [h]

theorem insertLike_absent (db : LikesDb) (c u : String) (hnot : (c, u) ∉ db.likes) :
    db.insertLike c u
      = ({ data := .null, error := .null, count := .null },
         { db with likes := db.likes ++ [(c, u)] }) := by
  unfold LikesDb.insertLike
  simp [hnot]

theorem await_selectLike (db : LikesDb) (c u : String) (token : JsVal) :
    await likesStore
        { client := some token
          table := "comment_likes"
          steps := [.select "id" .undefined, .eq "comment_id" (.str c), .eq "user_id" (.str u),
                    .single] } db
      = (.ok (db.selectLike c u), db) := rfl

theorem await_deleteLike (db : LikesDb) (c u : String) (token : JsVal) :
    await likesStore
        { client := some token
          table := "comment_likes"
          steps := [.delete, .eq "comment_id" (.str c), .eq "user_id" (.str u)] } db
      = (.ok { data := .null, error := .null, count := .null }, db.deleteLike c u) := rfl

theorem await_insertLike (db : LikesDb) (c u : String) (token : JsVal) :
    await likesStore
        { client := some token
          table := "comment_likes"
          steps := [.insert (.obj [("comment_id", .str c), ("user_id", .str u)])] } db
      = (.ok (db.insertLike c u).1, (db.insertLike c u).2) := rfl

theorem await_increment (db : LikesDb) (c : String) (token : JsVal) :
    await likesStore
        { client := some token
          table := "comments"
          steps := [.update (.obj [("likes_count", rawSql "likes_count + 1")]),
                    .eq "id" (.str c)] } db
      = (.ok { data := .null, error := .null, count := .null }, db.addToCounter c 1) := rfl

theorem await_decrement (db : LikesDb) (c : String) (token : JsVal) :
    await likesStore
        { client := some token
          table := "comments"
          steps := [.update (.obj [("likes_count", rawSql "likes_count - 1")]),
                    .eq "id" (.str c)] } db
      = (.ok { data := .null, error := .null, count := .null }, db.addToCounter c (-1)) := rfl

theorem await_selectCounter (db : LikesDb) (c : String) (token : JsVal) :
    await likesStore
        { client := some token
          table := "comments"
          steps := [.select "likes_count" .undefined, .eq "id" (.str c), .single] } db
      = (.ok (db.selectCounter c), db) := rfl

theorem toggleLike_not_liked (db : LikesDb) (c u : String) (token : JsVal) (n : Int)
    (hnot : (c, u) ∉ db.likes) (hcount : db.likesCount c = some n) :
    CommentService.toggleLike likesStore (.str c) (.str u) token db
      = (.ok (.obj [("success", .bool true), ("likesCount", .num (n + 1)),
                    ("isLiked", .bool true)]),
         (db.insertLike c u).2.addToCounter c 1) := by
  have hsel := selectLike_absent db c u hnot
  have hins : (db.insertLike c u).1 = { data := .null, error := .null, count := .null } := by
    rw [insertLike_absent db c u hnot]
  have hins2 : ((db.insertLike c u).2).likesCount c = some n := by
    rw [insertLike_absent db c u hnot]
    exact hcount
  have hfetch : ((db.insertLike c u).2.addToCounter c 1).selectCounter c
      = { data := .obj [("likes_count", .num (n + 1))], error := .null, count := .null } := by
    simp [LikesDb.selectCounter, LikesDb.addToCounter, hins2]
  have hns : (noSingleRow.read "code").strictEqStr "PGRST116" = true := rfl
  have hnull : JsVal.null.truthy = false := rfl
  have hget : (JsVal.obj [("likes_count", .num (n + 1))]).getProp "likes_count"
      = .ok (.num (n + 1)) := rfl
  simp only [CommentService.toggleLike, M.tryCatch, bind, M.andThen, await_selectLike,
    await_insertLike, await_increment, await_selectCounter, hsel, hins, hfetch, hns, hnull,
    hget, M.ofExcept, Bool.false_eq_true, Bool.false_and, Bool.not_true, Bool.and_false, if_false,
    pure, M.ret]

theorem filter_pair_nil (l : List (String × String)) (p : String × String) (h : p ∉ l) :
    (l.filter fun row => row == p) = [] := by
  rw [List.filter_eq_nil_iff]
  intro q hq hqe
  have : q = p := by simpa using hqe
  exact h (this ▸ hq)

theorem filter_pair_length (l : List (String × String)) (p : String × String)
    (hnodup : l.Nodup) (hmem : p ∈ l) : (l.filter fun row => row == p).length = 1 := by
  induction l with
  | nil => simp at hmem
  | cons x xs ih =>
    have hx : x ∉ xs := (List.nodup_cons.mp hnodup).1
    have hxs : xs.Nodup := (List.nodup_cons.mp hnodup).2
    by_cases hxp : x = p
    · subst hxp
      have hb : (x == x) = true := by simp
      rw [List.filter_cons, if_pos hb, filter_pair_nil xs x hx]
      rfl
    · have hb : ¬ (x == p) = true := by simpa using hxp
      rw [List.filter_cons, if_neg hb]
      rcases List.mem_cons.mp hmem with h | h
      · exact absurd h.symm hxp
      · exact ih hxs h

theorem selectLike_present (db : LikesDb) (c u : String) (hnodup : db.likes.Nodup)
    (hmem : (c, u) ∈ db.likes) :
    db.selectLike c u
      = { data := .obj [("id", .str (c ++ "/" ++ u))], error := .null, count := .null } := by
  unfold LikesDb.selectLike
  rw [if_pos (filter_pair_length db.likes (c, u) hnodup hmem)]

theorem toggleLike_liked (db : LikesDb) (c u : String) (token : JsVal) (n : Int)
    (hnodup : db.likes.Nodup) (hmem : (c, u) ∈ db.likes) (hcount : db.likesCount c = some n) :
    CommentService.toggleLike likesStore (.str c) (.str u) token db
      = (.ok (.obj [("success", .bool true), ("likesCount", .num (n - 1)),
                    ("isLiked", .bool false)]),
         (db.deleteLike c u).addToCounter c (-1)) := by
  have hsel := selectLike_present db c u hnodup hmem
  have hfetch : ((db.deleteLike c u).addToCounter c (-1)).selectCounter c
      = { data := .obj [("likes_count", .num (n - 1))], error := .null, count := .null } := by
    simp [LikesDb.selectCounter, LikesDb.addToCounter, LikesDb.deleteLike, hcount]
    rfl
  have hnull : JsVal.null.truthy = false := rfl
  have hdata : (JsVal.obj [("id", .str (c ++ "/" ++ u))]).truthy = true := rfl
  have hget : (JsVal.obj [("likes_count", .num (n - 1))]).getProp "likes_count"
      = .ok (.num (n - 1)) := rfl
  simp only [CommentService.toggleLike, M.tryCatch, bind, M.andThen, await_selectLike,
    await_deleteLike, await_decrement, await_selectCounter, hsel, hfetch, hnull, hdata,
    hget, M.ofExcept, Bool.false_eq_true, Bool.false_and, Bool.not_true, Bool.and_false, if_false,
    if_true, pure, M.ret]

theorem toggleLike_missing_comment (db : LikesDb) (c u : String) (token : JsVal)
    (hnodup : db.likes.Nodup) (hcount : db.likesCount c = none) :
    ∃ db', CommentService.toggleLike likesStore (.str c) (.str u) token db
      = (.ok (.obj [("success", .bool false),
                    ("error", .str "JSON object requested, multiple (or no) rows returned")]),
         db') := by
  have hns : (noSingleRow.read "code").strictEqStr "PGRST116" = true := rfl
  have hnull : JsVal.null.truthy = false := rfl
  have herr : noSingleRow.truthy = true := rfl
  have hmsg : noSingleRow.getProp "message"
      = .ok (.str "JSON object requested, multiple (or no) rows returned") := rfl
  by_cases hmem : (c, u) ∈ db.likes
  · have hsel := selectLike_present db c u hnodup hmem
    have hdata : (JsVal.obj [("id", .str (c ++ "/" ++ u))]).truthy = true := rfl
    have hfetch : ((db.deleteLike c u).addToCounter c (-1)).selectCounter c
        = { data := .null, error := noSingleRow, count := .null } := by
      simp [LikesDb.selectCounter, LikesDb.addToCounter, LikesDb.deleteLike, hcount]
    refine ⟨(db.deleteLike c u).addToCounter c (-1), ?_⟩
    simp only [CommentService.toggleLike, CommentService.failWithMessage, M.tryCatch, bind,
      M.andThen, await_selectLike, await_deleteLike, await_decrement, await_selectCounter,
      hsel, hfetch, hnull, hdata, herr, hmsg, M.ofExcept, M.throw, Bool.false_eq_true,
      Bool.false_and, Bool.not_true, Bool.and_false,
      if_false, if_true, pure, M.ret]
  · have hsel := selectLike_absent db c u hmem
    have hins : (db.insertLike c u).1 = { data := .null, error := .null, count := .null } := by
      rw [insertLike_absent db c u hmem]
    have hins2 : ((db.insertLike c u).2).likesCount c = none := by
      rw [insertLike_absent db c u hmem]
      exact hcount
    have hfetch : ((db.insertLike c u).2.addToCounter c 1).selectCounter c
        = { data := .null, error := noSingleRow, count := .null } := by
      simp [LikesDb.selectCounter, LikesDb.addToCounter, hins2]
    refine ⟨(db.insertLike c u).2.addToCounter c 1, ?_⟩
    simp only [CommentService.toggleLike, CommentService.failWithMessage, M.tryCatch, bind,
      M.andThen, await_selectLike, await_insertLike, await_increment, await_selectCounter,
      hsel, hins, hfetch, hns, hnull, herr, hmsg, M.ofExcept, M.throw, Bool.false_eq_true,
      Bool.false_and, Bool.not_true, Bool.and_false,
      if_false, if_true, pure, M.ret]

theorem deleted_then_counted (l : List (String × String)) (c u : String) (hnodup : l.Nodup)
    (hmem : (c, u) ∈ l) :
    (((l.filter fun row => row != (c, u)).filter fun row => row.1 == c).length : Int)
      = ((l.filter fun row => row.1 == c).length : Int) - 1 := by
  induction l with
  | nil => simp at hmem
  | cons x xs ih =>
    have hx : x ∉ xs := (List.nodup_cons.mp hnodup).1
    have hxs : xs.Nodup := (List.nodup_cons.mp hnodup).2
    by_cases hxp : x = (c, u)
    · subst hxp
      have hrest : (xs.filter fun row => row != (c, u)) = xs := by
        rw [List.filter_eq_self]
        intro q hq
        have : q ≠ (c, u) := fun h => hx (h ▸ hq)
        simpa using this
      simp [List.filter_cons, hrest]
    · have hm : (c, u) ∈ xs := by
        rcases List.mem_cons.mp hmem with h | h
        · exact absurd h.symm hxp
        · exact h
      have hb : (x != (c, u)) = true := by simpa using hxp
      have ih' := ih hxs hm
      rw [List.filter_cons, if_pos hb]
      by_cases hc : (x.1 == c) = true
      · rw [List.filter_cons, if_pos hc, List.filter_cons,
          if_pos hc, List.length_cons, List.length_cons]
        push_cast
        rw [ih']
        ring
      · rw [List.filter_cons, if_neg hc, List.filter_cons,
          if_neg hc]
        exact ih'

theorem rows_users_nodup (l : List (String × String)) (c : String) (hnodup : l.Nodup) :
    ((l.filter fun row => row.1 == c).map Prod.snd).Nodup := by
  apply List.Nodup.map_on
  · intro x hx y hy hxy
    have hx1 : x.1 = c := by simpa using (List.mem_filter.mp hx).2
    have hy1 : y.1 = c := by simpa using (List.mem_filter.mp hy).2
    exact Prod.ext (hx1.trans hy1.symm) hxy
  · exact hnodup.filter _

theorem toggleLike_keeps_counter (db : LikesDb) (c u : String) (token : JsVal)
    (hnodup : db.likes.Nodup)
    (hinv : db.likesCount c = some ((db.rowsOf c).length : Int)) :
    ∃ result db',
      CommentService.toggleLike likesStore (.str c) (.str u) token db = (.ok result, db')
        ∧ result.read "success" = .bool true
        ∧ db'.likes.Nodup
        ∧ db'.likesCount c = some ((db'.rowsOf c).length : Int)
        ∧ result.read "likesCount" = .num ((db'.rowsOf c).length : Int) := by
  by_cases hmem : (c, u) ∈ db.likes
  · have hlen : (((db.deleteLike c u).addToCounter c (-1)).rowsOf c).length
        = ((db.rowsOf c).length : Int) - 1 :=
      deleted_then_counted db.likes c u hnodup hmem
    refine ⟨_, _, toggleLike_liked db c u token _ hnodup hmem hinv, rfl, hnodup.filter _,
      ?_, ?_⟩
    · rw [hlen]
      simp [LikesDb.addToCounter, LikesDb.deleteLike, hinv]
      rfl
    · rw [hlen]
      rfl
  · have hlen : (((db.insertLike c u).2.addToCounter c 1).rowsOf c).length
        = ((db.rowsOf c).length : Int) + 1 := by
      rw [insertLike_absent db c u hmem]
      simp [LikesDb.addToCounter, LikesDb.rowsOf, List.filter_append, List.filter_cons]
    refine ⟨_, _, toggleLike_not_liked db c u token _ hmem hinv, rfl, ?_, ?_, ?_⟩
    · rw [insertLike_absent db c u hmem]
      show (db.likes ++ [(c, u)]).Nodup
      rw [List.nodup_append]
      refine ⟨hnodup, List.nodup_singleton _, ?_⟩
      intro x hx hx'
      have hxe : x = (c, u) := by simpa using hx'
      exact hmem (hxe ▸ hx)
    · rw [hlen]
      rw [insertLike_absent db c u hmem]
      simp [LikesDb.addToCounter, hinv]
    · rw [hlen]
      rfl

theorem toggleSequence_cons {σ : Type} (S : Store σ) (c : String) (token : JsVal) (u : String)
    (rest : List String) (s s1 s2 : σ) (r : JsVal) (rs : List JsVal)
    (h1 : CommentService.toggleLike S (.str c) (.str u) token s = (.ok r, s1))
    (h2 : toggleSequence S c token rest s1 = (.ok rs, s2)) :
    toggleSequence S c token (u :: rest) s = (.ok (r :: rs), s2) := by
  simp only [toggleSequence, bind, M.andThen, h1, h2, pure, M.ret]

theorem likesStore_rejectsWithValue : likesStore.RejectsWithValue := by
  intro q s e s' h
  exfalso
  change LikesDb.run q s = _ at h
  unfold LikesDb.run at h
  split at h <;> simp at h

/-! ### The ownership check -/

theorem await_traced {σ : Type} (S : Store σ) (q : Query) (s s' : σ) (trace : List Query)
    (r : StoreResponse) (h : S.run q s = (.resolves r, s')) :
    await S.traced q (s, trace) = (.ok r, (s', trace ++ [q])) := by
  simp only [await, Store.traced, h]

theorem checkProjectOwnership_traced {σ : Type} (S : Store σ) (id userId owner : JsVal)
    (s s' : σ) (trace : List Query) (row : StoreResponse)
    (hsel : S.run (ownershipQuery id) s = (.resolves row, s'))
    (herr : row.error.truthy = false)
    (hown : row.data.getProp "user_id" = .ok owner) :
    ProjectService.checkProjectOwnership S.traced id userId (s, trace)
      = (.ok (.obj [("success", .bool true), ("isOwner", .bool (owner.strictEq userId)),
                    ("ownerId", owner)]),
         (s', trace ++ [ownershipQuery id])) := by
  have h := await_traced S (ownershipQuery id) s s' trace row hsel
  unfold ownershipQuery at h
  simp only [ProjectService.checkProjectOwnership, M.tryCatch, bind, M.andThen, h, herr, hown,
    M.ofExcept, Bool.false_eq_true, if_false, pure, M.ret]
  rfl

theorem requireOwnership_traced {σ : Type} (S : Store σ) (req : HttpRequest) (now : String)
    (id owner : JsVal) (s s' : σ) (trace : List Query) (row : StoreResponse)
    (hid : req.params.getProp "id" = .ok id)
    (hsel : S.run (ownershipQuery id) s = (.resolves row, s'))
    (herr : row.error.truthy = false)
    (hown : row.data.getProp "user_id" = .ok owner) :
    requireOwnership S.traced req now (s, trace)
      = (.ok (if owner.strictEq (req.user.optProp "id") then none
              else some { status := 403, body := (AuthorizationError now .undefined).toJSON }),
         (s', trace ++ [ownershipQuery id])) := by
  have h := checkProjectOwnership_traced S id (req.user.optProp "id") owner s s' trace row
    hsel herr hown
  have hs : ∀ b : Bool, ((JsVal.obj [("success", .bool true), ("isOwner", .bool b),
      ("ownerId", owner)]).read "success").truthy = true := fun _ => rfl
  have hi : ∀ b : Bool, ((JsVal.obj [("success", .bool true), ("isOwner", .bool b),
      ("ownerId", owner)]).read "isOwner").truthy = b := fun _ => rfl
  simp only [requireOwnership, bind, M.andThen, hid, M.ofExcept, M.ret, h, hs, hi, if_true, pure]
  cases owner.strictEq (req.user.optProp "id") <;> rfl

/-! ### Validation errors, limits and author names -/

theorem calculatedLimit_of_parse (limit : JsVal) (n : Int)
    (hparse : parseInt (limit.withDefault (.num 10)) = .num n) :
    ProjectController.calculatedLimit limit
      = .num (if n < 1 then 10 else if 100 < n then 100 else n) := by
  unfold ProjectController.calculatedLimit
  simp only [hparse, intLt]
  by_cases h1 : n < 1
  · simp only [h1, decide_True, if_true]
    rfl
  · simp only [h1, decide_False, Bool.false_eq_true, if_false]
    by_cases h2 : 100 < n
    · simp only [h2, decide_True, if_true]
    · simp only [h2, decide_False, Bool.false_eq_true, if_false]

theorem takeWhile_append_dropWhile_space (cs : List Char) :
    cs.takeWhile (fun c => c != ' ') ++ cs.dropWhile (fun c => c != ' ') = cs :=
  List.takeWhile_append_dropWhile _ cs

theorem dropWhile_head_space (cs : List Char) :
    cs.dropWhile (fun c => c != ' ') = []
      ∨ (cs.dropWhile (fun c => c != ' ')).head? = some ' ' := by
  induction cs with
  | nil => exact Or.inl rfl
  | cons c rest ih =>
    by_cases h : c = ' '
    · subst h
      exact Or.inr rfl
    · have hb : (c != ' ') = true := by simpa using h
      have hstep : (c :: rest).dropWhile (fun c => c != ' ')
          = rest.dropWhile (fun c => c != ' ') := by
        rw [List.dropWhile_cons]
        exact if_pos hb
      rw [hstep]
      exact ih

theorem author_read_setField (fields : List (String × JsVal)) (author : JsVal) :
    (JsVal.obj (setField fields "author" author)).read "author" = author := by
  show ((lookupField (setField fields "author" author) "author").getD .undefined) = author
  rw [lookupField_setField]
  simp

/-! ### Resolving to a service result -/

theorem M.Sat.resolves {σ : Type} (m : M σ JsVal)
    (h : M.Sat m (fun v => isServiceResult v = true) (fun _ => False)) :
    M.ResolvesToResult m := by
  intro s
  have hs := h.run s
  rcases hm : m s with ⟨r, s'⟩
  rw [hm] at hs
  cases r with
  | ok v => exact ⟨v, s', rfl, hs⟩
  | error e => exact absurd hs id

/-! ### Results and postconditions of asynchronous computations -/

theorem M.Sat.any {σ α : Type} (m : M σ α) : M.Sat m (fun _ => True) (fun _ => True) := by
  constructor
  intro s
  cases (m s).1 <;> trivial

theorem M.Sat.ofExcept_of {σ α : Type} (x : Except JsThrow α) (Q : α → Prop)
    (h : ∀ a, x = .ok a → Q a) :
    M.Sat (M.ofExcept x : M σ α) Q (fun _ => True) := by
  constructor
  intro s
  cases x with
  | ok a => exact h a rfl
  | error t => trivial

theorem M.Sat.value {σ α : Type} (m : M σ α) (Q : α → Prop) (P : JsVal → Prop)
    (h : M.Sat m Q P) (s s' : σ) (a : α) (hrun : m s = (.ok a, s')) : Q a := by
  have hs := h.run s
  rw [hrun] at hs
  exact hs

theorem M.bind_ok {σ α β : Type} (m : M σ α) (f : α → M σ β) (s s' : σ) (b : β)
    (h : (m >>= f) s = (.ok b, s')) :
    ∃ a s1, m s = (.ok a, s1) ∧ f a s1 = (.ok b, s') := by
  change M.andThen m f s = _ at h
  unfold M.andThen at h
  rcases hm : m s with ⟨r, s1⟩
  rw [hm] at h
  cases r with
  | ok a => exact ⟨a, s1, rfl, h⟩
  | error e =>
    simp only at h
    injection h with h1 _
    exact absurd h1 (by simp)

theorem M.ofExcept_ok {σ α : Type} (x : Except JsThrow α) (s s' : σ) (a : α)
    (h : (M.ofExcept x : M σ α) s = (.ok a, s')) : x = .ok a ∧ s' = s := by
  cases x with
  | ok v =>
    have h' : ((Except.ok v : Except JsVal α), s) = (.ok a, s') := h
    injection h' with h1 h2
    injection h1 with h1
    exact ⟨by rw [h1], h2.symm⟩
  | error t =>
    have h' : ((Except.error t.toValue : Except JsVal α), s) = (.ok a, s') := h
    injection h' with h1 _
    exact absurd h1 (by simp)

theorem await_ok {σ : Type} (S : Store σ) (q : Query) (s s' : σ) (r : StoreResponse)
    (h : await S q s = (.ok r, s')) : S.run q s = (.resolves r, s') := by
  unfold DevConnect.await at h
  rcases hrun : S.run q s with ⟨o, s1⟩
  rw [hrun] at h
  cases o with
  | resolves r1 =>
    simp only at h
    injection h with h1 h2
    injection h1 with h1
    rw [h1, h2]
  | rejects e =>
    simp only at h
    injection h with h1 _
    exact absurd h1 (by simp)

theorem M.tryCatch_run {σ α : Type} (m : M σ α) (handler : JsVal → M σ α) (s : σ) :
    (∃ a s', m s = (.ok a, s') ∧ M.tryCatch m handler s = (.ok a, s'))
      ∨ (∃ e s', m s = (.error e, s') ∧ M.tryCatch m handler s = handler e s') := by
  unfold M.tryCatch
  rcases hm : m s with ⟨r, s1⟩
  cases r with
  | ok a => exact Or.inl ⟨a, s1, rfl, rfl⟩
  | error e => exact Or.inr ⟨e, s1, rfl, rfl⟩

theorem post_pure {σ α : Type} (a : α) (s : σ) (Q : α → σ → Prop) (h : Q a s) :
    M.Post (Pure.pure a : M σ α) s Q := by
  constructor
  intro b s' hrun
  have h' : ((Except.ok a : Except JsVal α), s) = (.ok b, s') := hrun
  injection h' with h1 h2
  injection h1 with h1
  rw [← h1, ← h2]
  exact h

theorem post_throw {σ α : Type} (e : JsVal) (s : σ) (Q : α → σ → Prop) :
    M.Post (M.throw e : M σ α) s Q := by
  constructor
  intro b s' hrun
  have h' : ((Except.error e : Except JsVal α), s) = (.ok b, s') := hrun
  injection h' with h1 _
  exact absurd h1 (by simp)

theorem post_bind {σ α β : Type} (m : M σ α) (f : α → M σ β) (s : σ)
    (Q : β → σ → Prop)
    (h : M.Post m s (fun a s1 => M.Post (f a) s1 Q)) : M.Post (m >>= f) s Q := by
  constructor
  intro b s' hrun
  obtain ⟨a, s1, h1, h2⟩ := M.bind_ok m f s s' b hrun
  exact (h.run a s1 h1).run b s' h2

theorem post_ofExcept {σ α : Type} (x : Except JsThrow α) (s : σ) (Q : α → σ → Prop)
    (h : ∀ a, x = .ok a → Q a s) : M.Post (M.ofExcept x : M σ α) s Q := by
  constructor
  intro a s' hrun
  obtain ⟨h1, h2⟩ := M.ofExcept_ok x s s' a hrun
  rw [h2]
  exact h a h1

theorem post_await {σ : Type} (S : Store σ) (q : Query) (s : σ)
    (Q : StoreResponse → σ → Prop)
    (h : ∀ r s', S.run q s = (.resolves r, s') → Q r s') : M.Post (await S q) s Q := by
  constructor
  intro r s' hrun
  exact h r s' (await_ok S q s s' r hrun)

/-! ### The controllers -/

theorem convertFault_timestamp (now : String) (err : JsVal) (syntaxError : Bool) (e : ApiError)
    (h : convertFault now err syntaxError = .ok e) : e.timestamp = now := by
  unfold convertFault at h
  repeat' split at h
  all_goals first
    | (injection h with h; subst h; rfl)
    | exact absurd h (by simp)

theorem answerValidation_no_timestamp {σ : Type} (error : JsVal) :
    M.Sat (answerValidation error : M σ Response)
      (fun r => hasField r.body.ownFields "timestamp" = false) (fun _ => True) := by
  unfold answerValidation
  apply M.Sat.bind
  · exact M.Sat.any _
  · intro _
    exact M.Sat.pure _ _ _ rfl

theorem answerFailure_no_timestamp (result : JsVal) (r : Response)
    (h : CommentController.answerFailure result = .ok r) :
    hasField r.body.ownFields "timestamp" = false := by
  unfold CommentController.answerFailure at h
  split at h
  · exact absurd h (by simp)
  · injection h with h
    subst h
    rfl
  · injection h with h
    subst h
    rfl

theorem registered_no_timestamp (result : JsVal) (r : Response)
    (h : AuthController.registered result = .ok r) :
    hasField r.body.ownFields "timestamp" = false := by
  unfold AuthController.registered at h
  repeat' split at h
  all_goals first
    | (injection h with h; subst h; rfl)
    | exact absurd h (by simp)

theorem created_no_timestamp (result : JsVal) (r : Response)
    (h : ProjectController.created result = .ok r) :
    hasField r.body.ownFields "timestamp" = false := by
  unfold ProjectController.created at h
  repeat' split at h
  all_goals first
    | (injection h with h; subst h; rfl)
    | exact absurd h (by simp)

theorem controllers_no_timestamp {σ : Type} (S : Store σ) (signUp : JsVal → M σ JsVal)
    (req : HttpRequest) (now : String) :
    M.Sat (AuthController.register signUp req)
        (fun r => hasField r.body.ownFields "timestamp" = false) (fun _ => True)
      ∧ M.Sat (CommentController.getProjectComments S req)
        (fun r => hasField r.body.ownFields "timestamp" = false) (fun _ => True)
      ∧ M.Sat (CommentController.createComment S req now)
        (fun r => hasField r.body.ownFields "timestamp" = false) (fun _ => True)
      ∧ M.Sat (CommentController.toggleLike S req)
        (fun r => hasField r.body.ownFields "timestamp" = false) (fun _ => True)
      ∧ M.Sat (ProjectController.getProjectById S req)
        (fun r => hasField r.body.ownFields "timestamp" = false) (fun _ => True)
      ∧ M.Sat (ProjectController.createProject S req)
        (fun r => hasField r.body.ownFields "timestamp" = false) (fun _ => True)
      ∧ M.Sat (ProjectController.updateProject S req)
        (fun r => hasField r.body.ownFields "timestamp" = false) (fun _ => True)
      ∧ M.Sat (ProjectController.deleteProject S req)
        (fun r => hasField r.body.ownFields "timestamp" = false) (fun _ => True) := by
  refine ⟨?_, ?_, ?_, ?_, ?_, ?_, ?_, ?_⟩
  · unfold AuthController.register
    apply M.Sat.tryCatch _ _ _ _ (fun _ => True)
    · repeat' first
        | exact M.Sat.any _
        | apply M.Sat.bind
        | intro _
        | exact M.Sat.ofExcept_of _ _ (registered_no_timestamp _)
    · exact fun e _ => answerValidation_no_timestamp e
  · unfold CommentController.getProjectComments
    apply M.Sat.tryCatch _ _ _ _ (fun _ => True)
    · repeat' first
        | exact M.Sat.any _
        | apply M.Sat.bind
        | intro _
        | split
        | exact M.Sat.ofExcept_of _ _ (answerFailure_no_timestamp _)
        | exact M.Sat.pure _ _ _ rfl
    · exact fun e _ => answerValidation_no_timestamp e
  · unfold CommentController.createComment
    apply M.Sat.tryCatch _ _ _ _ (fun _ => True)
    · repeat' first
        | exact M.Sat.any _
        | apply M.Sat.bind
        | intro _
        | split
        | exact M.Sat.ofExcept_of _ _ (answerFailure_no_timestamp _)
        | exact M.Sat.pure _ _ _ rfl
    · exact fun e _ => answerValidation_no_timestamp e
  · unfold CommentController.toggleLike
    apply M.Sat.tryCatch _ _ _ _ (fun _ => True)
    · repeat' first
        | exact M.Sat.any _
        | apply M.Sat.bind
        | intro _
        | split
        | exact M.Sat.ofExcept_of _ _ (answerFailure_no_timestamp _)
        | exact M.Sat.pure _ _ _ rfl
    · exact fun e _ => answerValidation_no_timestamp e
  · unfold ProjectController.getProjectById
    repeat' first
      | exact M.Sat.any _
      | apply M.Sat.bind
      | intro _
      | split
      | exact M.Sat.pure _ _ _ rfl
  · unfold ProjectController.createProject
    repeat' first
      | exact M.Sat.any _
      | apply M.Sat.bind
      | intro _
      | split
      | exact M.Sat.ofExcept_of _ _ (created_no_timestamp _)
      | exact M.Sat.pure _ _ _ rfl
  · unfold ProjectController.updateProject
    repeat' first
      | exact M.Sat.any _
      | apply M.Sat.bind
      | intro _
      | split
      | exact M.Sat.pure _ _ _ rfl
  · unfold ProjectController.deleteProject
    repeat' first
      | exact M.Sat.any _
      | apply M.Sat.bind
      | intro _
      | split
      | exact M.Sat.pure _ _ _ rfl

theorem jsIncludes_str (m needle : String) :
    jsIncludes (.str m) needle = .ok (containsChars needle.data m.data) := rfl

theorem answerFailure_str (result : JsVal) (m : String) (herr : result.read "error" = .str m) :
    CommentController.answerFailure result
      = .ok { status := if containsChars "no encontrado".data m.data then 404 else 500
              body := response.error (.str m)
                (.num (if containsChars "no encontrado".data m.data then 404 else 500)) } := by
  unfold CommentController.answerFailure
  rw [herr, jsIncludes_str]
  cases containsChars "no encontrado".data m.data <;> rfl

theorem createProject_service_trace {σ : Type} (S : Store σ) (projectData token : JsVal)
    (s : σ) (trace : List Query) :
    (ProjectService.createProject S.traced projectData token (s, trace)).2.2
      = trace ++ [{ client := some token
                    table := "projects"
                    steps := [.insert (.arr [projectData]),
                              .select ProjectService.projectColumns .undefined, .single] }] := by
  unfold ProjectService.createProject
  simp only [M.tryCatch, bind, M.andThen, await, Store.traced]
  rcases hrun : S.run { client := some token
                        table := "projects"
                        steps := [.insert (.arr [projectData]),
                                  .select ProjectService.projectColumns .undefined, .single] } s
    with ⟨outcome, s1⟩
  cases outcome with
  | resolves r =>
    by_cases herr : r.error.truthy = true
    · simp only [herr, if_true, M.throw, CommentService.failWithMessage, bind, M.andThen]
      cases hm : r.error.getProp "message" <;> simp only [M.ofExcept, M.throw, M.ret, pure]
    · simp only [herr, Bool.false_eq_true, if_false, pure, M.ret]
      rfl
  | rejects e =>
    simp only [CommentService.failWithMessage, bind, M.andThen]
    cases hm : e.getProp "message" <;> simp only [M.ofExcept, M.throw, M.ret, pure]

theorem detailsCode_toJSON (e : ApiError) :
    detailsCode e.toJSON
      = match lookupField e.details.ownFields "code" with
        | some v => some v
        | none => some e.code := by
  show lookupField (assignFields [("code", e.code)] e.details.ownFields) "code" = _
  rw [lookupField_assignFields]
  cases lookupField e.details.ownFields "code" <;> rfl

theorem getAllProjects_body_or_fallback {σ : Type} (S : Store σ) (page limit search : JsVal)
    (s : σ)
    (hvalid : (Operand.lessThan (.val (page.withDefault (.num 1))) (.val (.num 1))
      || Operand.lessThan (.val (limit.withDefault (.num 10))) (.val (.num 1))
      || Operand.lessThan (.val (.num 100)) (.val (limit.withDefault (.num 10)))) = false) :
    ∃ v s', ProjectService.getAllProjects S page limit search s = (.ok v, s')
      ∧ (v = mockResult
        ∨ ∃ q r processed, S.run q s = (.resolves r, s') ∧ r.error.truthy = false
            ∧ mapArray (r.data.orElse (.arr [])) ProjectService.processProject = .ok processed
            ∧ v.read "success" = .bool true
            ∧ v.read "data" = processed
            ∧ v.read "total" = r.count.orElse (.num 0)) := by
  unfold ProjectService.getAllProjects
  dsimp only
  rw [if_neg (by rw [hvalid]; exact Bool.false_ne_true)]
  rcases M.tryCatch_run _ (fun _ => (Pure.pure (JsVal.obj [("success", .bool true),
                   ("data", mockProjects),
                   ("total", mockProjects.read "length"),
                   ("mock", .bool true)]) : M σ JsVal)) s
    with ⟨a, s', hm, h⟩ | ⟨e, s', hm, h⟩
  · refine ⟨a, s', h, Or.inr ?_⟩
    refine M.Post.run (Q := fun v s' => ∃ q r processed,
      S.run q s = (.resolves r, s') ∧ r.error.truthy = false
        ∧ mapArray (r.data.orElse (.arr [])) ProjectService.processProject = .ok processed
        ∧ v.read "success" = .bool true
        ∧ v.read "data" = processed
        ∧ v.read "total" = r.count.orElse (.num 0)) ?_ a s' hm
    clear hm h
    repeat' first
      | apply post_throw
      | apply post_bind
      | apply post_await
      | apply post_ofExcept
      | apply post_pure
      | intro _
      | split
    all_goals
      rename_i hrun herr processed hmap
      exact ⟨_, _, processed, hrun, Bool.eq_false_iff.mpr herr, hmap, rfl, rfl, rfl⟩
  · exact ⟨_, s', h, Or.inl rfl⟩

/-! ### Claims -/

/-- C1: for total >= 0, limit >= 1 and page >= 1, `createPaginatedResponse` reports
`total_pages = ceil(total/limit)`, which is the least integer `n` with `total <= n * limit`;
`has_next` holds exactly when `page < total_pages`, `has_prev` exactly when `page > 1`; and
page, limit, total and data are echoed unchanged. -/
theorem createPaginatedResponse_pagination (data : JsVal) (page limit total : ℚ) (now : String)
    (ht : 0 ≤ total) (hl : 1 ≤ limit) (hp : 1 ≤ page) :
    (createPaginatedResponse data page limit total now).pagination.total_pages
        = JsNum.fin ⌈total / limit⌉
      ∧ (total ≤ (⌈total / limit⌉ : ℚ) * limit ∧ ((⌈total / limit⌉ : ℚ) - 1) * limit < total
          ∧ (0 : ℤ) ≤ ⌈total / limit⌉)
      ∧ ((createPaginatedResponse data page limit total now).pagination.has_next = true
          ↔ page < (⌈total / limit⌉ : ℚ))
      ∧ ((createPaginatedResponse data page limit total now).pagination.has_prev = true
          ↔ 1 < page)
      ∧ (createPaginatedResponse data page limit total now).pagination.page = page
      ∧ (createPaginatedResponse data page limit total now).pagination.limit = limit
      ∧ (createPaginatedResponse data page limit total now).pagination.total = total
      ∧ (createPaginatedResponse data page limit total now).data = data := by
  have hl0 : (0 : ℚ) < limit := lt_of_lt_of_le one_pos hl
  have hne : limit ≠ 0 := ne_of_gt hl0
  have _ := hp
  refine ⟨?_, ⟨?_, ?_, ?_⟩, ?_, ?_, rfl, rfl, rfl, rfl⟩
  · simp [createPaginatedResponse, JsNum.div, JsNum.ceil, hne]
  · have h := Int.le_ceil (total / limit)
    calc total = total / limit * limit := by field_simp
      _ ≤ (⌈total / limit⌉ : ℚ) * limit := mul_le_mul_of_nonneg_right h hl0.le
  · have h := Int.ceil_lt_add_one (total / limit)
    have h2 : (⌈total / limit⌉ : ℚ) - 1 < total / limit := by linarith
    calc ((⌈total / limit⌉ : ℚ) - 1) * limit < total / limit * limit :=
          mul_lt_mul_of_pos_right h2 hl0
      _ = total := by field_simp
  · exact Int.ceil_nonneg (div_nonneg ht hl0.le)
  · simp [createPaginatedResponse, JsNum.div, JsNum.ceil, JsNum.ltFin, hne]
  · simp [createPaginatedResponse]

/-- Witness for C1: 25 rows, 10 per page, page 2 give 3 pages, a next and a previous page. -/
theorem createPaginatedResponse_pagination_witness :
    (createPaginatedResponse (.arr []) 2 10 25 "2024-01-15T10:30:00.000Z").pagination.total_pages
        = JsNum.fin 3
      ∧ (createPaginatedResponse (.arr []) 2 10 25
          "2024-01-15T10:30:00.000Z").pagination.has_next = true
      ∧ (createPaginatedResponse (.arr []) 2 10 25
          "2024-01-15T10:30:00.000Z").pagination.has_prev = true := by
  have h := createPaginatedResponse_pagination (.arr []) 2 10 25 "2024-01-15T10:30:00.000Z"
    (by norm_num) (by norm_num) (by norm_num)
  have hc : ⌈(25 : ℚ) / 10⌉ = 3 := by
    rw [Int.ceil_eq_iff]
    constructor <;> norm_num
  obtain ⟨h1, -, h3, h4, -⟩ := h
  rw [hc] at h1 h3
  exact ⟨h1, h3.mpr (by norm_num), h4.mpr (by norm_num)⟩

/-- C2 (counterexample): an `ExternalServiceError` built for the service "db" with a details
mapping that has its own `service` field carries that field's value, not the service name. -/
theorem externalServiceError_service_counterexample :
    (ExternalServiceError "2024-01-15T10:30:00.000Z" (.str "db") (.str "down")
        (.obj [("service", .str "cache")])).details.read "service" = .str "cache"
      ∧ JsVal.str "cache" ≠ JsVal.str "db" := by
  refine ⟨rfl, ?_⟩
  intro h
  injection h with h
  exact absurd h (by decide)

/-- C2 (amended): the nine specialised error kinds, constructed with any arguments, have the
HTTP status and code of the table; the details of a `RateLimitError` carry `retry_after` equal to
the seconds given, and the details of an `ExternalServiceError` carry `service` equal to the
service name given whenever the details mapping passed in has no field named `service`. -/
theorem error_kinds_status_and_code (now : String)
    (message extra resource retryAfter service details : JsVal)
    (hr : retryAfter.isUndefined = false)
    (hs : hasField details.ownFields "service" = false) :
    ((ValidationError now message extra).statusCode = .num 400
        ∧ (ValidationError now message extra).code = .str "VALIDATION_ERROR")
      ∧ ((AuthenticationError now message).statusCode = .num 401
        ∧ (AuthenticationError now message).code = .str "AUTHENTICATION_ERROR")
      ∧ ((AuthorizationError now message).statusCode = .num 403
        ∧ (AuthorizationError now message).code = .str "AUTHORIZATION_ERROR")
      ∧ ((NotFoundError now resource).statusCode = .num 404
        ∧ (NotFoundError now resource).code = .str "NOT_FOUND_ERROR")
      ∧ ((ConflictError now message).statusCode = .num 409
        ∧ (ConflictError now message).code = .str "CONFLICT_ERROR")
      ∧ ((RateLimitError now message retryAfter).statusCode = .num 429
        ∧ (RateLimitError now message retryAfter).code = .str "RATE_LIMIT_ERROR")
      ∧ ((RequestError now message).statusCode = .num 400
        ∧ (RequestError now message).code = .str "REQUEST_ERROR")
      ∧ ((DatabaseError now message details).statusCode = .num 500
        ∧ (DatabaseError now message details).code = .str "DATABASE_ERROR")
      ∧ ((ExternalServiceError now service message details).statusCode = .num 502
        ∧ (ExternalServiceError now service message details).code
            = .str "EXTERNAL_SERVICE_ERROR")
      ∧ (RateLimitError now message retryAfter).details.getProp "retry_after" = .ok retryAfter
      ∧ (ExternalServiceError now service message details).details.getProp "service"
          = .ok service := by
  refine ⟨⟨rfl, rfl⟩, ⟨rfl, rfl⟩, ⟨rfl, rfl⟩, ⟨rfl, rfl⟩, ⟨rfl, rfl⟩, ⟨rfl, rfl⟩, ⟨rfl, rfl⟩,
    ⟨rfl, rfl⟩, ⟨rfl, rfl⟩, ?_, ?_⟩
  · have e : retryAfter.withDefault (.num 300) = retryAfter := by
      simp [JsVal.withDefault, hr]
    show JsVal.getProp (.obj [("retry_after", retryAfter.withDefault (.num 300))])
      "retry_after" = .ok retryAfter
    rw [e]
    simp [JsVal.getProp, lookupField]
  · have hnone : lookupField details.ownFields "service" = none := by
      unfold hasField at hs
      cases hl : lookupField details.ownFields "service" with
      | none => rfl
      | some w => simp [hl] at hs
    have e : lookupField (assignFields [("service", service)]
        (details.withDefault (.obj [])).ownFields) "service" = some service := by
      rw [ownFields_withDefault_obj, lookupField_assignFields, hnone]
      simp [lookupField]
    show JsVal.getProp (.obj (assignFields [("service", service)]
        (details.withDefault (.obj [])).ownFields)) "service" = .ok service
    simp [JsVal.getProp, e]

/-- Witness for C2: a rate limit of 60 seconds and a storage failure with a `hint` detail. -/
theorem error_kinds_status_and_code_witness :
    ((RateLimitError "2024-01-15T10:30:00.000Z" (.str "slow down") (.num 60)).statusCode
        = .num 429
      ∧ (RateLimitError "2024-01-15T10:30:00.000Z" (.str "slow down") (.num 60)).details.getProp
          "retry_after" = .ok (.num 60))
      ∧ (ExternalServiceError "2024-01-15T10:30:00.000Z" (.str "store") (.str "slow down")
          (.obj [("hint", .str "retry")])).details.getProp "service" = .ok (.str "store") :=
  have h := error_kinds_status_and_code "2024-01-15T10:30:00.000Z" (.str "slow down")
    .undefined (.str "Proyecto") (.num 60) (.str "store") (.obj [("hint", .str "retry")])
    rfl rfl
  ⟨⟨h.2.2.2.2.2.1.1, h.2.2.2.2.2.2.2.2.2.1⟩, h.2.2.2.2.2.2.2.2.2.2⟩

/-- C3 (code evaluated at the failing input): `new ApiError('boom')` has status 500 and the
code `INTERNAL_ERROR`, while `errorHandler` answers an unmatched fault with the same message
with status 500 and the code `INTERNAL_SERVER_ERROR`. -/
theorem apiError_default_code_is_INTERNAL_ERROR :
    (ApiError.new "2024-01-15T10:30:00.000Z" (.str "boom") .undefined .undefined
        .undefined).statusCode = .num 500
      ∧ (ApiError.new "2024-01-15T10:30:00.000Z" (.str "boom") .undefined .undefined
        .undefined).code = .str "INTERNAL_ERROR"
      ∧ (errorHandler (.value (.obj [("message", .str "boom")]) false) sampleRequest
            "2024-01-15T10:30:00.000Z").toOption.map (fun r => (r.status, detailsCode r.body))
          = some (.num 500, some (.str "INTERNAL_SERVER_ERROR")) :=
  ⟨rfl, rfl, rfl⟩

/-- C4: a fault that is already an `ApiError` is passed through unchanged: `errorHandler`
returns, the response status is the fault's `statusCode` and the response body is the fault's
own `toJSON()`, with the fault's message and timestamp. -/
theorem errorHandler_passes_apiError_through (e : ApiError) (req : Request) (now : String) :
    ∃ r, errorHandler (.apiError e) req now = .ok r
      ∧ r.status = e.statusCode
      ∧ r.body = e.toJSON
      ∧ bodyError r.body = some (.str e.message)
      ∧ lookupField r.body.ownFields "timestamp" = some (.str e.timestamp)
      ∧ r.log.code = e.code :=
  ⟨_, rfl, rfl, rfl, rfl, rfl, rfl⟩

/-- C7 (counterexample): a `DatabaseError` whose details carry the store's own `code` field
serialises with that field as `details.code`, not with the error's code `DATABASE_ERROR`. -/
theorem toJSON_details_code_counterexample :
    (DatabaseError "2024-01-15T10:30:00.000Z" (.str "boom")
        (.obj [("code", .str "23505")])).toJSON
      = .obj [("success", .bool false), ("error", .str "boom"),
              ("details", .obj [("code", .str "23505")]),
              ("timestamp", .str "2024-01-15T10:30:00.000Z")]
      ∧ (DatabaseError "2024-01-15T10:30:00.000Z" (.str "boom")
          (.obj [("code", .str "23505")])).code = .str "DATABASE_ERROR" :=
  ⟨rfl, rfl⟩

/-- C7 (amended): for every `ApiError` e, `e.toJSON()` is an object with exactly the four
top-level fields `success: false`, `error: e.message`, `details` and `timestamp: e.timestamp`;
`details` holds every field of `e.details` with its value, holds `code: e.code` whenever
`e.details` has no field named `code`, and holds no field besides `code` and those of
`e.details`. -/
theorem toJSON_shape (e : ApiError) :
    ∃ d, e.toJSON = .obj [("success", .bool false), ("error", .str e.message),
                          ("details", .obj d), ("timestamp", .str e.timestamp)]
      ∧ (∀ k v, lookupField e.details.ownFields k = some v → lookupField d k = some v)
      ∧ (hasField e.details.ownFields "code" = false → lookupField d "code" = some e.code)
      ∧ (∀ k, hasField d k = true → k = "code" ∨ hasField e.details.ownFields k = true) := by
  refine ⟨assignFields [("code", e.code)] e.details.ownFields, rfl, ?_, ?_, ?_⟩
  · intro k v h
    rw [lookupField_assignFields, h]
  · intro h
    unfold hasField at h
    rw [lookupField_assignFields]
    cases hl : lookupField e.details.ownFields "code" with
    | none => simp [lookupField]
    | some w => simp [hl] at h
  · intro k h
    unfold hasField at h ⊢
    rw [lookupField_assignFields] at h
    cases hl : lookupField e.details.ownFields k with
    | some w => right; simp
    | none =>
      left
      rw [hl] at h
      by_cases hk : "code" = k
      · exact hk.symm
      · simp [lookupField, hk] at h

/-- C5 (counterexample): a fault named `NotBeforeError` matches none of the six signatures of
the table, yet it is answered with 401 AUTHENTICATION_ERROR, not 500 INTERNAL_SERVER_ERROR. -/
theorem errorHandler_notBefore_counterexample :
    (errorHandler
        (.value (.obj [("name", .str "NotBeforeError"), ("message", .str "jwt not active")])
          false)
        sampleRequest "2024-01-15T10:30:00.000Z").toOption.map
          (fun r => (r.status, detailsCode r.body, bodyError r.body))
      = some (.num 401, some (.str "AUTHENTICATION_ERROR"), some (.str "Token no válido aún")) :=
  rfl

/-- C5 (amended): for every fault that is not an `ApiError` and is neither `null` nor
`undefined`, `errorHandler` answers by the first signature that matches, in this order:
a truthy `isJoi` (with a `details` list whose entries have an array `path`) -> 400
VALIDATION_ERROR; code '23505' -> 409 CONFLICT_ERROR; code '23503' -> 400 VALIDATION_ERROR;
code '23502' -> 400 VALIDATION_ERROR; a SyntaxError with status 400 and a `body` field -> 400
REQUEST_ERROR; name 'JsonWebTokenError', 'TokenExpiredError' or 'NotBeforeError' -> 401
AUTHENTICATION_ERROR; and a fault matching none of them -> 500 INTERNAL_SERVER_ERROR whose
message is the fault's message converted to a string, or 'Error interno del servidor' when the
message is missing or falsy. -/
theorem errorHandler_signature_table (v : JsVal) (se : Bool) (req : Request) (now : String)
    (j : JsVal) (hv : v.getProp "isJoi" = .ok j) :
    (j.truthy = true → ∀ ds, v.read "details" = .arr ds →
        (∀ d ∈ ds, ∃ segments, d.getProp "path" = .ok (.arr segments)) →
        ∃ r, errorHandler (.value v se) req now = .ok r ∧ r.answers 400 "VALIDATION_ERROR" = true)
      ∧ (j.truthy = false →
        ∃ r, errorHandler (.value v se) req now = .ok r
          ∧ ((v.read "code").strictEqStr "23505" = true → r.answers 409 "CONFLICT_ERROR" = true)
          ∧ ((v.read "code").strictEqStr "23503" = true → r.answers 400 "VALIDATION_ERROR" = true)
          ∧ ((v.read "code").strictEqStr "23502" = true → r.answers 400 "VALIDATION_ERROR" = true)
          ∧ ((v.read "code").strictEqStr "23505" = false
              → (v.read "code").strictEqStr "23503" = false
              → (v.read "code").strictEqStr "23502" = false
              → ((se && (v.read "status").strictEqNum 400 && v.hasProp "body") = true
                  → r.answers 400 "REQUEST_ERROR" = true)
                ∧ ((se && (v.read "status").strictEqNum 400 && v.hasProp "body") = false
                  → ((v.read "name").strictEqStr "JsonWebTokenError" = true
                      → r.answers 401 "AUTHENTICATION_ERROR" = true)
                    ∧ ((v.read "name").strictEqStr "TokenExpiredError" = true
                      → r.answers 401 "AUTHENTICATION_ERROR" = true)
                    ∧ ((v.read "name").strictEqStr "NotBeforeError" = true
                      → r.answers 401 "AUTHENTICATION_ERROR" = true)
                    ∧ ((v.read "name").strictEqStr "JsonWebTokenError" = false
                      → (v.read "name").strictEqStr "TokenExpiredError" = false
                      → (v.read "name").strictEqStr "NotBeforeError" = false
                      → r.answers 500 "INTERNAL_SERVER_ERROR" = true
                        ∧ bodyError r.body = some (.str
                            (if (v.read "message").truthy then (v.read "message").toStr
                             else "Error interno del servidor")))))) := by
  have key : ∀ e, convertFault now v se = .ok e →
      ∃ r, errorHandler (.value v se) req now = .ok r
        ∧ r.status = e.statusCode ∧ r.body = e.toJSON := by
    intro e he
    simp only [errorHandler, he]
    exact ⟨_, rfl, rfl, rfl⟩
  constructor
  · intro hj ds hds hpaths
    obtain ⟨ve, hve⟩ := joiValidationErrors_ok ds hpaths []
    obtain ⟨r, hr, hs, hb⟩ := key (ValidationError now (.str "Datos de entrada inválidos")
      (.obj ve)) (by simp only [convertFault, hv, hj, if_true, hds, hve])
    refine ⟨r, hr, ?_⟩
    rw [answers_iff, hs, hb]
    exact ⟨rfl, rfl⟩
  · intro hj
    by_cases h1 : (v.read "code").strictEqStr "23505" = true
    · obtain ⟨r, hr, hs, hb⟩ := key (ConflictError now (.str "El recurso ya existe"))
        (by simp only [convertFault, hv, hj, h1, if_true, Bool.false_eq_true, if_false])
      refine ⟨r, hr, ?_⟩
      have e1 : (ConflictError now (.str "El recurso ya existe")).statusCode = .num 409 := rfl
      have e2 : detailsCode (ConflictError now (.str "El recurso ya existe")).toJSON
          = some (.str "CONFLICT_ERROR") := rfl
      simp only [answers_iff, hs, hb, e1, e2]
      simp_all [strictEqStr_iff]
    · by_cases h2 : (v.read "code").strictEqStr "23503" = true
      · obtain ⟨r, hr, hs, hb⟩ := key (ValidationError now (.str "Referencia inválida") .undefined)
          (by simp only [convertFault, hv, hj, h1, h2, if_true, Bool.false_eq_true, if_false])
        refine ⟨r, hr, ?_⟩
        have e1 : (ValidationError now (.str "Referencia inválida") .undefined).statusCode = .num 400 := rfl
        have e2 : detailsCode (ValidationError now (.str "Referencia inválida") .undefined).toJSON
            = some (.str "VALIDATION_ERROR") := rfl
        simp only [answers_iff, hs, hb, e1, e2]
        simp_all [strictEqStr_iff]
      · by_cases h3 : (v.read "code").strictEqStr "23502" = true
        · obtain ⟨r, hr, hs, hb⟩ := key (ValidationError now (.str "Campo requerido faltante") .undefined)
            (by simp only [convertFault, hv, hj, h1, h2, h3, if_true, Bool.false_eq_true, if_false])
          refine ⟨r, hr, ?_⟩
          have e1 : (ValidationError now (.str "Campo requerido faltante") .undefined).statusCode = .num 400 := rfl
          have e2 : detailsCode (ValidationError now (.str "Campo requerido faltante") .undefined).toJSON
              = some (.str "VALIDATION_ERROR") := rfl
          simp only [answers_iff, hs, hb, e1, e2]
          simp_all [strictEqStr_iff]
        · by_cases h4 : (se && (v.read "status").strictEqNum 400 && v.hasProp "body") = true
          · obtain ⟨r, hr, hs, hb⟩ := key (RequestError now (.str "JSON inválido en el cuerpo de la solicitud"))
              (by simp only [convertFault, hv, hj, h1, h2, h3, h4, if_true, Bool.false_eq_true, if_false])
            refine ⟨r, hr, ?_⟩
            have e1 : (RequestError now (.str "JSON inválido en el cuerpo de la solicitud")).statusCode = .num 400 := rfl
            have e2 : detailsCode (RequestError now (.str "JSON inválido en el cuerpo de la solicitud")).toJSON
                = some (.str "REQUEST_ERROR") := rfl
            simp only [answers_iff, hs, hb, e1, e2]
            simp_all [strictEqStr_iff]
          · by_cases h5 : (v.read "name").strictEqStr "JsonWebTokenError" = true
            · obtain ⟨r, hr, hs, hb⟩ := key (AuthenticationError now (.str "Token inválido"))
                (by simp only [convertFault, hv, hj, h1, h2, h3, h4, h5, if_true, Bool.false_eq_true, if_false])
              refine ⟨r, hr, ?_⟩
              have e1 : (AuthenticationError now (.str "Token inválido")).statusCode = .num 401 := rfl
              have e2 : detailsCode (AuthenticationError now (.str "Token inválido")).toJSON
                  = some (.str "AUTHENTICATION_ERROR") := rfl
              simp only [answers_iff, hs, hb, e1, e2]
              simp_all [strictEqStr_iff]
            · by_cases h6 : (v.read "name").strictEqStr "TokenExpiredError" = true
              · obtain ⟨r, hr, hs, hb⟩ := key (AuthenticationError now (.str "Token expirado"))
                  (by simp only [convertFault, hv, hj, h1, h2, h3, h4, h5, h6, if_true, Bool.false_eq_true, if_false])
                refine ⟨r, hr, ?_⟩
                have e1 : (AuthenticationError now (.str "Token expirado")).statusCode = .num 401 := rfl
                have e2 : detailsCode (AuthenticationError now (.str "Token expirado")).toJSON
                    = some (.str "AUTHENTICATION_ERROR") := rfl
                simp only [answers_iff, hs, hb, e1, e2]
                simp_all [strictEqStr_iff]
              · by_cases h7 : (v.read "name").strictEqStr "NotBeforeError" = true
                · obtain ⟨r, hr, hs, hb⟩ := key (AuthenticationError now (.str "Token no válido aún"))
                    (by simp only [convertFault, hv, hj, h1, h2, h3, h4, h5, h6, h7, if_true, Bool.false_eq_true, if_false])
                  refine ⟨r, hr, ?_⟩
                  have e1 : (AuthenticationError now (.str "Token no válido aún")).statusCode = .num 401 := rfl
                  have e2 : detailsCode (AuthenticationError now (.str "Token no válido aún")).toJSON
                      = some (.str "AUTHENTICATION_ERROR") := rfl
                  simp only [answers_iff, hs, hb, e1, e2]
                  simp_all [strictEqStr_iff]
                · obtain ⟨r, hr, hs, hb⟩ := key (ApiError.new now ((v.read "message").orElse (.str "Error interno del servidor"))
                      (.num 500) (.str "INTERNAL_SERVER_ERROR") .undefined)
                    (by simp only [convertFault, hv, hj, h1, h2, h3, h4, h5, h6, h7, if_true, Bool.false_eq_true, if_false])
                  refine ⟨r, hr, ?_⟩
                  have e1 : (ApiError.new now ((v.read "message").orElse (.str "Error interno del servidor"))
                      (.num 500) (.str "INTERNAL_SERVER_ERROR") .undefined).statusCode = .num 500 := rfl
                  have e2 : detailsCode (ApiError.new now ((v.read "message").orElse (.str "Error interno del servidor"))
                      (.num 500) (.str "INTERNAL_SERVER_ERROR") .undefined).toJSON
                      = some (.str "INTERNAL_SERVER_ERROR") := rfl
                  have e3 : bodyError (ApiError.new now ((v.read "message").orElse (.str "Error interno del servidor"))
                      (.num 500) (.str "INTERNAL_SERVER_ERROR") .undefined).toJSON
                      = some (.str (if (v.read "message").truthy then (v.read "message").toStr
                          else "Error interno del servidor")) := by
                    show some (JsVal.str (errorMessage _)) = _
                    unfold errorMessage JsVal.orElse
                    cases hm : (v.read "message").truthy
                    · rfl
                    · have hu : (v.read "message").isUndefined = false := by
                        cases hmv : v.read "message" <;> simp_all [JsVal.truthy, JsVal.isUndefined]
                      simp [hu]
                  simp only [answers_iff, hs, hb, e1, e2, e3]
                  simp_all [strictEqStr_iff]

/-- Witness for C5: a unique-constraint violation reported by the store. -/
theorem errorHandler_signature_table_witness :
    ∃ r, errorHandler (.value (.obj [("code", .str "23505"), ("message", .str "duplicate key")])
          false) sampleRequest "2024-01-15T10:30:00.000Z" = .ok r
      ∧ r.answers 409 "CONFLICT_ERROR" = true :=
  match (errorHandler_signature_table
      (.obj [("code", .str "23505"), ("message", .str "duplicate key")]) false sampleRequest
      "2024-01-15T10:30:00.000Z" .undefined rfl).2 rfl with
  | ⟨r, hr, h, _⟩ => ⟨r, hr, h rfl⟩

/-- C6 (code evaluated at the failing inputs): on an object with `isJoi` set and no `details`
list, and on `null`, `errorHandler` throws a TypeError and writes no response. -/
theorem errorHandler_throws_on_malformed_faults :
    errorHandler (.value (.obj [("isJoi", .bool true)]) false) sampleRequest
        "2024-01-15T10:30:00.000Z" = .error .typeError
      ∧ errorHandler (.value .null false) sampleRequest
        "2024-01-15T10:30:00.000Z" = .error .typeError
      ∧ errorHandler
          (.value (.obj [("isJoi", .bool true), ("details", .arr [.obj [("message", .str "x")]])])
            false)
          sampleRequest "2024-01-15T10:30:00.000Z" = .error .typeError :=
  ⟨rfl, rfl, rfl⟩

/-- C8 (counterexample): for the keyed structure `{success: false}` the envelope returned by
`createSuccessResponse` has `success: false`. -/
theorem createSuccessResponse_success_counterexample :
    (createSuccessResponse (.obj [("success", .bool false)]) (.str "ok") (.num 200)
        "2024-01-15T10:30:00.000Z").response
      = [("success", .bool false), ("message", .str "ok"),
         ("timestamp", .str "2024-01-15T10:30:00.000Z")] :=
  rfl

/-- C8 (amended): `createSuccessResponse(data, message, statusCode)` returns the given
statusCode; for every sequence data (the empty one included) the envelope is exactly
`success: true`, the message, the timestamp, `data` equal to the sequence and `total` equal to
its length; for every keyed-structure data each of its fields appears at the top level of the
envelope with its value, the envelope has no field besides `success`, `message`, `timestamp`
and those of data (so no `data` field unless data has one), and `success: true`, the message and
the timestamp are kept for the names that data does not itself define. -/
theorem createSuccessResponse_envelope (data message statusCode : JsVal) (now : String) :
    (createSuccessResponse data message statusCode now).statusCode
        = statusCode.withDefault (.num 200)
      ∧ (∀ items, data = .arr items →
          (createSuccessResponse data message statusCode now).response
            = [("success", .bool true),
               ("message", message.withDefault (.str "Operación exitosa")),
               ("timestamp", .str now), ("data", .arr items), ("total", .num items.length)])
      ∧ (∀ fields, data = .obj fields →
          (∀ k v, lookupField fields k = some v →
            lookupField (createSuccessResponse data message statusCode now).response k = some v)
          ∧ (∀ k, hasField (createSuccessResponse data message statusCode now).response k = true →
              k = "success" ∨ k = "message" ∨ k = "timestamp" ∨ hasField fields k = true)
          ∧ (hasField fields "success" = false →
              lookupField (createSuccessResponse data message statusCode now).response "success"
                = some (.bool true))
          ∧ (hasField fields "message" = false →
              lookupField (createSuccessResponse data message statusCode now).response "message"
                = some (message.withDefault (.str "Operación exitosa")))
          ∧ (hasField fields "timestamp" = false →
              lookupField (createSuccessResponse data message statusCode now).response
                "timestamp" = some (.str now))) := by
  refine ⟨rfl, ?_, ?_⟩
  · intro items h
    subst h
    rfl
  · intro fields h
    subst h
    have hresp : (createSuccessResponse (.obj fields) message statusCode now).response
        = assignFields [("success", .bool true),
            ("message", message.withDefault (.str "Operación exitosa")),
            ("timestamp", .str now)] fields := rfl
    have hnone : ∀ k, hasField fields k = false → lookupField fields k = none := by
      intro k hk
      unfold hasField at hk
      cases hl : lookupField fields k with
      | none => rfl
      | some w => simp [hl] at hk
    rw [hresp]
    refine ⟨?_, ?_, ?_, ?_, ?_⟩
    · intro k v hk
      rw [lookupField_assignFields, hk]
    · intro k hk
      unfold hasField at hk ⊢
      rw [lookupField_assignFields] at hk
      cases hl : lookupField fields k with
      | some w => simp
      | none =>
        rw [hl] at hk
        by_cases h1 : "success" = k
        · exact Or.inl h1.symm
        · by_cases h2 : "message" = k
          · exact Or.inr (Or.inl h2.symm)
          · by_cases h3 : "timestamp" = k
            · exact Or.inr (Or.inr (Or.inl h3.symm))
            · simp [lookupField, h1, h2, h3] at hk
    · intro hk
      rw [lookupField_assignFields, hnone _ hk]
      rfl
    · intro hk
      rw [lookupField_assignFields, hnone _ hk]
      rfl
    · intro hk
      rw [lookupField_assignFields, hnone _ hk]
      rfl

/-- C9: on the validator on which the schemas `regs` were registered, for every name
registered with a schema object and every input, `validate` returns `isValid`, `errors` and
`data`, where `errors` is a sequence (the list Ajv left, the empty list when Ajv left `null`),
`data` is the input itself when `isValid` is true and `null` when it is false; for a name that
was never registered `validate` throws `Schema '<name>' not found`. -/
theorem validate_returns_or_throws (compile : JsVal → JsVal → AjvOutcome)
    (regs : List (String × JsVal)) (name : String) (data : JsVal) :
    (∀ fields, lookupField regs name = some (.obj fields) →
        ∃ r, (swaggerValidator compile regs).validate name data = .ok r
          ∧ r.isValid = (compile (.obj fields) data).valid
          ∧ r.errors = ((compile (.obj fields) data).errors).getD []
          ∧ (r.isValid = true → r.data = data)
          ∧ (r.isValid = false → r.data = .null))
      ∧ (lookupField regs name = none →
          (swaggerValidator compile regs).validate name data
            = .error (.error ("Schema '" ++ name ++ "' not found"))) := by
  obtain ⟨h1, h2, h3⟩ := lookupField_swaggerValidator compile regs name
  constructor
  · intro fields hreg
    refine ⟨{ isValid := (compile (.obj fields) data).valid
              errors := ((compile (.obj fields) data).errors).getD []
              data := if (compile (.obj fields) data).valid then data else .null },
      ?_, rfl, rfl, ?_, ?_⟩
    · simp only [SwaggerValidator.validate, h1, h2, h3, hreg, Option.getD, JsVal.truthy]
      rfl
    · intro h
      simp only at h
      simp [h]
    · intro h
      simp only at h
      simp [h]
  · intro hreg
    simp only [SwaggerValidator.validate, h1, hreg, Option.getD, JsVal.truthy]
    rfl

/-- Witness for C9: the registered `PaginationQuery` schema on a query with `page` 0. -/
theorem validate_returns_or_throws_witness :
    ∃ r, sampleValidator.validate "PaginationQuery" (.obj [("page", .num 0)]) = .ok r
      ∧ r.isValid = false ∧ r.errors.length = 1 ∧ r.data = .null :=
  match (validate_returns_or_throws sampleCompile
      [("PaginationQuery",
        .obj [("type", .str "object"),
              ("properties",
                .obj [("page", .obj [("type", .str "integer"), ("minimum", .num 1),
                                     ("default", .num 1)]),
                      ("limit", .obj [("type", .str "integer"), ("minimum", .num 1),
                                      ("maximum", .num 100), ("default", .num 10)]),
                      ("search", .obj [("type", .str "string"), ("minLength", .num 2),
                                       ("maxLength", .num 100)])])])]
      "PaginationQuery" (.obj [("page", .num 0)])).1 _ rfl with
  | ⟨r, hr, hv, he, _, hd⟩ =>
    ⟨r, hr, hv, by rw [he]; rfl, hd hv⟩

/-- C10 (counterexample): on the query `page=0`, which the `PaginationQuery` schema rejects,
`validateQuery` answers 400 with `details.code` equal to `QUERY_VALIDATION_ERROR`, not
`VALIDATION_ERROR`. -/
theorem validateQuery_code_counterexample :
    (sampleValidator.validateQuery "PaginationQuery"
        { sampleRequest with query := .obj [("page", .str "0")] }
        "2024-01-15T10:30:00.000Z").response.map (fun r => (r.status, detailsCode r.body))
      = some (400, some (.str "QUERY_VALIDATION_ERROR")) :=
  rfl

/-- C10 (amended): for each of `validateBody`, `validateQuery` and `validateParams`, whenever
the named schema rejects the request data (for `validateQuery`, the query after its numeric
coercion), the middleware short-circuits: it responds with HTTP 400 and a body
`{success: false, error, details: {code, validation_errors}, timestamp}` whose code is
`VALIDATION_ERROR` for the body, `QUERY_VALIDATION_ERROR` for the query and
`PARAMS_VALIDATION_ERROR` for the path parameters, does not call `next`, and leaves the
request as it was, with no validated data attached. -/
theorem validation_middleware_short_circuits (sv : SwaggerValidator) (schemaName : String)
    (req : Request) (now : String) :
    (∀ result, sv.validate schemaName req.body = .ok result → result.isValid = false →
        sv.validateBody schemaName req now
          = { req := req
              response := some
                { status := 400
                  body := .obj [("success", .bool false),
                                ("error", .str "Datos de entrada inválidos"),
                                ("details",
                                  .obj [("code", .str "VALIDATION_ERROR"),
                                        ("validation_errors",
                                          .obj (SwaggerValidator.collectValidationErrors
                                            result.errors))]),
                                ("timestamp", .str now)] }
              nextCalled := false })
      ∧ (∀ result,
          sv.validate schemaName (.obj (SwaggerValidator.coerceQuery req.query)) = .ok result →
          result.isValid = false →
          sv.validateQuery schemaName req now
            = { req := req
                response := some
                  { status := 400
                    body := .obj [("success", .bool false),
                                  ("error", .str "Parámetros de consulta inválidos"),
                                  ("details",
                                    .obj [("code", .str "QUERY_VALIDATION_ERROR"),
                                          ("validation_errors",
                                            .obj (SwaggerValidator.collectValidationErrors
                                              result.errors))]),
                                  ("timestamp", .str now)] }
                nextCalled := false })
      ∧ (∀ result, sv.validate schemaName req.params = .ok result → result.isValid = false →
          sv.validateParams schemaName req now
            = { req := req
                response := some
                  { status := 400
                    body := .obj [("success", .bool false),
                                  ("error", .str "Parámetros de ruta inválidos"),
                                  ("details",
                                    .obj [("code", .str "PARAMS_VALIDATION_ERROR"),
                                          ("validation_errors",
                                            .obj (SwaggerValidator.collectValidationErrors
                                              result.errors))]),
                                  ("timestamp", .str now)] }
                nextCalled := false }) := by
  refine ⟨?_, ?_, ?_⟩
  · intro result hres hinv
    simp [SwaggerValidator.validateBody, hres, hinv]
  · intro result hres hinv
    simp [SwaggerValidator.validateQuery, hres, hinv]
  · intro result hres hinv
    simp [SwaggerValidator.validateParams, hres, hinv]

/-- Witness for C10: the body `{page: 0}` checked against `PaginationQuery`. -/
theorem validation_middleware_short_circuits_witness :
    (sampleValidator.validateBody "PaginationQuery"
        { sampleRequest with body := .obj [("page", .num 0)] }
        "2024-01-15T10:30:00.000Z")
      = { req := { sampleRequest with body := .obj [("page", .num 0)] }
          response := some
            { status := 400
              body := .obj [("success", .bool false),
                            ("error", .str "Datos de entrada inválidos"),
                            ("details",
                              .obj [("code", .str "VALIDATION_ERROR"),
                                    ("validation_errors",
                                      .obj [("page", .str "must be >= 1")])]),
                            ("timestamp", .str "2024-01-15T10:30:00.000Z")] }
          nextCalled := false } :=
  (validation_middleware_short_circuits sampleValidator "PaginationQuery"
    { sampleRequest with body := .obj [("page", .num 0)] } "2024-01-15T10:30:00.000Z").1
    { isValid := false
      errors := [{ instancePath := "/page"
                   schemaPath := "#/properties/page/minimum"
                   keyword := "minimum"
                   params := .obj [("comparison", .str ">="), ("limit", .num 1)]
                   message := .str "must be >= 1" }]
      data := .null }
    rfl rfl

/-- C11 (code evaluated at the failing input): `validateBody('AuthLogin')` on the body `{}`,
for which Ajv reports the two missing properties `email` and `password`, answers 400 with
`validation_errors` holding the single key `required` and the message of `password` only;
the Joi branch of `errorHandler` keys the same two errors under `email` and `password`. -/
theorem validateBody_loses_required_field :
    (loginValidator.validateBody "AuthLogin" { sampleRequest with body := .obj [] }
        "2024-01-15T10:30:00.000Z").response
      = some { status := 400
               body := .obj [("success", .bool false),
                             ("error", .str "Datos de entrada inválidos"),
                             ("details",
                               .obj [("code", .str "VALIDATION_ERROR"),
                                     ("validation_errors",
                                       .obj [("required",
                                         .str "must have required property 'password'")])]),
                             ("timestamp", .str "2024-01-15T10:30:00.000Z")] }
      ∧ (requiredCompile (.obj [("required", .arr [.str "email", .str "password"])])
          (.obj [])).errors.map List.length = some 2
      ∧ joiValidationErrors
          [.obj [("path", .arr [.str "email"]), ("message", .str "email is required")],
           .obj [("path", .arr [.str "password"]), ("message", .str "password is required")]]
          []
        = .ok [("email", .str "email is required"),
               ("password", .str "password is required")] :=
  ⟨rfl, rfl, rfl⟩

/-- C12 (code evaluated at the failing input): the query `page=1e3&limit=1.5&search=` is
coerced to `page: 1, limit: 1, search: ''`, while the strings `1e3` and `1.5` denote the numbers
1000 and 3/2. -/
theorem coerceQuery_truncates_numeric_text :
    SwaggerValidator.coerceQuery
        (.obj [("page", .str "1e3"), ("limit", .str "1.5"), ("search", .str "")])
      = [("page", .num 1), ("limit", .num 1), ("search", .str "")]
      ∧ toNumber (.str "1e3") = .fin 1000
      ∧ toNumber (.str "1.5") = .fin (3 / 2) := by
  refine ⟨rfl, ?_, ?_⟩
  · decide!
  · decide!

/-- C13 (counterexample): `GET /api/projects?limit=0` asks the store for the range 0..9 and
echoes `pagination.limit = 10`; the requested limit clamped to [1,100] would be 1. -/
theorem getAllProjects_limit_zero_counterexample :
    ProjectController.getAllProjects scriptedStore.traced
        { params := .obj [], query := .obj [("limit", .str "0")], body := .undefined,
          user := .undefined, headers := .obj [] }
        ([.resolves { data := .arr [], error := .null, count := .num 0 }], [])
      = (.ok (.listing (.num 0) (.arr [])
            { page := .num 1, limit := .num 10, offset := .num 0, total := .num 0,
              totalPages := .fin 0, hasNext := false, hasPrev := false }),
         ([], [{ client := none
                 table := "projects"
                 steps := [.select ProjectService.projectOwnerColumns
                             (.obj [("count", .str "exact")]),
                           .order (.str "created_at") (.obj [("ascending", .bool false)]),
                           .range (.val (.num 0)) (.num (.fin 9))] }])) := by
  with_unfolding_all rfl

/-- C13 (amended): when the query's limit (10 when none is given) parses to an integer `n`,
the effective limit is 10 for `n < 1`, 100 for `n > 100` and `n` otherwise: an integer between 1
and 100, which is 10 when no limit is given and 100 for `limit=200`; it is the limit passed to
`ProjectService.getProjectsPaginated` and the one echoed in `pagination.limit`. -/
theorem getAllProjects_effective_limit {σ : Type} (S : Store σ) (req : HttpRequest) (s : σ)
    (limit : JsVal) (n : Int)
    (hlimit : req.query.getProp "limit" = .ok limit)
    (hparse : parseInt (limit.withDefault (.num 10)) = .num n) :
    ∃ effective : Int,
      effective = (if n < 1 then 10 else if 100 < n then 100 else n)
        ∧ 1 ≤ effective ∧ effective ≤ 100
        ∧ (limit = .undefined → effective = 10)
        ∧ (limit = .str "200" → effective = 100)
        ∧ ProjectController.getAllProjects S req s
            = (ProjectService.getProjectsPaginated S (.num effective)
                  (ProjectController.calculatedOffset req.query) (req.query.read "search")
                >>= fun result =>
                  pure (ProjectController.listingResponse
                    ((req.query.read "page").withDefault (.num 1)) (.num effective)
                    (ProjectController.calculatedOffset req.query) result)) s
        ∧ (∀ total projects pagination s',
            ProjectController.getAllProjects S req s
              = (.ok (.listing total projects pagination), s') →
            pagination.limit = .num effective) := by
  have hcalc := calculatedLimit_of_parse limit n hparse
  have hrun : ProjectController.getAllProjects S req s
      = (ProjectService.getProjectsPaginated S
            (.num (if n < 1 then 10 else if 100 < n then 100 else n))
            (ProjectController.calculatedOffset req.query) (req.query.read "search")
          >>= fun result =>
            pure (ProjectController.listingResponse
              ((req.query.read "page").withDefault (.num 1))
              (.num (if n < 1 then 10 else if 100 < n then 100 else n))
              (ProjectController.calculatedOffset req.query) result)) s := by
    simp only [ProjectController.getAllProjects, bind, M.andThen, hlimit, M.ofExcept, M.ret,
      hcalc]
  refine ⟨_, rfl, ?_, ?_, ?_, ?_, hrun, ?_⟩
  · split_ifs <;> omega
  · split_ifs <;> omega
  · intro h
    subst h
    have h10 : (10 : Int) = n := by
      have : JsVal.num 10 = JsVal.num n := hparse
      injection this
    subst h10
    rfl
  · intro h
    subst h
    have h200 : (200 : Int) = n := by
      have : JsVal.num 200 = JsVal.num n := hparse
      injection this
    subst h200
    rfl
  · intro total projects pagination s' h
    rw [hrun] at h
    simp only [bind, M.andThen, pure, M.ret] at h
    split at h
    · rename_i a s1 _
      injection h with h1 _
      injection h1 with h1
      unfold ProjectController.listingResponse at h1
      split at h1
      · injection h1 with _ _ h3
        rw [← h3]
      · exact absurd h1 (by simp)
    · injection h with h1 _
      exact absurd h1 (by simp)

/-- C13 (witness): `GET /api/projects?limit=200` on a store without projects lists with the
effective limit 100. -/
theorem getAllProjects_effective_limit_witness :
    ∃ effective : Int,
      effective = 100
        ∧ ProjectController.getAllProjects scriptedStore
              { params := .obj [], query := .obj [("limit", .str "200")], body := .undefined,
                user := .undefined, headers := .obj [] }
              [.resolves { data := .arr [], error := .null, count := .num 0 }]
            = (.ok (.listing (.num 0) (.arr [])
                  { page := .num 1, limit := .num effective, offset := .num 0, total := .num 0,
                    totalPages := .fin 0, hasNext := false, hasPrev := false }), []) := by
  obtain ⟨effective, he, -, -, -, h200, -, hecho⟩ :=
    getAllProjects_effective_limit scriptedStore
      { params := .obj [], query := .obj [("limit", .str "200")], body := .undefined,
        user := .undefined, headers := .obj [] }
      [.resolves { data := .arr [], error := .null, count := .num 0 }]
      (.str "200") 200 rfl rfl
  have h100 : effective = 100 := h200 rfl
  subst h100
  exact ⟨100, rfl, by with_unfolding_all rfl⟩

/-- C14 (code evaluated at the failing input): for a user with exactly ten projects,
`getUserProjects(userId, 10, 0)` reports `total: 10` and `hasMore: true`, although
`offset + limit < total` is false; `getProjectsPaginated(10, 0)` on ten rows of ten reports
`hasMore: false`. -/
theorem getUserProjects_hasMore_on_last_page :
    ProjectService.getUserProjects scriptedStore (.str "user-1") (.num 10) (.num 0)
        [.resolves { data := tenProjectRows, error := .null, count := .null },
         .resolves { data := .null, error := .null, count := .num 10 }]
      = (.ok (.obj [("success", .bool true),
                    ("data", tenProjectRows),
                    ("total", .num 10),
                    ("pagination", .obj [("limit", .num 10), ("offset", .num 0),
                                         ("hasMore", .bool true)])]), [])
      ∧ Operand.lessThan (Operand.plus (.val (.num 0)) (.val (.num 10))) (.val (.num 10))
          = false
      ∧ ∃ data,
          ProjectService.getProjectsPaginated scriptedStore (.num 10) (.num 0) .undefined
              [.resolves { data := tenProjectRows, error := .null, count := .num 10 },
               .resolves { data := .arr [], error := .null, count := .null }]
            = (.ok (.obj [("success", .bool true),
                          ("data", data),
                          ("total", .num 10),
                          ("pagination", .obj [("limit", .num 10), ("offset", .num 0),
                                               ("hasMore", .bool false)])]), []) := by
  refine ⟨by with_unfolding_all rfl, by with_unfolding_all rfl, _, by with_unfolding_all rfl⟩

/-- C15 (counterexample): `generateUsername` answers `Usuario` for a profile without username
whose full name is `ana@correo.com`, and the author of a project whose profile has no username
and the full name `Ana Ruiz` has the username `Usuario`. -/
theorem author_username_counterexample :
    CommentService.generateUsername
        (.obj [("username", .null), ("full_name", .str "ana@correo.com")])
      = .ok (.str "Usuario")
      ∧ (ProjectService.projectAuthor (.obj [("user_id", .str "user-1")])
          (.obj [("id", .str "user-1"), ("username", .null),
                 ("full_name", .str "Ana Ruiz")])).read "username"
        = .str "Usuario" :=
  ⟨rfl, rfl⟩

/-- C15 (amended): `generateUsername` returns the profile's username when it is truthy;
otherwise, for a non-empty text `full_name`, it returns `Usuario` when the name contains `@` and
else the part of the name before its first space; otherwise `Usuario`.  The author built for a
project row has the profile's username when it is truthy and `Usuario` otherwise, with no use of
`full_name`; this author is the one attached by `processProject` and by `attachAuthor`. -/
theorem author_username_fallback :
    (∀ profiles : JsVal, (profiles.optProp "username").truthy = true →
        CommentService.generateUsername profiles = .ok (profiles.read "username"))
      ∧ (∀ (profiles : JsVal) (name : String),
          (profiles.optProp "username").truthy = false →
          profiles.optProp "full_name" = .str name → name ≠ "" →
          CommentService.generateUsername profiles
            = .ok (.str (if containsChars ['@'] name.data then "Usuario"
                else String.mk (name.data.takeWhile fun c => c != ' ')))
            ∧ ∃ rest : List Char,
                name.data = (name.data.takeWhile fun c => c != ' ') ++ rest
                  ∧ ' ' ∉ (name.data.takeWhile fun c => c != ' ')
                  ∧ (rest = [] ∨ rest.head? = some ' '))
      ∧ (∀ profiles : JsVal,
          (profiles.optProp "username").truthy = false →
          (profiles.optProp "full_name").truthy = false →
          CommentService.generateUsername profiles = .ok (.str "Usuario"))
      ∧ (∀ project profile : JsVal,
          (ProjectService.projectAuthor project profile).read "username"
            = if (profile.optProp "username").truthy then profile.optProp "username"
              else .str "Usuario")
      ∧ (∀ project row : JsVal, ProjectService.processProject project = .ok row →
          row.read "author" = ProjectService.projectAuthor project (project.read "profiles"))
      ∧ (∀ (profilesMap : List (String × JsVal)) (project row : JsVal),
          ProjectService.attachAuthor profilesMap project = .ok row →
          ∃ profile, row.read "author" = ProjectService.projectAuthor project profile) := by
  refine ⟨?_, ?_, ?_, ?_, ?_, ?_⟩
  · intro profiles hu
    unfold CommentService.generateUsername
    rw [if_pos hu]
  · intro profiles name hu hf hne
    have hnull : profiles.isNullish = false := by
      cases hn : profiles.isNullish
      · rfl
      · unfold JsVal.optProp at hf
        rw [hn] at hf
        simp at hf
    have hread : profiles.read "full_name" = .str name := by
      unfold JsVal.optProp at hf
      rw [hnull] at hf
      simpa using hf
    have htruthy : (JsVal.str name).truthy = true := by
      simp [JsVal.truthy, hne]
    constructor
    · unfold CommentService.generateUsername
      rw [if_neg (by simp [hu]), hf, if_pos htruthy, hread]
      unfold jsIncludes
      by_cases hat : containsChars "@".data name.data = true
      · have hat2 : containsChars ['@'] name.data = true := hat
        simp only [hat, hat2, if_true]
      · have hat1 : containsChars "@".data name.data = false := by simpa using hat
        have hat2 : containsChars ['@'] name.data = false := hat1
        simp only [hat1, hat2, Bool.false_eq_true, if_false]
        rfl
    · refine ⟨name.data.dropWhile fun c => c != ' ',
        (takeWhile_append_dropWhile_space name.data).symm, ?_, dropWhile_head_space name.data⟩
      intro hmem
      have := List.mem_takeWhile_imp hmem
      simp at this
  · intro profiles hu hf
    unfold CommentService.generateUsername
    rw [if_neg (by simp [hu]), if_neg (by simp [hf])]
  · intro project profile
    show (profile.optProp "username").orElse (.str "Usuario") = _
    rfl
  · intro project row h
    unfold ProjectService.processProject at h
    split at h
    · exact absurd h (by simp)
    · injection h with h
      rw [← h]
      exact author_read_setField _ _
  · intro profilesMap project row h
    unfold ProjectService.attachAuthor at h
    split at h
    · exact absurd h (by simp)
    · injection h with h
      rw [← h]
      exact ⟨_, author_read_setField _ _⟩

/-- C16 (counterexample): `createComment()` and `createReply()` called without an argument
reject with a TypeError: the destructuring of the parameter happens outside the `try` block. -/
theorem createComment_rejects_counterexample :
    CommentService.createComment likesStore .undefined "2024-05-01T10:00:00.000Z" sampleLikesDb
        = (.error typeErrorValue, sampleLikesDb)
      ∧ CommentService.createReply likesStore .undefined "2024-05-01T10:00:00.000Z"
          sampleLikesDb
        = (.error typeErrorValue, sampleLikesDb) :=
  ⟨rfl, rfl⟩

/-- C16 (amended): on every store whose rejections carry a value other than `null` and
`undefined`, each of the twenty operations of CommentService, ProjectService and ProfileService,
for all arguments (for `createComment` and `createReply`: an argument other than `null` and
`undefined`), resolves from every state to an object with a boolean `success` that has an
`error` field when `success` is false. -/
theorem services_resolve_to_results {σ : Type} (S : Store σ) (hS : S.RejectsWithValue) :
    (∀ projectId page limit sort,
        (CommentService.getProjectComments S projectId page limit sort).ResolvesToResult)
      ∧ (∀ argument now, argument.isNullish = false →
        (CommentService.createComment S argument now).ResolvesToResult)
      ∧ (∀ commentId userId userToken,
        (CommentService.toggleLike S commentId userId userToken).ResolvesToResult)
      ∧ (∀ commentId page limit userToken,
        (CommentService.getCommentReplies S commentId page limit userToken).ResolvesToResult)
      ∧ (∀ argument now, argument.isNullish = false →
        (CommentService.createReply S argument now).ResolvesToResult)
      ∧ (∀ page limit search,
        (ProjectService.getAllProjects S page limit search).ResolvesToResult)
      ∧ (∀ projectId, (ProjectService.getProjectById S projectId).ResolvesToResult)
      ∧ (∀ projectData userToken,
        (ProjectService.createProject S projectData userToken).ResolvesToResult)
      ∧ (∀ projectId updateData userToken,
        (ProjectService.updateProject S projectId updateData userToken).ResolvesToResult)
      ∧ (∀ projectId userToken,
        (ProjectService.deleteProject S projectId userToken).ResolvesToResult)
      ∧ (∀ userId, (ProjectService.getProjectsByUser S userId).ResolvesToResult)
      ∧ (∀ query limit offset,
        (ProjectService.searchProjects S query limit offset).ResolvesToResult)
      ∧ (∀ limit offset search,
        (ProjectService.getProjectsPaginated S limit offset search).ResolvesToResult)
      ∧ (∀ projectId userId,
        (ProjectService.checkProjectOwnership S projectId userId).ResolvesToResult)
      ∧ (∀ userId limit offset,
        (ProjectService.getUserProjects S userId limit offset).ResolvesToResult)
      ∧ (∀ params, (ProfileService.getAllProfiles S params).ResolvesToResult)
      ∧ (∀ profileId, (ProfileService.getProfileById S profileId).ResolvesToResult)
      ∧ (∀ query, (ProfileService.searchProfiles S query).ResolvesToResult)
      ∧ (∀ thirtyDaysAgo startOfMonth,
        (ProfileService.getProfileStats S thirtyDaysAgo startOfMonth).ResolvesToResult)
      ∧ (∀ userId profileData userToken now,
        (ProfileService.updateProfile S userId profileData userToken now).ResolvesToResult) :=
  ⟨fun a b c d => (CommentService_getProjectComments_resolves S hS a b c d).resolves,
   fun a now h => (CommentService_createComment_resolves S hS a now h).resolves,
   fun a b c => (CommentService_toggleLike_resolves S hS a b c).resolves,
   fun a b c d => (CommentService_getCommentReplies_resolves S hS a b c d).resolves,
   fun a now h => (CommentService_createReply_resolves S hS a now h).resolves,
   fun a b c => (ProjectService_getAllProjects_resolves S hS a b c).resolves,
   fun a => (ProjectService_getProjectById_resolves S hS a).resolves,
   fun a b => (ProjectService_createProject_resolves S hS a b).resolves,
   fun a b c => (ProjectService_updateProject_resolves S hS a b c).resolves,
   fun a b => (ProjectService_deleteProject_resolves S hS a b).resolves,
   fun a => (ProjectService_getProjectsByUser_resolves S hS a).resolves,
   fun a b c => (ProjectService_searchProjects_resolves S hS a b c).resolves,
   fun a b c => (ProjectService_getProjectsPaginated_resolves S hS a b c).resolves,
   fun a b => (ProjectService_checkProjectOwnership_resolves S hS a b).resolves,
   fun a b c => (ProjectService_getUserProjects_resolves S hS a b c).resolves,
   fun a => (ProfileService_getAllProfiles_resolves S hS a).resolves,
   fun a => (ProfileService_getProfileById_resolves S hS a).resolves,
   fun a => (ProfileService_searchProfiles_resolves S hS a).resolves,
   fun a b => (ProfileService_getProfileStats_resolves S hS a b).resolves,
   fun a b c now => (ProfileService_updateProfile_resolves S hS a b c now).resolves⟩

/-- C16 (witness): on the store of likes, `createComment` with an ill-typed argument and
`deleteProject` with missing arguments resolve to service results. -/
theorem services_resolve_to_results_witness :
    likesStore.RejectsWithValue
      ∧ (∃ v s', CommentService.createComment likesStore
            (.obj [("projectId", .num 7), ("content", .bool true)])
            "2024-05-01T10:00:00.000Z" sampleLikesDb = (.ok v, s')
          ∧ isServiceResult v = true)
      ∧ (∃ v s', ProjectService.deleteProject likesStore .undefined .null sampleLikesDb
            = (.ok v, s')
          ∧ isServiceResult v = true) :=
  ⟨likesStore_rejectsWithValue,
   (services_resolve_to_results likesStore likesStore_rejectsWithValue).2.1
     (.obj [("projectId", .num 7), ("content", .bool true)]) "2024-05-01T10:00:00.000Z" rfl
     sampleLikesDb,
   (services_resolve_to_results likesStore likesStore_rejectsWithValue).2.2.2.2.2.2.2.2.2.1
     .undefined .null sampleLikesDb⟩

/-- C17: on a route `PUT` or `DELETE /api/projects/:id`, when the ownership query finds the
project with an owner that differs from `req.user.id`, the response is the AuthorizationError
(403) and the only query sent to the store is the ownership query, which is no mutation; when
the owner is the caller, the controller runs after that query, so the comparison precedes every
mutation. -/
theorem ownership_check_blocks_mutation {σ : Type} (S : Store σ) (req : HttpRequest)
    (now : String) (id owner : JsVal) (s s' : σ) (trace : List Query) (row : StoreResponse)
    (hid : req.params.getProp "id" = .ok id)
    (hsel : S.run (ownershipQuery id) s = (.resolves row, s'))
    (herr : row.error.truthy = false)
    (hown : row.data.getProp "user_id" = .ok owner) :
    (ownershipQuery id).isMutation = false
      ∧ (owner.strictEq (req.user.optProp "id") = false →
          updateProjectRoute S.traced req now (s, trace)
              = (.ok { status := 403, body := (AuthorizationError now .undefined).toJSON },
                 (s', trace ++ [ownershipQuery id]))
            ∧ deleteProjectRoute S.traced req now (s, trace)
              = (.ok { status := 403, body := (AuthorizationError now .undefined).toJSON },
                 (s', trace ++ [ownershipQuery id])))
      ∧ (owner.strictEq (req.user.optProp "id") = true →
          updateProjectRoute S.traced req now (s, trace)
              = ProjectController.updateProject S.traced req (s', trace ++ [ownershipQuery id])
            ∧ deleteProjectRoute S.traced req now (s, trace)
              = ProjectController.deleteProject S.traced req
                  (s', trace ++ [ownershipQuery id])) := by
  have h := requireOwnership_traced S req now id owner s s' trace row hid hsel herr hown
  refine ⟨rfl, ?_, ?_⟩
  · intro hdiff
    rw [hdiff] at h
    constructor
    · show M.andThen (requireOwnership S.traced req now) _ (s, trace) = _
      unfold M.andThen
      rw [h]
      rfl
    · show M.andThen (requireOwnership S.traced req now) _ (s, trace) = _
      unfold M.andThen
      rw [h]
      rfl
  · intro hsame
    rw [hsame] at h
    constructor
    · show M.andThen (requireOwnership S.traced req now) _ (s, trace) = _
      unfold M.andThen
      rw [h]
      rfl
    · show M.andThen (requireOwnership S.traced req now) _ (s, trace) = _
      unfold M.andThen
      rw [h]
      rfl

/-- C17 (witness): the user `intruder` asking to change or delete `project-1`, owned by
`owner-1`, is answered 403 and the store receives the ownership query only. -/
theorem ownership_check_blocks_mutation_witness :
    updateProjectRoute scriptedStore.traced intruderRequest "2024-05-01T10:00:00.000Z"
          ([.resolves { data := .obj [("user_id", .str "owner-1")], error := .null,
                        count := .null }], [])
        = (.ok { status := 403
                 body := (AuthorizationError "2024-05-01T10:00:00.000Z" .undefined).toJSON },
           ([], [ownershipQuery (.str "project-1")]))
      ∧ deleteProjectRoute scriptedStore.traced intruderRequest "2024-05-01T10:00:00.000Z"
          ([.resolves { data := .obj [("user_id", .str "owner-1")], error := .null,
                        count := .null }], [])
        = (.ok { status := 403
                 body := (AuthorizationError "2024-05-01T10:00:00.000Z" .undefined).toJSON },
           ([], [ownershipQuery (.str "project-1")])) :=
  (ownership_check_blocks_mutation scriptedStore intruderRequest "2024-05-01T10:00:00.000Z"
    (.str "project-1") (.str "owner-1")
    [.resolves { data := .obj [("user_id", .str "owner-1")], error := .null, count := .null }]
    [] [] { data := .obj [("user_id", .str "owner-1")], error := .null, count := .null }
    rfl rfl rfl rfl).2.1 rfl

/-- C18: on the store of likes, a successful `toggleLike(c, u)` flips the membership of
`(c, u)`: a present row is deleted, the counter of `c` goes from `n` to `n - 1` and the result
is `isLiked: false`; an absent row is inserted, the counter goes to `n + 1` and the result is
`isLiked: true`; the returned `likesCount` is the counter stored after the update; no other
membership and no other counter changes. -/
theorem toggleLike_flips_membership (db : LikesDb) (c u : String) (token : JsVal)
    (hnodup : db.likes.Nodup) (result : JsVal) (db' : LikesDb)
    (hrun : CommentService.toggleLike likesStore (.str c) (.str u) token db = (.ok result, db'))
    (hsucc : result.read "success" = .bool true) :
    ∃ n, db.likesCount c = some n
      ∧ (((c, u) ∈ db.likes ∧ (c, u) ∉ db'.likes ∧ db'.likesCount c = some (n - 1)
            ∧ result = .obj [("success", .bool true), ("likesCount", .num (n - 1)),
                             ("isLiked", .bool false)])
          ∨ ((c, u) ∉ db.likes ∧ (c, u) ∈ db'.likes ∧ db'.likesCount c = some (n + 1)
            ∧ result = .obj [("success", .bool true), ("likesCount", .num (n + 1)),
                             ("isLiked", .bool true)]))
      ∧ (∀ p, p ≠ (c, u) → (p ∈ db'.likes ↔ p ∈ db.likes))
      ∧ (∀ c', c' ≠ c → db'.likesCount c' = db.likesCount c')
      ∧ db'.likes.Nodup := by
  cases hcount : db.likesCount c with
  | none =>
    exfalso
    obtain ⟨db'', h⟩ := toggleLike_missing_comment db c u token hnodup hcount
    rw [h] at hrun
    have hr : result = .obj [("success", .bool false),
        ("error", .str "JSON object requested, multiple (or no) rows returned")] := by
      injection hrun with h1 _
      injection h1 with h1
      exact h1.symm
    rw [hr] at hsucc
    have : JsVal.bool false = JsVal.bool true := hsucc
    injection this with hb
    exact absurd hb (by decide)
  | some n =>
    refine ⟨n, rfl, ?_⟩
    by_cases hmem : (c, u) ∈ db.likes
    · rw [toggleLike_liked db c u token n hnodup hmem hcount] at hrun
      injection hrun with h1 h2
      injection h1 with h1
      subst h1
      subst h2
      refine ⟨Or.inl ⟨hmem, ?_, ?_, rfl⟩, ?_, ?_, ?_⟩
      · simp [LikesDb.addToCounter, LikesDb.deleteLike]
      · simp [LikesDb.addToCounter, LikesDb.deleteLike, hcount]
        rfl
      · intro p hp
        simp [LikesDb.addToCounter, LikesDb.deleteLike, hp]
      · intro c' hc'
        simp [LikesDb.addToCounter, LikesDb.deleteLike, hc']
      · exact hnodup.filter _
    · rw [toggleLike_not_liked db c u token n hmem hcount] at hrun
      injection hrun with h1 h2
      injection h1 with h1
      subst h1
      subst h2
      rw [insertLike_absent db c u hmem]
      refine ⟨Or.inr ⟨hmem, ?_, ?_, rfl⟩, ?_, ?_, ?_⟩
      · simp [LikesDb.addToCounter]
      · simp [LikesDb.addToCounter, hcount]
      · intro p hp
        simp [LikesDb.addToCounter, hp]
      · intro c' hc'
        simp [LikesDb.addToCounter, hc']
      · show (db.likes ++ [(c, u)]).Nodup
        rw [List.nodup_append]
        refine ⟨hnodup, List.nodup_singleton _, ?_⟩
        intro x hx hx'
        have hxe : x = (c, u) := by simpa using hx'
        exact hmem (hxe ▸ hx)

/-- C18 (witness): the first like of `comment-1` by `user-1` inserts the row and returns
`likesCount: 1, isLiked: true`. -/
theorem toggleLike_flips_membership_witness :
    ∃ result db',
      CommentService.toggleLike likesStore (.str "comment-1") (.str "user-1") (.str "token")
          sampleLikesDb = (.ok result, db')
        ∧ result = .obj [("success", .bool true), ("likesCount", .num 1),
                         ("isLiked", .bool true)]
        ∧ ("comment-1", "user-1") ∈ db'.likes
        ∧ db'.likesCount "comment-1" = some 1 := by
  have hrun := toggleLike_not_liked sampleLikesDb "comment-1" "user-1" (.str "token") 0
    (List.not_mem_nil _) rfl
  obtain ⟨n, hn, h, -⟩ := toggleLike_flips_membership sampleLikesDb "comment-1" "user-1"
    (.str "token") List.nodup_nil _ _ hrun rfl
  have hn0 : n = 0 := by
    have : some (0 : Int) = some n := hn
    injection this with h0
    exact h0.symm
  subst hn0
  rcases h with ⟨hm, -⟩ | ⟨-, h2, h3, h4⟩
  · exact absurd hm (List.not_mem_nil _)
  · exact ⟨_, _, hrun, h4, h2, h3⟩

/-- C19: on the store of likes, two calls of `toggleLike(c, u)` in sequence both succeed and
leave the memberships and every counter as they were; from a not-liked pair with counter `n`
the results are `isLiked: true, likesCount: n + 1` and then `isLiked: false, likesCount: n`. -/
theorem toggleLike_twice_restores (db : LikesDb) (c u : String) (token : JsVal) (n : Int)
    (hnodup : db.likes.Nodup) (hcount : db.likesCount c = some n) :
    ∃ r1 db1 r2 db2,
      CommentService.toggleLike likesStore (.str c) (.str u) token db = (.ok r1, db1)
        ∧ CommentService.toggleLike likesStore (.str c) (.str u) token db1 = (.ok r2, db2)
        ∧ (∀ p, p ∈ db2.likes ↔ p ∈ db.likes)
        ∧ (∀ c', db2.likesCount c' = db.likesCount c')
        ∧ ((c, u) ∉ db.likes →
            r1 = .obj [("success", .bool true), ("likesCount", .num (n + 1)),
                       ("isLiked", .bool true)]
              ∧ r2 = .obj [("success", .bool true), ("likesCount", .num n),
                           ("isLiked", .bool false)])
        ∧ ((c, u) ∈ db.likes →
            r1 = .obj [("success", .bool true), ("likesCount", .num (n - 1)),
                       ("isLiked", .bool false)]
              ∧ r2 = .obj [("success", .bool true), ("likesCount", .num n),
                           ("isLiked", .bool true)]) := by
  by_cases hmem : (c, u) ∈ db.likes
  · have h1 := toggleLike_liked db c u token n hnodup hmem hcount
    have hnot1 : (c, u) ∉ ((db.deleteLike c u).addToCounter c (-1)).likes := by
      simp [LikesDb.addToCounter, LikesDb.deleteLike]
    have hcount1 : ((db.deleteLike c u).addToCounter c (-1)).likesCount c = some (n - 1) := by
      simp [LikesDb.addToCounter, LikesDb.deleteLike, hcount]
      rfl
    have h2 := toggleLike_not_liked _ c u token (n - 1) hnot1 hcount1
    rw [insertLike_absent _ c u hnot1] at h2
    rw [show n - 1 + 1 = n by ring] at h2
    refine ⟨_, _, _, _, h1, h2, ?_, ?_, ?_, ?_⟩
    · intro p
      by_cases hp : p = (c, u)
      · subst hp
        simp [LikesDb.addToCounter, LikesDb.deleteLike, hmem]
      · simp [LikesDb.addToCounter, LikesDb.deleteLike, hp]
    · intro c'
      by_cases hc' : c' = c
      · subst hc'
        simp [LikesDb.addToCounter, LikesDb.deleteLike, hcount]
      · simp [LikesDb.addToCounter, LikesDb.deleteLike, hc']
    · intro h
      exact absurd hmem h
    · intro _
      exact ⟨rfl, rfl⟩
  · have h1 := toggleLike_not_liked db c u token n hmem hcount
    rw [insertLike_absent db c u hmem] at h1
    have hnodup1 : (db.likes ++ [(c, u)]).Nodup := by
      rw [List.nodup_append]
      refine ⟨hnodup, List.nodup_singleton _, ?_⟩
      intro x hx hx'
      have hxe : x = (c, u) := by simpa using hx'
      exact hmem (hxe ▸ hx)
    have h2 := toggleLike_liked
      (LikesDb.addToCounter { db with likes := db.likes ++ [(c, u)] } c 1) c u token (n + 1)
      hnodup1 (by simp [LikesDb.addToCounter]) (by simp [LikesDb.addToCounter, hcount])
    rw [show n + 1 - 1 = n by ring] at h2
    refine ⟨_, _, _, _, h1, h2, ?_, ?_, ?_, ?_⟩
    · intro p
      by_cases hp : p = (c, u)
      · subst hp
        simp [LikesDb.addToCounter, LikesDb.deleteLike, hmem]
      · simp [LikesDb.addToCounter, LikesDb.deleteLike, hp]
    · intro c'
      by_cases hc' : c' = c
      · subst hc'
        simp [LikesDb.addToCounter, LikesDb.deleteLike, hcount]
      · simp [LikesDb.addToCounter, LikesDb.deleteLike, hc']
    · intro _
      exact ⟨rfl, rfl⟩
    · intro h
      exact absurd h hmem

/-- C19 (witness): from the never-liked `comment-1` with counter 0 the first call returns
`isLiked: true, likesCount: 1` and the second `isLiked: false, likesCount: 0`. -/
theorem toggleLike_twice_restores_witness :
    ∃ r1 db1 r2 db2,
      CommentService.toggleLike likesStore (.str "comment-1") (.str "user-1") (.str "token")
          sampleLikesDb = (.ok r1, db1)
        ∧ CommentService.toggleLike likesStore (.str "comment-1") (.str "user-1")
            (.str "token") db1 = (.ok r2, db2)
        ∧ r1 = .obj [("success", .bool true), ("likesCount", .num 1), ("isLiked", .bool true)]
        ∧ r2 = .obj [("success", .bool true), ("likesCount", .num 0), ("isLiked", .bool false)]
        ∧ db2.likes = []
        ∧ db2.likesCount "comment-1" = some 0 := by
  obtain ⟨r1, db1, r2, db2, h1, h2, hl, hc, hn, -⟩ :=
    toggleLike_twice_restores sampleLikesDb "comment-1" "user-1" (.str "token") 0
      List.nodup_nil rfl
  obtain ⟨hr1, hr2⟩ := hn (List.not_mem_nil _)
  refine ⟨r1, db1, r2, db2, h1, h2, hr1, hr2, ?_, ?_⟩
  · apply List.eq_nil_iff_forall_not_mem.mpr
    intro p hp
    exact List.not_mem_nil _ ((hl p).mp hp)
  · rw [hc]
    rfl

/-- C20: on the store of likes, if the counter of comment `c` equals its number of membership
rows, then every sequence of toggles on `c` by any users succeeds call by call and leaves the
counter equal to the number of rows; the `likesCount` returned by the last call is the number
of distinct users liking `c`. -/
theorem toggleSequence_keeps_counter (users : List String) (db : LikesDb) (c : String)
    (token : JsVal) (hnodup : db.likes.Nodup)
    (hinv : db.likesCount c = some ((db.rowsOf c).length : Int)) :
    ∃ results db',
      toggleSequence likesStore c token users db = (.ok results, db')
        ∧ results.length = users.length
        ∧ (∀ r ∈ results, r.read "success" = .bool true)
        ∧ db'.likes.Nodup
        ∧ db'.likesCount c = some ((db'.rowsOf c).length : Int)
        ∧ (∀ r, results.getLast? = some r →
            r.read "likesCount" = .num (((db'.rowsOf c).map Prod.snd).dedup.length : Int)) := by
  induction users generalizing db with
  | nil =>
    refine ⟨[], db, rfl, rfl, ?_, hnodup, hinv, ?_⟩
    · intro r hr
      exact absurd hr (List.not_mem_nil _)
    · intro r hr
      simp at hr
  | cons u rest ih =>
    obtain ⟨r, db1, h1, hs1, hn1, hi1, hl1⟩ := toggleLike_keeps_counter db c u token hnodup hinv
    obtain ⟨rs, db2, h2, hlen, hs2, hn2, hi2, hl2⟩ := ih db1 hn1 hi1
    refine ⟨r :: rs, db2, toggleSequence_cons likesStore c token u rest db db1 db2 r rs h1 h2,
      by simp [hlen], ?_, hn2, hi2, ?_⟩
    · intro x hx
      rcases List.mem_cons.mp hx with h | h
      · exact h ▸ hs1
      · exact hs2 x h
    · intro x hx
      cases rest with
      | nil =>
        have hrs : rs = [] := List.length_eq_zero.mp hlen
        subst hrs
        have hdb : db2 = db1 := by
          have : (Except.ok ([] : List JsVal), db1) = (Except.ok [], db2) := h2
          injection this with _ hdb
          exact hdb.symm
        subst hdb
        have hx' : r = x := by simpa using hx
        subst hx'
        have hd : ((db2.rowsOf c).map Prod.snd).dedup = (db2.rowsOf c).map Prod.snd :=
          (rows_users_nodup db2.likes c hn2).dedup
        rw [hl1, hd, List.length_map]
      | cons v rest' =>
        cases rs with
        | nil => simp at hlen
        | cons y ys =>
          apply hl2 x
          rw [List.getLast?_cons_cons] at hx
          exact hx

/-- C20 (witness): the toggles of `ana`, `luis` and `ana` again on `comment-1` leave the
counter equal to the number of rows, and the last result reports it. -/
theorem toggleSequence_keeps_counter_witness :
    ∃ results db',
      toggleSequence likesStore "comment-1" (.str "token") ["ana", "luis", "ana"] sampleLikesDb
          = (.ok results, db')
        ∧ results.length = 3
        ∧ db'.likesCount "comment-1" = some ((db'.rowsOf "comment-1").length : Int)
        ∧ (∀ r, results.getLast? = some r →
            r.read "likesCount"
              = .num (((db'.rowsOf "comment-1").map Prod.snd).dedup.length : Int)) := by
  obtain ⟨results, db', h, hlen, -, -, hi, hl⟩ :=
    toggleSequence_keeps_counter ["ana", "luis", "ana"] sampleLikesDb "comment-1" (.str "token")
      List.nodup_nil rfl
  exact ⟨results, db', h, hlen, hi, hl⟩

/-- C21 (code evaluated at the failing input): `validation.password('short')` is false and
`validation.email('ana.correo.com')` is false, yet `register` with the body
`{email: 'a@b.com', password: 'short'}`, and with a body whose email has no `@`, calls
`AuthService.signUp` with that body and answers with what `signUp` resolves to (here 201). -/
theorem register_calls_signUp_on_invalid_input :
    validation.password (.str "short") = .bool false
      ∧ validation.email (.str "ana.correo.com") = false
      ∧ AuthController.register
          (recordingSignUp (.obj [("success", .bool true),
                                  ("user", .obj [("email", .str "a@b.com")])]))
          { params := .obj [], query := .obj []
            body := .obj [("email", .str "a@b.com"), ("password", .str "short")]
            user := .undefined, headers := .obj [] }
          []
        = (.ok { status := 201
                 body := .obj [("success", .bool true),
                               ("message", .str "Usuario registrado exitosamente"),
                               ("data", .obj [("email", .str "a@b.com")])] },
           [.obj [("email", .str "a@b.com"), ("password", .str "short")]])
      ∧ AuthController.register
          (recordingSignUp (.obj [("success", .bool true),
                                  ("user", .obj [("email", .str "ana.correo.com")])]))
          { params := .obj [], query := .obj []
            body := .obj [("email", .str "ana.correo.com"), ("password", .str "secreto123")]
            user := .undefined, headers := .obj [] }
          []
        = (.ok { status := 201
                 body := .obj [("success", .bool true),
                               ("message", .str "Usuario registrado exitosamente"),
                               ("data", .obj [("email", .str "ana.correo.com")])] },
           [.obj [("email", .str "ana.correo.com"), ("password", .str "secreto123")]]) := by
  refine ⟨rfl, by decide, rfl, rfl⟩

/-- C22 (counterexample): `response.error('Proyecto no encontrado', 404)` is
`{success: false, error, statusCode}`, `response.validation([...])` has no `timestamp` field,
and the 404 answer of `ProjectController.getProjectById` is `{success: false, error}`. -/
theorem response_error_timestamp_counterexample :
    response.error (.str "Proyecto no encontrado") (.num 404)
        = .obj [("success", .bool false), ("error", .str "Proyecto no encontrado"),
                ("statusCode", .num 404)]
      ∧ hasField (response.validation (.arr [.str "Email es requerido"])).ownFields "timestamp"
          = false
      ∧ ProjectController.getProjectById scriptedStore
          { params := .obj [("id", .str "project-9")], query := .obj [], body := .undefined,
            user := .undefined, headers := .obj [] }
          [.resolves { data := .null, error := noSingleRow, count := .null }]
        = (.ok { status := 404
                 body := .obj [("success", .bool false),
                               ("error", .str "Proyecto no encontrado")] }, []) :=
  ⟨rfl, rfl, rfl⟩

/-- C22 (amended): every response body of `errorHandler` has a `timestamp` field holding the
time taken at the conversion of the fault (for a fault that is already an `ApiError`, the time
of its construction); every response written by `validateBody`, `validateQuery` or
`validateParams` has a `timestamp` holding the time of the response; the bodies built by
`response.error` and `response.validation`, and every body answered by the auth, comment and
project controllers embedded here, have no `timestamp` field. -/
theorem error_responses_timestamp :
    (∀ (fault : Fault) (req : Request) (now : String) (r : HandlerResult),
        errorHandler fault req now = .ok r →
        ∃ t, lookupField r.body.ownFields "timestamp" = some (.str t)
          ∧ (t = now ∨ ∃ e, fault = .apiError e ∧ t = e.timestamp))
      ∧ (∀ (sv : SwaggerValidator) (schemaName : String) (req : Request) (now : String)
          (answer : Response),
          (sv.validateBody schemaName req now).response = some answer
            ∨ (sv.validateQuery schemaName req now).response = some answer
            ∨ (sv.validateParams schemaName req now).response = some answer →
          lookupField answer.body.ownFields "timestamp" = some (.str now))
      ∧ (∀ message statusCode : JsVal,
          hasField (response.error message statusCode).ownFields "timestamp" = false)
      ∧ (∀ errors : JsVal,
          hasField (response.validation errors).ownFields "timestamp" = false)
      ∧ (∀ (σ : Type) (S : Store σ) (signUp : JsVal → M σ JsVal) (req : HttpRequest)
          (now : String) (s s' : σ) (answer : Response),
          AuthController.register signUp req s = (.ok answer, s')
            ∨ CommentController.getProjectComments S req s = (.ok answer, s')
            ∨ CommentController.createComment S req now s = (.ok answer, s')
            ∨ CommentController.toggleLike S req s = (.ok answer, s')
            ∨ ProjectController.getProjectById S req s = (.ok answer, s')
            ∨ ProjectController.createProject S req s = (.ok answer, s')
            ∨ ProjectController.updateProject S req s = (.ok answer, s')
            ∨ ProjectController.deleteProject S req s = (.ok answer, s') →
          hasField answer.body.ownFields "timestamp" = false) := by
  refine ⟨?_, ?_, fun _ _ => rfl, fun _ => rfl, ?_⟩
  · intro fault req now r h
    unfold errorHandler at h
    cases fault with
    | apiError e =>
      injection h with h
      subst h
      exact ⟨e.timestamp, rfl, Or.inr ⟨e, rfl, rfl⟩⟩
    | value v syntaxError =>
      simp only at h
      cases hc : convertFault now v syntaxError with
      | error t =>
        rw [hc] at h
        exact absurd h (by simp)
      | ok e =>
        rw [hc] at h
        injection h with h
        subst h
        exact ⟨e.timestamp, rfl, Or.inl (convertFault_timestamp now v syntaxError e hc)⟩
  · intro sv schemaName req now answer h
    rcases h with h | h | h
    · unfold SwaggerValidator.validateBody at h
      repeat' split at h
      all_goals first
        | (injection h with h; subst h; rfl)
        | exact absurd h (by simp)
    · unfold SwaggerValidator.validateQuery at h
      dsimp only at h
      repeat' split at h
      all_goals first
        | (injection h with h; subst h; rfl)
        | exact absurd h (by simp)
    · unfold SwaggerValidator.validateParams at h
      repeat' split at h
      all_goals first
        | (injection h with h; subst h; rfl)
        | exact absurd h (by simp)
  · intro σ S signUp req now s s' answer h
    obtain ⟨h1, h2, h3, h4, h5, h6, h7, h8⟩ := controllers_no_timestamp S signUp req now
    rcases h with h | h | h | h | h | h | h | h
    · exact h1.value _ _ _ s s' answer h
    · exact h2.value _ _ _ s s' answer h
    · exact h3.value _ _ _ s s' answer h
    · exact h4.value _ _ _ s s' answer h
    · exact h5.value _ _ _ s s' answer h
    · exact h6.value _ _ _ s s' answer h
    · exact h7.value _ _ _ s s' answer h
    · exact h8.value _ _ _ s s' answer h

/-- C23 (code evaluated at the failing input): `createReply` with the content of three spaces
inserts a row with the empty content and returns `success: true`; `createComment` with the same
content returns `success: false` and sends no query. -/
theorem createReply_inserts_blank_content :
    CommentService.createReply scriptedStore.traced
        (.obj [("commentId", .str "comment-1"), ("userId", .str "user-1"),
               ("content", .str "   "), ("userToken", .str "token-1")])
        "2024-05-01T10:00:00.000Z"
        ([.resolves { data := .obj [("project_id", .str "project-1")], error := .null,
                      count := .null },
          .resolves { data := .obj [("id", .str "comment-2"), ("content", .str "")],
                      error := .null, count := .null }], [])
      = (.ok (.obj [("success", .bool true),
                    ("data", .obj [("id", .str "comment-2"), ("content", .str "")])]),
         ([], [{ client := some (.str "token-1")
                 table := "comments"
                 steps := [.select "project_id" .undefined, .eq "id" (.str "comment-1"),
                           .single] },
               { client := some (.str "token-1")
                 table := "comments"
                 steps := [.insert (.obj [("project_id", .str "project-1"),
                                          ("parent_id", .str "comment-1"),
                                          ("author_id", .str "user-1"),
                                          ("content", .str ""),
                                          ("created_at", .str "2024-05-01T10:00:00.000Z")]),
                           .select "id, content, created_at, likes_count, author_id" .undefined,
                           .single] },
               { client := some (.str "token-1")
                 table := "comments"
                 steps := [.update (.obj [("replies_count", rawSql "replies_count + 1")]),
                           .eq "id" (.str "comment-1")] }]))
      ∧ CommentService.createComment scriptedStore.traced
          (.obj [("projectId", .str "project-1"), ("userId", .str "user-1"),
                 ("content", .str "   "), ("userToken", .str "token-1")])
          "2024-05-01T10:00:00.000Z" ([], [])
        = (.ok (.obj [("success", .bool false),
                      ("error", .str "Contenido del comentario es requerido")]), ([], [])) :=
  ⟨rfl, rfl⟩

/-- C24 (code evaluated at the failing input): with a valid project UUID, `page=0` and
`limit=101` are answered with status 500 and no query is sent; `limit=abc` is answered with
status 200 and the rows of the store. -/
theorem getProjectComments_invalid_page_is_500 :
    CommentController.getProjectComments scriptedStore.traced
        { params := .obj [("projectId", .str "123e4567-e89b-12d3-a456-426614174000")]
          query := .obj [("page", .str "0")]
          body := .undefined, user := .undefined, headers := .obj [] }
        ([], [])
      = (.ok { status := 500
               body := .obj [("success", .bool false),
                             ("error", .str "Parámetros de paginación inválidos"),
                             ("statusCode", .num 500)] }, ([], []))
      ∧ CommentController.getProjectComments scriptedStore.traced
          { params := .obj [("projectId", .str "123e4567-e89b-12d3-a456-426614174000")]
            query := .obj [("limit", .str "101")]
            body := .undefined, user := .undefined, headers := .obj [] }
          ([], [])
        = (.ok { status := 500
                 body := .obj [("success", .bool false),
                               ("error", .str "Parámetros de paginación inválidos"),
                               ("statusCode", .num 500)] }, ([], []))
      ∧ (CommentController.getProjectComments scriptedStore
          { params := .obj [("projectId", .str "123e4567-e89b-12d3-a456-426614174000")]
            query := .obj [("limit", .str "abc")]
            body := .undefined, user := .undefined, headers := .obj [] }
          [.resolves { data := .arr [.obj [("id", .str "comment-1"),
                                           ("author_id", .str "user-1")]],
                       error := .null, count := .null },
           .resolves { data := .null, error := .null, count := .num 1 }]).1.toOption.map
            (fun answer => (answer.status, answer.body.read "limit"))
        = some (200, .nan) := by
  refine ⟨by with_unfolding_all rfl, by with_unfolding_all rfl, by with_unfolding_all rfl⟩

/-- C25: when the service resolves to `{success: false, error: m}` with a text `m`,
`updateProject` answers 404 if `m` contains `no encontrado`, else 403 if it contains
`no autorizado`, else 400 if it contains `requeridos`, else 500; `deleteProject` likewise
without the 400 case; `getProjectComments`, `createComment` and `toggleLike` of the comment
controller answer 404 if `m` contains `no encontrado` and 500 otherwise. -/
theorem failure_status_by_substring {σ : Type} (S : Store σ) (req : HttpRequest) (now : String)
    (s s' : σ) (result : JsVal) (m : String)
    (hfail : (result.read "success").truthy = false)
    (herr : result.read "error" = .str m) :
    (∀ id token, req.params.getProp "id" = .ok id → (req.user.optProp "id").truthy = true →
        bearerToken req = .ok token → token.truthy = true →
        (ProjectService.updateProject S id req.body token s = (.ok result, s') →
          ProjectController.updateProject S req s
            = (.ok { status :=
                       if containsChars "no encontrado".data m.data then 404
                       else if containsChars "no autorizado".data m.data then 403
                       else if containsChars "requeridos".data m.data then 400
                       else 500
                     body := .obj [("success", .bool false), ("error", .str m)] }, s'))
          ∧ (ProjectService.deleteProject S id token s = (.ok result, s') →
            ProjectController.deleteProject S req s
              = (.ok { status :=
                         if containsChars "no encontrado".data m.data then 404
                         else if containsChars "no autorizado".data m.data then 403
                         else 500
                       body := .obj [("success", .bool false), ("error", .str m)] }, s')))
      ∧ (∀ projectId page,
          req.params.getProp "projectId" = .ok projectId →
          req.query.getProp "page" = .ok page →
          validation.required projectId "Project ID" = .ok true →
          validation.required (page.withDefault (.num 1)) "Page" = .ok true →
          validation.required ((req.query.read "limit").withDefault (.num 10)) "Limit"
            = .ok true →
          CommentController.matchesUuid projectId.toStr.data = true →
          CommentService.getProjectComments S projectId (parseInt (page.withDefault (.num 1)))
              (parseInt ((req.query.read "limit").withDefault (.num 10)))
              ((req.query.read "sort").withDefault (.str "newest")) s = (.ok result, s') →
          CommentController.getProjectComments S req s
            = (.ok { status := if containsChars "no encontrado".data m.data then 404 else 500
                     body := response.error (.str m)
                       (.num (if containsChars "no encontrado".data m.data then 404
                         else 500)) }, s'))
      ∧ (∀ projectId content token,
          req.params.getProp "projectId" = .ok projectId →
          req.body.getProp "content" = .ok content →
          bearerToken req = .ok token →
          validation.required projectId "Project ID" = .ok true →
          validation.required content "Content" = .ok true →
          validation.required (req.user.optProp "id") "User ID" = .ok true →
          validation.required token "User Token" = .ok true →
          CommentService.createComment S
              (.obj [("projectId", projectId), ("userId", req.user.optProp "id"),
                     ("content", content), ("userToken", token)]) now s = (.ok result, s') →
          CommentController.createComment S req now s
            = (.ok { status := if containsChars "no encontrado".data m.data then 404 else 500
                     body := response.error (.str m)
                       (.num (if containsChars "no encontrado".data m.data then 404
                         else 500)) }, s'))
      ∧ (∀ commentId token,
          req.params.getProp "commentId" = .ok commentId →
          bearerToken req = .ok token →
          validation.required commentId "Comment ID" = .ok true →
          validation.required (req.user.optProp "id") "User ID" = .ok true →
          validation.required token "User Token" = .ok true →
          CommentService.toggleLike S commentId (req.user.optProp "id") token s
            = (.ok result, s') →
          CommentController.toggleLike S req s
            = (.ok { status := if containsChars "no encontrado".data m.data then 404 else 500
                     body := response.error (.str m)
                       (.num (if containsChars "no encontrado".data m.data then 404
                         else 500)) }, s')) := by
  have hans := answerFailure_str result m herr
  refine ⟨?_, ?_, ?_, ?_⟩
  · intro id token hid huser htoken htruthy
    constructor
    · intro hsvc
      simp only [ProjectController.updateProject, bind, M.andThen, hid, htoken, M.ofExcept,
        M.ret, huser, htruthy, Bool.not_true, Bool.false_eq_true, if_false, hsvc, hfail, herr,
        jsIncludes_str, pure]
      by_cases h1 : containsChars "no encontrado".data m.data = true
      · simp only [h1, if_true, M.ret, bind, M.andThen, pure]
      · by_cases h2 : containsChars "no autorizado".data m.data = true
        · simp only [h1, h2, if_true, if_false, Bool.false_eq_true, M.ret, bind, M.andThen,
            pure]
        · by_cases h3 : containsChars "requeridos".data m.data = true
          · simp only [h1, h2, h3, if_true, if_false, Bool.false_eq_true, M.ret, bind,
              M.andThen, pure]
          · simp only [h1, h2, h3, if_false, Bool.false_eq_true, M.ret, bind, M.andThen, pure]
    · intro hsvc
      simp only [ProjectController.deleteProject, bind, M.andThen, hid, htoken, M.ofExcept,
        M.ret, huser, htruthy, Bool.not_true, Bool.false_eq_true, if_false, hsvc, hfail, herr,
        jsIncludes_str, pure]
      by_cases h1 : containsChars "no encontrado".data m.data = true
      · simp only [h1, if_true, M.ret, bind, M.andThen, pure]
      · by_cases h2 : containsChars "no autorizado".data m.data = true
        · simp only [h1, h2, if_true, if_false, Bool.false_eq_true, M.ret, bind, M.andThen,
            pure]
        · simp only [h1, h2, if_false, Bool.false_eq_true, M.ret, bind, M.andThen, pure]
  · intro projectId page hid hpage h1 h2 h3 huuid hsvc
    simp only [CommentController.getProjectComments, M.tryCatch, bind, M.andThen, hid, hpage,
      M.ofExcept, M.ret, h1, h2, h3, huuid, Bool.not_true, Bool.false_eq_true, if_false, hsvc,
      hfail, hans, pure]
  · intro projectId content token hid hcontent htoken h1 h2 h3 h4 hsvc
    simp only [CommentController.createComment, M.tryCatch, bind, M.andThen, hid, hcontent,
      htoken, M.ofExcept, M.ret, h1, h2, h3, h4, Bool.false_eq_true, if_false, hsvc,
      hfail, hans, pure]
  · intro commentId token hid htoken h1 h2 h3 hsvc
    simp only [CommentController.toggleLike, M.tryCatch, bind, M.andThen, hid,
      htoken, M.ofExcept, M.ret, h1, h2, h3, Bool.false_eq_true, if_false, hsvc,
      hfail, hans, pure]

/-- C25 (witness): an update that the store refuses with the message `Proyecto no encontrado`
is answered with status 404. -/
theorem failure_status_by_substring_witness :
    ProjectController.updateProject scriptedStore
        { params := .obj [("id", .str "project-1")], query := .obj []
          body := .obj [("title", .str "Nuevo")]
          user := .obj [("id", .str "user-1")]
          headers := .obj [("authorization", .str "Bearer token-1")] }
        [.resolves { data := .null
                     error := .obj [("message", .str "Proyecto no encontrado")]
                     count := .null }]
      = (.ok { status := 404
               body := .obj [("success", .bool false),
                             ("error", .str "Proyecto no encontrado")] }, []) :=
  ((failure_status_by_substring scriptedStore
      { params := .obj [("id", .str "project-1")], query := .obj []
        body := .obj [("title", .str "Nuevo")]
        user := .obj [("id", .str "user-1")]
        headers := .obj [("authorization", .str "Bearer token-1")] }
      "2024-05-01T10:00:00.000Z"
      [.resolves { data := .null
                   error := .obj [("message", .str "Proyecto no encontrado")]
                   count := .null }]
      []
      (.obj [("success", .bool false), ("error", .str "Proyecto no encontrado")])
      "Proyecto no encontrado" rfl rfl).1
    (.str "project-1") (.str "token-1") rfl rfl rfl rfl).1 rfl

/-- C26: for an authenticated caller with a bearer token, the row that `createProject` hands
to `ProjectService.createProject` has `user_id` equal to `req.user.id` for every request body,
and it is the row of the only query sent to the store, an insert. -/
theorem createProject_user_id_is_caller {σ : Type} (S : Store σ) (req : HttpRequest)
    (token : JsVal) (s : σ) (trace : List Query)
    (huser : (req.user.optProp "id").truthy = true)
    (htoken : bearerToken req = .ok token) (htruthy : token.truthy = true) :
    (∀ body : JsVal,
        lookupField (ProjectController.projectData { req with body := body }) "user_id"
          = some (req.user.optProp "id"))
      ∧ ProjectController.createProject S req s
          = (ProjectService.createProject S (.obj (ProjectController.projectData req)) token
              >>= fun result => M.ofExcept (ProjectController.created result)) s
      ∧ (ProjectController.createProject S.traced req (s, trace)).2.2
          = trace ++ [{ client := some token
                        table := "projects"
                        steps := [.insert (.arr [.obj (ProjectController.projectData req)]),
                                  .select ProjectService.projectColumns .undefined,
                                  .single] }] := by
  have hrun : ∀ (τ : Type) (T : Store τ), ProjectController.createProject T req
      = (ProjectService.createProject T (.obj (ProjectController.projectData req)) token
          >>= fun result => M.ofExcept (ProjectController.created result)) := by
    intro τ T
    funext t
    simp only [ProjectController.createProject, bind, M.andThen, htoken, M.ofExcept, M.ret,
      huser, htruthy, Bool.not_true, Bool.false_eq_true, if_false]
  refine ⟨?_, congrFun (hrun σ S) s, ?_⟩
  · intro body
    unfold ProjectController.projectData
    rw [lookupField_setField, if_pos rfl]
  · rw [hrun]
    have htrace := createProject_service_trace S (.obj (ProjectController.projectData req))
      token s trace
    show (M.andThen _ _ (s, trace)).2.2 = _
    unfold M.andThen
    rcases hsvc : ProjectService.createProject S.traced
      (.obj (ProjectController.projectData req)) token (s, trace) with ⟨r, st⟩
    rw [hsvc] at htrace
    cases r with
    | ok result =>
      simp only
      cases hc : ProjectController.created result with
      | ok answer => exact htrace
      | error t => exact htrace
    | error e => exact htrace

/-- C26 (witness): a body that names the `user_id` of another user gives a row with the
`user_id` of the caller. -/
theorem createProject_user_id_is_caller_witness :
    lookupField
        (ProjectController.projectData
          { params := .obj [], query := .obj []
            body := .obj [("title", .str "Mi proyecto"), ("user_id", .str "victima")]
            user := .obj [("id", .str "user-1")]
            headers := .obj [("authorization", .str "Bearer token-1")] })
        "user_id"
      = some (.str "user-1") :=
  (createProject_user_id_is_caller scriptedStore
    { params := .obj [], query := .obj []
      body := .obj [("title", .str "Mi proyecto"), ("user_id", .str "victima")]
      user := .obj [("id", .str "user-1")]
      headers := .obj [("authorization", .str "Bearer token-1")] }
    (.str "token-1") [] [] rfl rfl rfl).1
    (.obj [("title", .str "Mi proyecto"), ("user_id", .str "victima")])

/-- C27 (counterexample): an `ExternalServiceError` built with the details
`{code: 'ETIMEDOUT'}` serialises with `details.code = 'ETIMEDOUT'`, while its own code is
`EXTERNAL_SERVICE_ERROR`. -/
theorem externalServiceError_details_code_counterexample :
    detailsCode (ExternalServiceError "2024-01-15T10:30:00.000Z" (.str "github")
        (.str "sin respuesta") (.obj [("code", .str "ETIMEDOUT")])).toJSON
      = some (.str "ETIMEDOUT")
      ∧ (ExternalServiceError "2024-01-15T10:30:00.000Z" (.str "github")
          (.str "sin respuesta") (.obj [("code", .str "ETIMEDOUT")])).code
        = .str "EXTERNAL_SERVICE_ERROR" :=
  ⟨rfl, rfl⟩

/-- C27 (amended): `toJSON().details.code` is the error's code whenever the error's details
have no field named `code`, and is the value of that field otherwise; it is the code of the
kind for the seven kinds whose constructor takes no details mapping, and for `DatabaseError`
and `ExternalServiceError` exactly when the details mapping given has no `code` field. -/
theorem toJSON_details_code (e : ApiError) (now : String)
    (message extra resource retryAfter service details : JsVal) :
    (hasField e.details.ownFields "code" = false → detailsCode e.toJSON = some e.code)
      ∧ (∀ v, lookupField e.details.ownFields "code" = some v → detailsCode e.toJSON = some v)
      ∧ detailsCode (ValidationError now message extra).toJSON = some (.str "VALIDATION_ERROR")
      ∧ detailsCode (AuthenticationError now message).toJSON
          = some (.str "AUTHENTICATION_ERROR")
      ∧ detailsCode (AuthorizationError now message).toJSON
          = some (.str "AUTHORIZATION_ERROR")
      ∧ detailsCode (NotFoundError now resource).toJSON = some (.str "NOT_FOUND_ERROR")
      ∧ detailsCode (ConflictError now message).toJSON = some (.str "CONFLICT_ERROR")
      ∧ detailsCode (RateLimitError now message retryAfter).toJSON
          = some (.str "RATE_LIMIT_ERROR")
      ∧ detailsCode (RequestError now message).toJSON = some (.str "REQUEST_ERROR")
      ∧ (hasField details.ownFields "code" = false →
          detailsCode (DatabaseError now message details).toJSON = some (.str "DATABASE_ERROR")
            ∧ detailsCode (ExternalServiceError now service message details).toJSON
              = some (.str "EXTERNAL_SERVICE_ERROR"))
      ∧ (∀ v, lookupField details.ownFields "code" = some v →
          detailsCode (DatabaseError now message details).toJSON = some v
            ∧ detailsCode (ExternalServiceError now service message details).toJSON
              = some v) := by
  have hdb : (DatabaseError now message details).details.ownFields = details.ownFields := by
    show ((details.withDefault (.obj [])).withDefault (.obj [])).ownFields = _
    rw [ownFields_withDefault_obj, ownFields_withDefault_obj]
  have hext : lookupField (ExternalServiceError now service message details).details.ownFields
      "code" = lookupField details.ownFields "code" := by
    show lookupField (assignFields [("service", service)]
      (details.withDefault (.obj [])).ownFields) "code" = _
    rw [lookupField_assignFields, ownFields_withDefault_obj]
    cases lookupField details.ownFields "code" <;> rfl
  refine ⟨?_, ?_, rfl, rfl, rfl, rfl, rfl, rfl, rfl, ?_, ?_⟩
  · intro h
    rw [detailsCode_toJSON]
    unfold hasField at h
    cases hl : lookupField e.details.ownFields "code" with
    | none => rfl
    | some w => simp [hl] at h
  · intro v h
    rw [detailsCode_toJSON, h]
  · intro h
    unfold hasField at h
    have hnone : lookupField details.ownFields "code" = none := by
      cases hl : lookupField details.ownFields "code" with
      | none => rfl
      | some w => simp [hl] at h
    constructor
    · rw [detailsCode_toJSON, hdb, hnone]
      rfl
    · rw [detailsCode_toJSON, hext, hnone]
      rfl
  · intro v h
    constructor
    · rw [detailsCode_toJSON, hdb, h]
    · rw [detailsCode_toJSON, hext, h]

/-- C28 (counterexample): when the store answers with an error, `getAllProjects(1, 10, '')`
returns `success: true` with the three mock projects, `total: 3` and `mock: true`. -/
theorem getAllProjects_store_error_counterexample :
    ProjectService.getAllProjects scriptedStore (.num 1) (.num 10) (.str "")
        [.resolves { data := .null
                     error := .obj [("message", .str "connection refused")]
                     count := .null }]
      = (.ok (.obj [("success", .bool true), ("data", mockProjects), ("total", .num 3),
                    ("mock", .bool true)]), []) := by
  with_unfolding_all rfl

/-- C28 (amended): for pagination parameters that pass the test of the function (not
`page < 1`, `limit < 1` or `limit > 100`), `getAllProjects` resolves; its result is either the
fallback `{success: true, data: mockProjects, total, mock: true}` or it carries the rows with
which the store resolved, processed, and the count of the store; it is the fallback whenever
the store answers with an error or rejects. -/
theorem getAllProjects_fallback {σ : Type} (S : Store σ) (page limit search : JsVal) (s : σ)
    (hvalid : (Operand.lessThan (.val (page.withDefault (.num 1))) (.val (.num 1))
      || Operand.lessThan (.val (limit.withDefault (.num 10))) (.val (.num 1))
      || Operand.lessThan (.val (.num 100)) (.val (limit.withDefault (.num 10)))) = false) :
    ∃ v s', ProjectService.getAllProjects S page limit search s = (.ok v, s')
      ∧ (v = mockResult
        ∨ ∃ q r processed, S.run q s = (.resolves r, s') ∧ r.error.truthy = false
            ∧ mapArray (r.data.orElse (.arr [])) ProjectService.processProject = .ok processed
            ∧ v.read "data" = processed
            ∧ v.read "total" = r.count.orElse (.num 0))
      ∧ ((∀ q, (∃ r s1, S.run q s = (.resolves r, s1) ∧ r.error.truthy = true)
            ∨ ∃ e s1, S.run q s = (.rejects e, s1)) →
          v = mockResult) := by
  obtain ⟨v, s', hrun, h⟩ := getAllProjects_body_or_fallback S page limit search s hvalid
  refine ⟨v, s', hrun, ?_, ?_⟩
  · rcases h with h | ⟨q, r, processed, h1, h2, h3, _, h5, h6⟩
    · exact Or.inl h
    · exact Or.inr ⟨q, r, processed, h1, h2, h3, h5, h6⟩
  · intro hfail
    rcases h with h | ⟨q, r, processed, h1, h2, _, _, _, _⟩
    · exact h
    · exfalso
      rcases hfail q with ⟨r1, s1, hr, he⟩ | ⟨e, s1, hr⟩
      · rw [h1] at hr
        injection hr with hr _
        injection hr with hr
        rw [hr, he] at h2
        exact absurd h2 (by simp)
      · rw [h1] at hr
        injection hr with hr _
        exact absurd hr (by simp)

/-- C28 (witness): `getAllProjects(2, 20)` on a store that rejects resolves to the fallback
with the mock projects. -/
theorem getAllProjects_fallback_witness :
    ProjectService.getAllProjects scriptedStore (.num 2) (.num 20) .undefined
        [.rejects (.obj [("message", .str "fetch failed")])]
      = (.ok mockResult, []) := by
  obtain ⟨v, s', hrun, -, hmock⟩ :=
    getAllProjects_fallback scriptedStore (.num 2) (.num 20) .undefined
      [.rejects (.obj [("message", .str "fetch failed")])] (by with_unfolding_all rfl)
  have hv : v = mockResult := hmock fun _ => Or.inr ⟨_, _, rfl⟩
  have hs : s' = [] := by
    have h2 : (ProjectService.getAllProjects scriptedStore (.num 2) (.num 20) .undefined
        [.rejects (.obj [("message", .str "fetch failed")])]).2 = [] := by
      with_unfolding_all rfl
    rw [hrun] at h2
    exact h2
  rw [hrun, hv, hs]

/-- C29 (code evaluated at the failing input): `GET /api/projects?offset=20&limit=10` on 21
projects reports `page: 1`, `offset: 20` and `hasPrev: false`, while
`floor(offset / limit) + 1` is 3. -/
theorem getAllProjects_page_ignores_offset :
    ∃ projects,
      ProjectController.getAllProjects scriptedStore
          { params := .obj [], query := .obj [("offset", .str "20"), ("limit", .str "10")]
            body := .undefined, user := .undefined, headers := .obj [] }
          [.resolves { data := .arr [.obj [("id", .str "project-21"),
                                           ("user_id", .str "user-1")]],
                       error := .null, count := .num 21 },
           .resolves { data := .arr [], error := .null, count := .null }]
        = (.ok (.listing (.num 21) projects
              { page := .num 1, limit := .num 10, offset := .num 20, total := .num 21,
                totalPages := .fin 3, hasNext := true, hasPrev := false }), [])
      ∧ intFloorDivSucc (.num 20) (.num 10) = .num 3 := by
  refine ⟨_, by with_unfolding_all rfl, rfl⟩

/-- C30 (code evaluated at the failing input): with 15 projects in the store,
`getProjectsPaginated(10, 20)` reports `total: 0`, and `getProjectsPaginated(10, 0)` reports
`total: 15`. -/
theorem getProjectsPaginated_total_past_last_row :
    ProjectService.getProjectsPaginated scriptedStore (.num 10) (.num 20) .undefined
        [.resolves { data := .arr [], error := .null, count := .num 15 }]
      = (.ok (.obj [("success", .bool true), ("data", .arr []), ("total", .num 0),
                    ("pagination", .obj [("limit", .num 10), ("offset", .num 20),
                                         ("hasMore", .bool false)])]), [])
      ∧ ∃ data,
          ProjectService.getProjectsPaginated scriptedStore (.num 10) (.num 0) .undefined
              [.resolves { data := tenProjectRows, error := .null, count := .num 15 },
               .resolves { data := .arr [], error := .null, count := .null }]
            = (.ok (.obj [("success", .bool true), ("data", data), ("total", .num 15),
                          ("pagination", .obj [("limit", .num 10), ("offset", .num 0),
                                               ("hasMore", .bool true)])]), []) := by
  refine ⟨by with_unfolding_all rfl, _, by with_unfolding_all rfl⟩

end DevConnect
